import Mathlib

/-!
# The IMU pose tracker of libsurvive (`src/survive_imu.c`)

A shallow embedding of the Kalman-style tracker and of the theorems that
settle the specification's claims about it.

Conventions of the embedding.

* `FLT` is embedded as the exact rationals `ℚ`: unless stated otherwise the
  theorems are statements of exact arithmetic, and NaN is outside the model
  (`isnan` is never true).
* Rounding: lines 70-87 and line 96 are embedded a second time with the result
  of every operation passed through a rounding operator
  (`survive_update_kalman_variance_rnd`,
  `survive_update_position_component_rnd`); `binary64_round` is the IEEE 754
  binary64 rounding to nearest, ties to even, on the rationals below the
  overflow threshold. The claims that rounding decides are settled on these.
* Infinities: the macro `isinf` of `math.h` is a parameter of
  `integrate_imu_velocity_isinf` and `survive_imu_tracker_integrate_imu_isinf`;
  the functions without the suffix are their instances for finite variances,
  where `isinf` is never true.
* A C `assert` that fails aborts the call; a call that aborts is `none`. The
  bound `0xFFFFFFFF / 2` of the timecode assertions is written `2147483647`.
* A `survive_timecode` is a natural number below `2^32`.
* Out-parameters become results; a function that may leave its out-parameter
  untouched receives the previous content of that parameter.
* `update_fn` is assigned once, by `survive_imu_tracker_init`, and never
  reassigned; the indirect call `info.update_fn(tracker, timecode, &info)` is
  resolved to the function `survive_imu_tracker_init` wires to that signal.
* `linmath.c`, `survive.h` and the configuration store are not among the
  sources. Their simple primitives are modelled from the specification
  (marked as such); the others are the fields of `Linmath`, over which the
  theorems quantify.
* The command-line loop of `survive_init_internal` (`src/survive.c`) is
  embedded over C strings as lists of characters; the calls of
  `survive_configs` it makes are recorded in order.
-/

namespace Survive

/-- The scalar type `FLT`, embedded as exact rationals. -/
abbrev FLT := ℚ

/-- `LinmathVec3d`: `FLT[3]`. -/
structure LinmathVec3d where
  x : FLT
  y : FLT
  z : FLT
deriving DecidableEq

/-- `LinmathQuat`: `FLT[4]`, read as `(w, x, y, z)`. -/
structure LinmathQuat where
  w : FLT
  x : FLT
  y : FLT
  z : FLT
deriving DecidableEq

/-- `SurvivePose` / `LinmathPose`: a position and an orientation. -/
structure SurvivePose where
  Pos : LinmathVec3d
  Rot : LinmathQuat
deriving DecidableEq

/-- `SurviveVelocity`: a linear velocity and an axis-angle angular velocity. -/
structure SurviveVelocity where
  Pos : LinmathVec3d
  AxisAngleRot : LinmathVec3d
deriving DecidableEq

/-- `struct kalman_info_t` without its `update_fn` pointer (resolved statically). -/
structure kalman_info_t where
  variance : FLT
  variance_per_second : FLT
  last_update : ℕ
deriving DecidableEq

/-- `struct kalman_info_position_t`. -/
structure kalman_info_position_t where
  info : kalman_info_t
  v : LinmathVec3d
deriving DecidableEq

/-- `struct kalman_info_rotation_t`. -/
structure kalman_info_rotation_t where
  info : kalman_info_t
  v : LinmathQuat
deriving DecidableEq

/-- `struct kalman_info_axis_angle_t`: the source casts a pointer to it to a
pointer to `kalman_info_position_t`, so the two are one type here. -/
abbrev kalman_info_axis_angle_t := kalman_info_position_t

/-- `kalman_info_pose_t`. -/
structure kalman_info_pose_t where
  Pos : kalman_info_position_t
  Rot : kalman_info_rotation_t
deriving DecidableEq

/-- `kalman_info_pose_axis_angle_t`. -/
structure kalman_info_pose_axis_angle_t where
  Pos : kalman_info_position_t
  AxisAngleRot : kalman_info_axis_angle_t
deriving DecidableEq

/-- Modelled from the spec: `PoserDataIMU` is declared in a header that is not
among the sources; the fields are those of the specification's IMU sample. -/
structure PoserDataIMU where
  datamask : ℕ
  accel : LinmathVec3d
  gyro : LinmathVec3d
  timecode : ℕ
deriving DecidableEq

/-- Modelled from the spec: the configuration store is not among the sources;
these are the keys `survive_imu_tracker_init` attaches. -/
structure SurviveConfig where
  filter_pose_var_per_sec : FLT
  filter_pose_rot_var_per_sec : FLT
  filter_vel_var_per_sec : FLT
  filter_vel_rot_var_per_sec : FLT
  imu_acc_variance : FLT
  imu_gyro_variance : FLT
  imu_mahony_variance : FLT
  use_obs_velocity : ℤ
  obs_velocity_var : FLT
  obs_velocity_rot_var : FLT
deriving DecidableEq

/-- The defaults of the `STATIC_CONFIG_ITEM` lines of `survive_imu.c`. -/
def default_config : SurviveConfig where
  filter_pose_var_per_sec := 1 / 10
  filter_pose_rot_var_per_sec := 1 / 10
  filter_vel_var_per_sec := 1
  filter_vel_rot_var_per_sec := 1 / 2
  imu_acc_variance := 1 / 10
  imu_gyro_variance := 1 / 100
  imu_mahony_variance := -1
  use_obs_velocity := 1
  obs_velocity_var := 1
  obs_velocity_rot_var := 1 / 1000

/-- The part of `SurviveContext` the tracker reaches: the configuration it
reads at init and the number of `SV_WARN` lines written so far. -/
structure SurviveContext where
  config : SurviveConfig
  warnings : ℕ
deriving DecidableEq

/-- The part of `SurviveObject` the tracker reaches through `tracker->so`. -/
structure SurviveObject where
  ctx : SurviveContext
  timebase_hz : ℤ
  imu_freq : ℤ
deriving DecidableEq

/-- `SurviveIMUTracker`. -/
structure SurviveIMUTracker where
  so : SurviveObject
  pose : kalman_info_pose_t
  velocity : kalman_info_pose_axis_angle_t
  last_pose : kalman_info_pose_t
  last_data : PoserDataIMU
  last_acc : LinmathVec3d
  integralFB : LinmathVec3d
  acc_bias : FLT
  acc_var : FLT
  gyro_var : FLT
  mahony_variance : FLT
  obs_variance : FLT
  obs_rot_variance : FLT
  use_obs_velocity : ℤ
deriving DecidableEq

/-- The primitives of `linmath.c` and `survive.h` that are not among the
sources and are not rational functions of their arguments. Out-parameters are
results; each is a function of the values of its inputs at the call. -/
structure Linmath where
  quatslerp : LinmathQuat → LinmathQuat → FLT → LinmathQuat
  survive_apply_ang_velocity : LinmathVec3d → FLT → LinmathQuat → LinmathQuat
  survive_find_ang_velocity : FLT → LinmathQuat → LinmathQuat → LinmathVec3d
  quatrotatevector : LinmathQuat → LinmathVec3d → LinmathVec3d
  magnitude3d : LinmathVec3d → FLT
  quatnormalize : LinmathQuat → LinmathQuat

/-! ## Primitives modelled from the specification -/

/-- Modelled from the spec: `survive_timecode_difference` (`survive.h`, absent):
the two's-complement signed delta of two 32-bit timecodes, so that
`timecode_diff(a + k, a) = k` for `|k| < 2^31`. -/
def survive_timecode_difference (most_recent least_recent : ℕ) : ℤ :=
  let d : ℤ := ((most_recent : ℤ) - (least_recent : ℤ)) % 4294967296
  if d < 2147483648 then d else d - 4294967296

/-- Modelled from the spec: `linmath_min` (`linmath.h`, absent), the smaller of
two scalars. -/
def linmath_min (x y : FLT) : FLT := if x < y then x else y

/-- Modelled from the spec: `add3d` (`linmath.c`, absent), componentwise sum. -/
def add3d (a b : LinmathVec3d) : LinmathVec3d := ⟨a.x + b.x, a.y + b.y, a.z + b.z⟩

/-- Modelled from the spec: `sub3d` (`linmath.c`, absent), componentwise difference. -/
def sub3d (a b : LinmathVec3d) : LinmathVec3d := ⟨a.x - b.x, a.y - b.y, a.z - b.z⟩

/-- Modelled from the spec: `scale3d` (`linmath.c`, absent), scaling by a scalar. -/
def scale3d (a : LinmathVec3d) (s : FLT) : LinmathVec3d := ⟨a.x * s, a.y * s, a.z * s⟩

/-- Modelled from the spec: the square of `norm3d` (`linmath.c`, absent), the
L2 norm. `norm3d(v) < c` with `0 < c` is `norm3d_sq v < c * c`. -/
def norm3d_sq (a : LinmathVec3d) : FLT := a.x * a.x + a.y * a.y + a.z * a.z

/-- Modelled from the spec: `quatiszero` (`linmath.c`, absent): the all-zero
sentinel of a rotation that was never set. -/
def quatiszero (q : LinmathQuat) : Bool :=
  decide (q.w = 0) && decide (q.x = 0) && decide (q.y = 0) && decide (q.z = 0)

/-- Modelled from the spec: `cross3d` (`linmath.c`, absent), the cross product. -/
def cross3d (a b : LinmathVec3d) : LinmathVec3d :=
  ⟨a.y * b.z - a.z * b.y, a.z * b.x - a.x * b.z, a.x * b.y - a.y * b.x⟩

/-- Modelled from the spec: `quatadd` (`linmath.c`, absent), componentwise sum. -/
def quatadd (a b : LinmathQuat) : LinmathQuat := ⟨a.w + b.w, a.x + b.x, a.y + b.y, a.z + b.z⟩

/-- The all-zero vector (`memset`). -/
def zero3d : LinmathVec3d := ⟨0, 0, 0⟩

/-- The all-zero quaternion (`memset`), the never-set sentinel. -/
def zeroquat : LinmathQuat := ⟨0, 0, 0, 0⟩

/-! ## The source: `survive_imu.c` -/

/-- The recurring expression
`survive_timecode_difference(a, b) / (FLT)tracker->so->timebase_hz`. -/
def time_diff_seconds (so : SurviveObject) (most_recent least_recent : ℕ) : FLT :=
  (survive_timecode_difference most_recent least_recent : FLT) / (so.timebase_hz : FLT)

/-- `survive_update_kalman_variance` (lines 70-87): returns the incoming weight
and the updated `info`. -/
def survive_update_kalman_variance (tracker : SurviveIMUTracker) (info : kalman_info_t)
    (timecode : ℕ) (new_variance : FLT) : FLT × kalman_info_t :=
  let time_diff := time_diff_seconds tracker.so timecode info.last_update
  if info.variance < 0 then
    (1, { info with last_update := timecode, variance := new_variance })
  else
    let variance := info.variance + info.variance_per_second * time_diff
    let combined_variance := new_variance + variance
    let incoming_weight := if combined_variance = 0 then 1 else variance / combined_variance
    (incoming_weight,
      { info with last_update := timecode, variance := (1 - incoming_weight) * variance })

/-- `survive_imu_tracker_predict_velocity_pos` (lines 251-257): the decayed
variance and the stored linear velocity. -/
def survive_imu_tracker_predict_velocity_pos (tracker : SurviveIMUTracker) (timecode : ℕ) :
    FLT × LinmathVec3d :=
  let time_diff := time_diff_seconds tracker.so timecode tracker.velocity.Pos.info.last_update
  (tracker.velocity.Pos.info.variance + time_diff * tracker.velocity.Pos.info.variance_per_second,
    tracker.velocity.Pos.v)

/-- `survive_imu_tracker_predict_velocity_rot` (lines 259-267). -/
def survive_imu_tracker_predict_velocity_rot (tracker : SurviveIMUTracker) (timecode : ℕ) :
    FLT × LinmathVec3d :=
  let time_diff :=
    time_diff_seconds tracker.so timecode tracker.velocity.AxisAngleRot.info.last_update
  (tracker.velocity.AxisAngleRot.info.variance +
      time_diff * tracker.velocity.AxisAngleRot.info.variance_per_second,
    tracker.velocity.AxisAngleRot.v)

/-- `survive_imu_tracker_predict_pos` (lines 269-293). `out` is the previous
content of the out-parameter; the result is the returned variance and the
content of the out-parameter at return, or `none` when
`assert(norm3d(out) < 1000)` fails. -/
def survive_imu_tracker_predict_pos (tracker : SurviveIMUTracker) (timecode : ℕ)
    (out : LinmathVec3d) : Option (FLT × LinmathVec3d) :=
  if tracker.pose.Pos.info.variance < 0 then
    some (tracker.pose.Pos.info.variance, out)
  else
    let pose_time_diff :=
      linmath_min (1 / 2) (time_diff_seconds tracker.so timecode tracker.pose.Pos.info.last_update)
    let velocity_variance := (survive_imu_tracker_predict_velocity_pos tracker timecode).1
    let vel := (survive_imu_tracker_predict_velocity_pos tracker timecode).2
    if velocity_variance > 10 then
      some (tracker.pose.Pos.info.variance +
          pose_time_diff * tracker.pose.Pos.info.variance_per_second,
        tracker.pose.Pos.v)
    else
      let displacement := scale3d vel pose_time_diff
      let out1 := add3d displacement tracker.pose.Pos.v
      if norm3d_sq out1 < 1000 * 1000 then
        some (tracker.pose.Pos.info.variance +
            pose_time_diff *
              (velocity_variance * velocity_variance + tracker.pose.Pos.info.variance_per_second),
          out1)
      else none

/-- `survive_imu_tracker_predict_rot` (lines 295-316); it has no assertion. -/
def survive_imu_tracker_predict_rot (L : Linmath) (tracker : SurviveIMUTracker) (timecode : ℕ)
    (out : LinmathQuat) : FLT × LinmathQuat :=
  if quatiszero tracker.pose.Rot.v then
    (tracker.pose.Rot.info.variance, out)
  else
    let rot_time_diff :=
      linmath_min (1 / 2) (time_diff_seconds tracker.so timecode tracker.pose.Rot.info.last_update)
    let velocity_variance := (survive_imu_tracker_predict_velocity_rot tracker timecode).1
    let vel := (survive_imu_tracker_predict_velocity_rot tracker timecode).2
    if velocity_variance > 10 then
      (tracker.pose.Rot.info.variance + rot_time_diff * tracker.pose.Rot.info.variance_per_second,
        tracker.pose.Rot.v)
    else
      (tracker.pose.Rot.info.variance +
          rot_time_diff * (velocity_variance + tracker.pose.Rot.info.variance_per_second),
        L.survive_apply_ang_velocity vel rot_time_diff tracker.pose.Rot.v)

/-- `survive_imu_tracker_predict` (lines 317-325): `out` is the previous
content of `*out`. -/
def survive_imu_tracker_predict (L : Linmath) (tracker : SurviveIMUTracker) (timecode : ℕ)
    (out : SurvivePose) : Option SurvivePose :=
  if tracker.velocity.AxisAngleRot.info.variance > 10 ∨ tracker.velocity.Pos.info.variance > 10 then
    some ⟨tracker.pose.Pos.v, tracker.pose.Rot.v⟩
  else
    match survive_imu_tracker_predict_pos tracker timecode out.Pos with
    | none => none
    | some r => some ⟨r.2, (survive_imu_tracker_predict_rot L tracker timecode out.Rot).2⟩

/-- `update_pose_pos` (lines 154-160), the `update_fn` of `pose.Pos`: the
predictor writes into the signal's own value (`info->v` is the out-parameter). -/
def update_pose_pos (tracker : SurviveIMUTracker) (timecode : ℕ) : Option SurviveIMUTracker :=
  if survive_timecode_difference timecode tracker.pose.Pos.info.last_update < 2147483647 then
    match survive_imu_tracker_predict_pos tracker timecode tracker.pose.Pos.v with
    | none => none
    | some r =>
      some { tracker with
        pose := { tracker.pose with
          Pos := { v := r.2,
                   info := { tracker.pose.Pos.info with variance := r.1, last_update := timecode } } } }
  else none

/-- `update_pose_rot` (lines 161-167), the `update_fn` of `pose.Rot`. -/
def update_pose_rot (L : Linmath) (tracker : SurviveIMUTracker) (timecode : ℕ) :
    Option SurviveIMUTracker :=
  if survive_timecode_difference timecode tracker.pose.Rot.info.last_update < 2147483647 then
    let r := survive_imu_tracker_predict_rot L tracker timecode tracker.pose.Rot.v
    some { tracker with
      pose := { tracker.pose with
        Rot := { v := r.2,
                 info := { tracker.pose.Rot.info with variance := r.1, last_update := timecode } } } }
  else none

/-- `update_vel_pos` (lines 169-175), the `update_fn` of `velocity.Pos`. -/
def update_vel_pos (tracker : SurviveIMUTracker) (timecode : ℕ) : Option SurviveIMUTracker :=
  if survive_timecode_difference timecode tracker.velocity.Pos.info.last_update < 2147483647 then
    let r := survive_imu_tracker_predict_velocity_pos tracker timecode
    some { tracker with
      velocity := { tracker.velocity with
        Pos := { v := r.2,
                 info := { tracker.velocity.Pos.info with
                   variance := r.1, last_update := timecode } } } }
  else none

/-- `update_vel_rot` (lines 176-182), the `update_fn` of `velocity.AxisAngleRot`. -/
def update_vel_rot (tracker : SurviveIMUTracker) (timecode : ℕ) : Option SurviveIMUTracker :=
  if survive_timecode_difference timecode tracker.velocity.AxisAngleRot.info.last_update
      < 2147483647 then
    let r := survive_imu_tracker_predict_velocity_rot tracker timecode
    some { tracker with
      velocity := { tracker.velocity with
        AxisAngleRot := { v := r.2,
                          info := { tracker.velocity.AxisAngleRot.info with
                            variance := r.1, last_update := timecode } } } }
  else none

/-- The three `kalman_info_position_t` objects of a tracker a
`struct kalman_info_position_t *` can point to. -/
inductive position_ref where
  | pose_Pos
  | velocity_Pos
  | velocity_AxisAngleRot
deriving DecidableEq

/-- Reading through the pointer. -/
def position_ref.get (pos : position_ref) (tracker : SurviveIMUTracker) : kalman_info_position_t :=
  match pos with
  | .pose_Pos => tracker.pose.Pos
  | .velocity_Pos => tracker.velocity.Pos
  | .velocity_AxisAngleRot => tracker.velocity.AxisAngleRot

/-- Writing through the pointer. -/
def position_ref.set (pos : position_ref) (tracker : SurviveIMUTracker)
    (s : kalman_info_position_t) : SurviveIMUTracker :=
  match pos with
  | .pose_Pos => { tracker with pose := { tracker.pose with Pos := s } }
  | .velocity_Pos => { tracker with velocity := { tracker.velocity with Pos := s } }
  | .velocity_AxisAngleRot =>
    { tracker with velocity := { tracker.velocity with AxisAngleRot := s } }

/-- The call `pos->info.update_fn(tracker, timecode, &pos->info)`, with the
wiring of `survive_imu_tracker_init` (lines 450-454). -/
def position_ref.update_fn (pos : position_ref) (tracker : SurviveIMUTracker) (timecode : ℕ) :
    Option SurviveIMUTracker :=
  match pos with
  | .pose_Pos => update_pose_pos tracker timecode
  | .velocity_Pos => update_vel_pos tracker timecode
  | .velocity_AxisAngleRot => update_vel_rot tracker timecode

/-- `survive_update_position` (lines 89-99). `assert(!isnan(pos->v[i]))` cannot
fail over the rationals. -/
def survive_update_position (tracker : SurviveIMUTracker) (pos : position_ref) (timecode : ℕ)
    (new_variance : FLT) (new_position : LinmathVec3d) : Option SurviveIMUTracker :=
  match pos.update_fn tracker timecode with
  | none => none
  | some t1 =>
    let k := survive_update_kalman_variance t1 (pos.get t1).info timecode new_variance
    let incoming_pose_weight := k.1
    let v := (pos.get t1).v
    some (pos.set t1
      { info := k.2,
        v := ⟨v.x + incoming_pose_weight * (new_position.x - v.x),
              v.y + incoming_pose_weight * (new_position.y - v.y),
              v.z + incoming_pose_weight * (new_position.z - v.z)⟩ })

/-- `survive_update_rotation` (lines 101-117); its only callers pass
`&tracker->pose.Rot`. -/
def survive_update_rotation (L : Linmath) (tracker : SurviveIMUTracker) (timecode : ℕ)
    (new_variance : FLT) (new_rot : LinmathQuat) : Option SurviveIMUTracker :=
  if quatiszero tracker.pose.Rot.v then
    some { tracker with
      pose := { tracker.pose with
        Rot := { v := new_rot,
                 info := { tracker.pose.Rot.info with
                   variance := new_variance, last_update := timecode } } } }
  else
    match update_pose_rot L tracker timecode with
    | none => none
    | some t1 =>
      let k := survive_update_kalman_variance t1 t1.pose.Rot.info timecode new_variance
      let incoming_pose_weight := k.1
      some { t1 with
        pose := { t1.pose with
          Rot := { info := k.2, v := L.quatslerp t1.pose.Rot.v new_rot incoming_pose_weight } } }

/-- `survive_update_axis_angle_rotation` (lines 119-124); its only callers pass
`&tracker->velocity.AxisAngleRot`. -/
def survive_update_axis_angle_rotation (tracker : SurviveIMUTracker) (timecode : ℕ)
    (new_variance : FLT) (new_rot : LinmathVec3d) : Option SurviveIMUTracker :=
  match update_vel_rot tracker timecode with
  | none => none
  | some t1 =>
    survive_update_position t1 position_ref.velocity_AxisAngleRot timecode new_variance new_rot

/-- `survive_update_pose` (lines 126-131), called with `&tracker->pose`;
`new_variance` is the array `R[0], R[1]`. -/
def survive_update_pose (L : Linmath) (tracker : SurviveIMUTracker) (timecode : ℕ)
    (new_variance : FLT × FLT) (new_pose : SurvivePose) : Option SurviveIMUTracker :=
  match survive_update_position tracker position_ref.pose_Pos timecode new_variance.1
      new_pose.Pos with
  | none => none
  | some t1 => survive_update_rotation L t1 timecode new_variance.2 new_pose.Rot

/-- `survive_update_pose_axis_angle` (lines 132-137), called with
`&tracker->velocity`. -/
def survive_update_pose_axis_angle (tracker : SurviveIMUTracker) (timecode : ℕ)
    (new_variance : FLT × FLT) (new_pose : SurviveVelocity) : Option SurviveIMUTracker :=
  match survive_update_position tracker position_ref.velocity_Pos timecode new_variance.1
      new_pose.Pos with
  | none => none
  | some t1 => survive_update_axis_angle_rotation t1 timecode new_variance.2 new_pose.AxisAngleRot

/-- `survive_imu_tracker_integrate_rotation` (lines 139-142). -/
def survive_imu_tracker_integrate_rotation (L : Linmath) (tracker : SurviveIMUTracker)
    (timecode : ℕ) (Rot : LinmathQuat) (R : FLT) : Option SurviveIMUTracker :=
  survive_update_rotation L tracker timecode R Rot

/-- `survive_imu_tracker_integrate_angular_velocity` (lines 144-147). -/
def survive_imu_tracker_integrate_angular_velocity (tracker : SurviveIMUTracker) (timecode : ℕ)
    (Rot : LinmathVec3d) (R : FLT) : Option SurviveIMUTracker :=
  survive_update_axis_angle_rotation tracker timecode R Rot

/-- `survive_imu_tracker_integrate_velocity` (lines 149-152). -/
def survive_imu_tracker_integrate_velocity (tracker : SurviveIMUTracker) (timecode : ℕ)
    (Rv : FLT × FLT) (vel : SurviveVelocity) : Option SurviveIMUTracker :=
  survive_update_pose_axis_angle tracker timecode Rv vel

/-- `survive_imu_tracker_update` (lines 327-333): the tracker afterwards and
the pose written to `*out`. -/
def survive_imu_tracker_update (L : Linmath) (tracker : SurviveIMUTracker) (timecode : ℕ) :
    Option (SurviveIMUTracker × SurvivePose) :=
  match update_pose_pos tracker timecode with
  | none => none
  | some t1 =>
    match update_pose_rot L t1 timecode with
    | none => none
    | some t2 => some (t2, ⟨t2.pose.Pos.v, t2.pose.Rot.v⟩)

/-- `SV_WARN`: one more warning in the context's log. -/
def sv_warn (tracker : SurviveIMUTracker) : SurviveIMUTracker :=
  { tracker with
    so := { tracker.so with
      ctx := { tracker.so.ctx with warnings := tracker.so.ctx.warnings + 1 } } }

/-- `survive_imu_tracker_integrate_observation` (lines 335-403). The
diagnostics `dist3d` and `quatdifference` are pure and their results unused;
the diagnostic predict is kept since its assertion can abort the call. Its
out-parameter `ppose` is an uninitialised local, whose content is never read. -/
def survive_imu_tracker_integrate_observation (L : Linmath) (timecode : ℕ)
    (tracker : SurviveIMUTracker) (pose : SurvivePose) (R : FLT × FLT) :
    Option SurviveIMUTracker :=
  match survive_imu_tracker_predict L tracker timecode ⟨zero3d, zeroquat⟩ with
  | none => none
  | some _ =>
    match survive_update_pose L tracker timecode R pose with
    | none => none
    | some t1 =>
      let time_diff := time_diff_seconds t1.so timecode t1.last_pose.Pos.info.last_update
      if timecode = t1.pose.Pos.info.last_update ∧ timecode = t1.pose.Rot.info.last_update then
        let comparison_pose : kalman_info_pose_t :=
          { Pos := { info := { variance := R.1, variance_per_second := 0, last_update := timecode },
                     v := pose.Pos },
            Rot := { info := { variance := R.2, variance_per_second := 0, last_update := 0 },
                     v := pose.Rot } }
        if ¬ quatiszero t1.last_pose.Rot.v = true ∧ time_diff ≠ 0 ∧ t1.use_obs_velocity ≠ 0 then
          let t2 := if time_diff > 1 then sv_warn t1 else t1
          let velocity : SurviveVelocity :=
            { AxisAngleRot :=
                L.survive_find_ang_velocity time_diff t2.last_pose.Rot.v comparison_pose.Rot.v,
              Pos := scale3d (sub3d comparison_pose.Pos.v t2.last_pose.Pos.v) (1 / time_diff) }
          let vp : FLT × FLT :=
            (comparison_pose.Pos.info.variance + t2.last_pose.Pos.info.variance + t2.obs_variance,
             comparison_pose.Rot.info.variance + t2.last_pose.Rot.info.variance +
               t2.obs_rot_variance)
          match survive_imu_tracker_integrate_velocity t2 timecode vp velocity with
          | none => none
          | some t3 => some { t3 with last_pose := comparison_pose }
        else
          some { t1 with last_pose := comparison_pose }
      else none

/-- `survive_imu_tracker_init` (lines 423-467): `memset` to zero, then the
assignments; `survive_attach_configf`/`survive_attach_configi` store the
configured value of the key in the attached variable. The `SV_INFO` lines
write no warning. -/
def survive_imu_tracker_init (so : SurviveObject) : SurviveIMUTracker where
  so := so
  pose :=
    { Pos := { info := { variance := -1,
                         variance_per_second := so.ctx.config.filter_pose_var_per_sec,
                         last_update := 0 },
               v := zero3d },
      Rot := { info := { variance := -1,
                         variance_per_second := so.ctx.config.filter_pose_rot_var_per_sec,
                         last_update := 0 },
               v := zeroquat } }
  velocity :=
    { Pos := { info := { variance := 1 / 1000,
                         variance_per_second := so.ctx.config.filter_vel_var_per_sec,
                         last_update := 0 },
               v := zero3d },
      AxisAngleRot := { info := { variance := 1 / 1000,
                                  variance_per_second := so.ctx.config.filter_vel_rot_var_per_sec,
                                  last_update := 0 },
                        v := zero3d } }
  last_pose :=
    { Pos := { info := { variance := 0, variance_per_second := 0, last_update := 0 },
               v := zero3d },
      Rot := { info := { variance := 0, variance_per_second := 0, last_update := 0 },
               v := zeroquat } }
  last_data := { datamask := 0, accel := zero3d, gyro := zero3d, timecode := 0 }
  last_acc := zero3d
  integralFB := zero3d
  acc_bias := 1
  acc_var := so.ctx.config.imu_acc_variance
  gyro_var := so.ctx.config.imu_gyro_variance
  mahony_variance := so.ctx.config.imu_mahony_variance
  obs_variance := so.ctx.config.obs_velocity_var
  obs_rot_variance := so.ctx.config.obs_velocity_rot_var
  use_obs_velocity := so.ctx.config.use_obs_velocity

/-- `mahony_ahrs` (lines 15-57): the tracker afterwards (only `integralFB` can
change, under `int_gain > 0`) and the quaternion written to `q`. -/
def mahony_ahrs (L : Linmath) (tracker : SurviveIMUTracker) (q : LinmathQuat)
    (_gyro _accel : LinmathVec3d) : SurviveIMUTracker × LinmathQuat :=
  let sample_f : FLT := (tracker.so.imu_freq : FLT)
  let prop_gain : FLT := 1 / 2
  let int_gain : FLT := 0
  let mag_accel := L.magnitude3d _accel
  let fused : SurviveIMUTracker × LinmathVec3d :=
    if mag_accel ≠ 0 then
      let accel := scale3d _accel (1 / mag_accel)
      let v : LinmathVec3d :=
        ⟨q.x * q.z - q.w * q.y, q.w * q.x + q.y * q.z, q.w * q.w - 1 / 2 + q.z * q.z⟩
      let error := cross3d accel v
      let fed : SurviveIMUTracker × LinmathVec3d :=
        if int_gain > 0 then
          let fb_correction := scale3d error (int_gain * 2 / sample_f)
          let integralFB := add3d tracker.integralFB fb_correction
          ({ tracker with integralFB := integralFB }, add3d _gyro integralFB)
        else (tracker, _gyro)
      (fed.1, add3d fed.2 (scale3d error (prop_gain * 2)))
    else (tracker, _gyro)
  let gyro := scale3d fused.2 ((1 / 2) / sample_f)
  let correction : LinmathQuat :=
    ⟨-q.x * gyro.x - q.y * gyro.y - q.z * gyro.z,
     q.w * gyro.x + q.y * gyro.z - q.z * gyro.y,
     q.w * gyro.y - q.x * gyro.z + q.z * gyro.x,
     q.w * gyro.z + q.x * gyro.y - q.y * gyro.x⟩
  (fused.1, L.quatnormalize (quatadd q correction))

/-- `RotateAccel` (lines 61-68): the value written to `rAcc`. -/
def RotateAccel (L : Linmath) (rot : LinmathQuat) (accel : LinmathVec3d) : LinmathVec3d :=
  let G : LinmathVec3d := ⟨0, 0, -1⟩
  scale3d (add3d (L.quatrotatevector rot accel) G) (98066 / 10000)

/-- The orientation step of `survive_imu_tracker_integrate_imu` (lines
192-197): with `mahony_variance >= 0`, the Mahony filter runs on a copy of the
stored quaternion and its result is submitted as a rotation measurement. -/
def integrate_imu_mahony (L : Linmath) (tracker : SurviveIMUTracker) (data : PoserDataIMU) :
    Option SurviveIMUTracker :=
  if tracker.mahony_variance ≥ 0 then
    survive_imu_tracker_integrate_rotation L
      (mahony_ahrs L tracker tracker.pose.Rot.v data.gyro data.accel).1 data.timecode
      (mahony_ahrs L tracker tracker.pose.Rot.v data.gyro data.accel).2
      (mahony_ahrs L tracker tracker.pose.Rot.v data.gyro data.accel).1.mahony_variance
  else some tracker

/-- The time-gap test of `survive_imu_tracker_integrate_imu` (lines 213-216):
`SV_WARN`, then `assert(time_diff < 10)`, whose failure aborts the call. -/
def integrate_imu_time_gap (tracker : SurviveIMUTracker) (time_diff : FLT) :
    Option SurviveIMUTracker :=
  if time_diff > 1 then (if time_diff < 10 then some (sv_warn tracker) else none)
  else some tracker

/-- The velocity step of `survive_imu_tracker_integrate_imu` (lines 218-238);
`new_rot` is `new_velocity.AxisAngleRot` and `Rv`, `time_diff` the locals
computed at lines 205-211. The macro `isinf` (`math.h`) is a parameter: no
rational is infinite, so the tests `!isinf(Rv[0])` and `!isinf(Rv[1])` are
kept as tests of a predicate of the caller's choice. -/
def integrate_imu_velocity_isinf (isinf : FLT → Bool) (L : Linmath) (tracker : SurviveIMUTracker)
    (data : PoserDataIMU) (new_rot : LinmathVec3d) (Rv : FLT × FLT) (time_diff : FLT) :
    Option SurviveIMUTracker :=
  if ¬ isinf Rv.1 = true ∧ tracker.acc_var > 0 then
    let acc := scale3d data.accel tracker.acc_bias
    let rAcc := RotateAccel L tracker.pose.Rot.v acc
    let avgAcc := scale3d (add3d rAcc tracker.last_acc) (1 / 2 * time_diff)
    let new_velocity : SurviveVelocity :=
      { Pos := add3d tracker.velocity.Pos.v avgAcc, AxisAngleRot := new_rot }
    survive_imu_tracker_integrate_velocity { tracker with last_acc := rAcc } data.timecode Rv
      new_velocity
  else if ¬ isinf Rv.2 = true ∧ tracker.gyro_var > 0 then
    survive_imu_tracker_integrate_angular_velocity tracker data.timecode new_rot Rv.2
  else some tracker

/-- The velocity step on finite variances: `integrate_imu_velocity_isinf` with
an `isinf` that is never true, as it is on every rational. -/
def integrate_imu_velocity (L : Linmath) (tracker : SurviveIMUTracker) (data : PoserDataIMU)
    (new_rot : LinmathVec3d) (Rv : FLT × FLT) (time_diff : FLT) : Option SurviveIMUTracker :=
  integrate_imu_velocity_isinf (fun _ => false) L tracker data new_rot Rv time_diff

/-- `survive_imu_tracker_integrate_imu` (lines 184-249) on finite variances:
the warm-up test, the orientation step, the locals of lines 205-211, the
time-gap test, the velocity step, and the caching of the sample. -/
def survive_imu_tracker_integrate_imu (L : Linmath) (tracker : SurviveIMUTracker)
    (data : PoserDataIMU) : Option SurviveIMUTracker :=
  if tracker.last_data.datamask = 0 ∨ tracker.pose.Rot.info.variance < 0 ∨
      tracker.pose.Pos.info.variance < 0 then
    some { tracker with last_data := data }
  else
    match integrate_imu_mahony L tracker data with
    | none => none
    | some t1 =>
      let new_velocity_AxisAngleRot := L.quatrotatevector t1.pose.Rot.v data.gyro
      let Rv : FLT × FLT :=
        (t1.pose.Rot.info.variance + t1.velocity.Pos.info.variance + t1.acc_var,
         t1.pose.Rot.info.variance + t1.gyro_var)
      let time_diff := time_diff_seconds t1.so data.timecode t1.last_data.timecode
      match integrate_imu_time_gap t1 time_diff with
      | none => none
      | some t2 =>
        match integrate_imu_velocity L t2 data new_velocity_AxisAngleRot Rv time_diff with
        | none => none
        | some t3 => some { t3 with last_data := data }

/-- `survive_imu_tracker_integrate_imu` (lines 184-249) with the macro `isinf`
as a parameter: the same steps, the velocity step testing `isinf` on `Rv[0]`
and `Rv[1]`. `survive_imu_tracker_integrate_imu` is its instance for an `isinf`
that is never true. -/
def survive_imu_tracker_integrate_imu_isinf (isinf : FLT → Bool) (L : Linmath)
    (tracker : SurviveIMUTracker) (data : PoserDataIMU) : Option SurviveIMUTracker :=
  if tracker.last_data.datamask = 0 ∨ tracker.pose.Rot.info.variance < 0 ∨
      tracker.pose.Pos.info.variance < 0 then
    some { tracker with last_data := data }
  else
    match integrate_imu_mahony L tracker data with
    | none => none
    | some t1 =>
      let new_velocity_AxisAngleRot := L.quatrotatevector t1.pose.Rot.v data.gyro
      let Rv : FLT × FLT :=
        (t1.pose.Rot.info.variance + t1.velocity.Pos.info.variance + t1.acc_var,
         t1.pose.Rot.info.variance + t1.gyro_var)
      let time_diff := time_diff_seconds t1.so data.timecode t1.last_data.timecode
      match integrate_imu_time_gap t1 time_diff with
      | none => none
      | some t2 =>
        match integrate_imu_velocity_isinf isinf L t2 data new_velocity_AxisAngleRot Rv
            time_diff with
        | none => none
        | some t3 => some { t3 with last_data := data }

/-- The caller's loop: the IMU samples are submitted one after another; an
aborted call ends the run. -/
def integrate_imu_samples (L : Linmath) :
    SurviveIMUTracker → List PoserDataIMU → Option SurviveIMUTracker
  | tracker, [] => some tracker
  | tracker, data :: rest =>
    match survive_imu_tracker_integrate_imu L tracker data with
    | none => none
    | some t1 => integrate_imu_samples L t1 rest

/-! ## The source: `survive.c` -/

/-- A C string: its characters before the terminating NUL. -/
abbrev CString := List Char

/-- One call `survive_configs(ctx, tag, SC_OVERRIDE | SC_SET, value)`;
`survive_configs` itself (`survive_config.c`) is not part of the sources. -/
structure ConfigCall where
  /-- The key passed as second argument. -/
  tag : CString
  /-- The value passed as last argument. -/
  value : CString
deriving DecidableEq

/-- What the command-line loop of `survive_init_internal` (lines 132-171)
leaves behind: the flag `showhelp`, the calls of `survive_configs` in order,
and the number of error lines written to `stderr`. -/
structure ArgsOutcome where
  /-- The local `showhelp`, as a boolean. -/
  showhelp : Bool
  /-- The calls of `survive_configs`, oldest first. -/
  calls : List ConfigCall
  /-- The number of `Error:` lines written. -/
  errors : ℕ
deriving DecidableEq

/-- The `switch ((*av)[1])` of lines 142-160: the local `vartoupdate` (`none`
for the null pointer) and the outcome after the switch. The character after
the end of a one-character argument is the NUL, which takes the `default`
label. -/
def switch_vartoupdate (av : CString) (r : ArgsOutcome) : Option CString × ArgsOutcome :=
  match av.get? 1 with
  | some '-' => (some (av.drop 2), r)
  | some 'h' => (none, { r with showhelp := true })
  | some 'p' => (some "defaultposer".toList, r)
  | some 'l' => (some "lighthousecount".toList, r)
  | some 'c' => (some "configfile".toList, r)
  | _ => (none, { r with showhelp := true, errors := r.errors + 1 })

/-- The loop `for (; av < argvend; av++)` of lines 136-171 over the remaining
arguments. The call of `survive_configs` receives `*av + 2`, the argument from
its third character on, and `*(av + 1)`; the extra `av++` skips the value. -/
def process_args : List CString → ArgsOutcome → ArgsOutcome
  | [], r => r
  | av :: rest, r =>
    if av.head? ≠ some '-' then process_args rest { r with showhelp := true }
    else
      match switch_vartoupdate av r with
      | (none, r1) => process_args rest r1
      | (some _, r1) =>
        match rest with
        | [] => { r1 with showhelp := true, errors := r1.errors + 1 }
        | value :: rest2 =>
          process_args rest2 { r1 with calls := r1.calls ++ [⟨av.drop 2, value⟩] }

/-- The command-line part of `survive_init_internal` (lines 131-182):
`av = argv + 1`, the loop, and the result: `none` for the null pointer
returned after the usage text, otherwise the calls of `survive_configs` made
on the new context. -/
def survive_init_internal (argv : List CString) : Option (List ConfigCall) :=
  if (process_args argv.tail ⟨false, [], 0⟩).showhelp then none
  else some (process_args argv.tail ⟨false, [], 0⟩).calls

/-- The key the usage text (lines 175-180) names for a short option. -/
def usage_key (c : Char) : Option CString :=
  if c = 'p' then some "defaultposer".toList
  else if c = 'l' then some "lighthousecount".toList
  else if c = 'c' then some "configfile".toList
  else none

/-! ## Binary64 arithmetic for the update lines -/

/-- Round to the nearest integer, ties to the even one. -/
def round_half_even (y : ℚ) : ℤ :=
  if y - ⌊y⌋ < 1 / 2 then ⌊y⌋
  else if 1 / 2 < y - ⌊y⌋ then ⌊y⌋ + 1
  else if ⌊y⌋ % 2 = 0 then ⌊y⌋ else ⌊y⌋ + 1

/-- The exponent of the binade of a non-negative `x` in binary64,
`floor(log2 x)`, held at `-1022` in the subnormal range. -/
def binary64_exponent (x : ℚ) : ℤ := max (Int.log 2 x) (-1022)

/-- The binary64 rounding of a non-negative rational below the overflow
threshold: the nearest multiple of the unit in the last place of its binade
(53 significant bits), ties to the even multiple. -/
def binary64_round_magnitude (x : ℚ) : ℚ :=
  (round_half_even (x / 2 ^ (binary64_exponent x - 52)) : ℚ) * 2 ^ (binary64_exponent x - 52)

/-- IEEE 754 binary64 rounding to nearest, ties to even, of a rational whose
magnitude is below the overflow threshold; the rounding is symmetric in the
sign. Overflow to an infinity and NaN are outside this function. -/
def binary64_round (x : ℚ) : ℚ :=
  if x < 0 then -binary64_round_magnitude (-x) else binary64_round_magnitude x

/-- The laws of a rounding of non-negative results that the bounds below rely
on: monotone on the non-negative rationals, exact at `0` and `1`, and exact on
its own results. The identity (exact arithmetic) and `binary64_round` satisfy
them. -/
def rounding_laws (rnd : FLT → FLT) : Prop :=
  (∀ a b, 0 ≤ a → a ≤ b → rnd a ≤ rnd b) ∧ rnd 0 = 0 ∧ rnd 1 = 1 ∧ ∀ x, rnd (rnd x) = rnd x

/-- `survive_update_kalman_variance` (lines 70-87) in floating point: the
result of every operation is rounded by `rnd`; the conversions of the integer
time difference and of `timebase_hz` to `FLT` are exact. With `rnd` the
identity it is `survive_update_kalman_variance`. -/
def survive_update_kalman_variance_rnd (rnd : FLT → FLT) (tracker : SurviveIMUTracker)
    (info : kalman_info_t) (timecode : ℕ) (new_variance : FLT) : FLT × kalman_info_t :=
  let time_diff := rnd (time_diff_seconds tracker.so timecode info.last_update)
  if info.variance < 0 then
    (1, { info with last_update := timecode, variance := new_variance })
  else
    let variance := rnd (info.variance + rnd (info.variance_per_second * time_diff))
    let combined_variance := rnd (new_variance + variance)
    let incoming_weight := if combined_variance = 0 then 1 else rnd (variance / combined_variance)
    (incoming_weight,
      { info with last_update := timecode,
                  variance := rnd (rnd (1 - incoming_weight) * variance) })

/-- Line 96 of `survive_update_position` in floating point, for one component:
`pos->v[i] += incoming_pose_weight * (new_position[i] - pos->v[i])`, the result
of every operation rounded by `rnd`. -/
def survive_update_position_component_rnd (rnd : FLT → FLT)
    (v incoming_pose_weight new_position : FLT) : FLT :=
  rnd (v + rnd (incoming_pose_weight * rnd (new_position - v)))

/-! ## The quantities of the specification's variance model (section 4.2) -/

/-- The specification's time-decayed variance `v_prior`:
`variance + variance_per_second * dt`, `dt` the seconds from `last_update` to
`timecode`. -/
def spec_v_prior (so : SurviveObject) (info : kalman_info_t) (timecode : ℕ) : FLT :=
  info.variance + info.variance_per_second * time_diff_seconds so timecode info.last_update

/-- The specification's incoming weight `w = v_prior / (v_prior + v_meas)`,
`w = 1` when the combined variance is zero. -/
def spec_weight (v_prior v_meas : FLT) : FLT :=
  if v_prior + v_meas = 0 then 1 else v_prior / (v_prior + v_meas)

/-- The specification's blend `value + w * (measurement - value)`, componentwise. -/
def spec_blend3d (value measurement : LinmathVec3d) (w : FLT) : LinmathVec3d :=
  ⟨value.x + w * (measurement.x - value.x), value.y + w * (measurement.y - value.y),
   value.z + w * (measurement.z - value.z)⟩

/-- The specification's update of a vector signal (sections 4.2 and 4.3 with
the `predict_fn` of a velocity signal): the variance is time-decayed to
`timecode`, then blended with the measurement `m` of variance `R`; a negative
(sentinel) variance makes the update a copy, as in the code. -/
def spec_kalman_update (so : SurviveObject) (s : kalman_info_position_t) (timecode : ℕ)
    (R : FLT) (m : LinmathVec3d) : kalman_info_position_t :=
  if spec_v_prior so s.info timecode < 0 then
    { info := { s.info with variance := R, last_update := timecode }, v := m }
  else
    { info := { s.info with
        variance := (1 - spec_weight (spec_v_prior so s.info timecode) R) *
          spec_v_prior so s.info timecode,
        last_update := timecode },
      v := spec_blend3d s.v m (spec_weight (spec_v_prior so s.info timecode) R) }

/-! ## Quantities named in the statements -/

/-- The local `pose_time_diff` of `survive_imu_tracker_predict_pos` after line
278: the seconds since the last pose-position update, capped by `linmath_min`. -/
def pose_time_diff (tracker : SurviveIMUTracker) (timecode : ℕ) : FLT :=
  linmath_min (1 / 2) (time_diff_seconds tracker.so timecode tracker.pose.Pos.info.last_update)

/-- The local `rot_time_diff` of `survive_imu_tracker_predict_rot` after line 302. -/
def rot_time_diff (tracker : SurviveIMUTracker) (timecode : ℕ) : FLT :=
  linmath_min (1 / 2) (time_diff_seconds tracker.so timecode tracker.pose.Rot.info.last_update)

/-- The specification's `clamp(x, lo, hi)`. -/
def spec_clamp (x lo hi : FLT) : FLT := max lo (min hi x)

/-- The timecode `t` is at or after the last update of each of the four
signals, less than `2^31` ticks later (no wrap). -/
def after_last_updates (tracker : SurviveIMUTracker) (t : ℕ) : Prop :=
  (tracker.pose.Pos.info.last_update ≤ t ∧ t < tracker.pose.Pos.info.last_update + 2147483648) ∧
  (tracker.pose.Rot.info.last_update ≤ t ∧ t < tracker.pose.Rot.info.last_update + 2147483648) ∧
  (tracker.velocity.Pos.info.last_update ≤ t ∧
    t < tracker.velocity.Pos.info.last_update + 2147483648) ∧
  (tracker.velocity.AxisAngleRot.info.last_update ≤ t ∧
    t < tracker.velocity.AxisAngleRot.info.last_update + 2147483648)

/-- All four variances and all four variance-per-second rates are non-negative. -/
def nonneg_variances (tracker : SurviveIMUTracker) : Prop :=
  (0 ≤ tracker.pose.Pos.info.variance ∧ 0 ≤ tracker.pose.Pos.info.variance_per_second) ∧
  (0 ≤ tracker.pose.Rot.info.variance ∧ 0 ≤ tracker.pose.Rot.info.variance_per_second) ∧
  (0 ≤ tracker.velocity.Pos.info.variance ∧
    0 ≤ tracker.velocity.Pos.info.variance_per_second) ∧
  (0 ≤ tracker.velocity.AxisAngleRot.info.variance ∧
    0 ≤ tracker.velocity.AxisAngleRot.info.variance_per_second)

/-! ## Concrete inputs for evaluation -/

/-- A rational instance of the absent primitives, used only to evaluate the
model at concrete inputs: exact where the exact result is rational at the
arguments used (an interpolation weight of `0` or `1`, a zero rotation
increment), linearised elsewhere. The general theorems quantify over every
instance; the concrete aborts and variances evaluated below do not depend on
the instance. -/
def scenario_linmath : Linmath where
  quatslerp := fun a b t =>
    ⟨a.w + t * (b.w - a.w), a.x + t * (b.x - a.x), a.y + t * (b.y - a.y), a.z + t * (b.z - a.z)⟩
  survive_apply_ang_velocity := fun w dt q =>
    ⟨q.w - dt / 2 * (w.x * q.x + w.y * q.y + w.z * q.z),
     q.x + dt / 2 * (w.x * q.w + w.y * q.z - w.z * q.y),
     q.y + dt / 2 * (w.y * q.w + w.z * q.x - w.x * q.z),
     q.z + dt / 2 * (w.z * q.w + w.x * q.y - w.y * q.x)⟩
  survive_find_ang_velocity := fun dt a b =>
    ⟨2 * (a.w * b.x - a.x * b.w - a.y * b.z + a.z * b.y) / dt,
     2 * (a.w * b.y - a.y * b.w - a.z * b.x + a.x * b.z) / dt,
     2 * (a.w * b.z - a.z * b.w - a.x * b.y + a.y * b.x) / dt⟩
  quatrotatevector := fun q a =>
    ⟨a.x + 2 * (q.w * (q.y * a.z - q.z * a.y) + q.y * (q.x * a.y - q.y * a.x) -
        q.z * (q.z * a.x - q.x * a.z)),
     a.y + 2 * (q.w * (q.z * a.x - q.x * a.z) + q.z * (q.y * a.z - q.z * a.y) -
        q.x * (q.x * a.y - q.y * a.x)),
     a.z + 2 * (q.w * (q.x * a.y - q.y * a.x) + q.x * (q.z * a.x - q.x * a.z) -
        q.y * (q.y * a.z - q.z * a.y))⟩
  magnitude3d := fun a => |a.x| + |a.y| + |a.z|
  quatnormalize := fun q => q

/-- The object of the specification's scenarios: a 48 MHz timebase, a 1 kHz
IMU, the default configuration, an empty log. -/
def scenario_so : SurviveObject where
  ctx := { config := default_config, warnings := 0 }
  timebase_hz := 48000000
  imu_freq := 1000

/-- The scenario object with the key `filter-vel-var-per-sec` configured to `-1`. -/
def neg_rate_so : SurviveObject :=
  { scenario_so with
    ctx := { scenario_so.ctx with
      config := { default_config with filter_vel_var_per_sec := -1 } } }

/-- The rest pose of the scenarios: the origin, the identity orientation. -/
def rest_pose : SurvivePose := ⟨⟨0, 0, 0⟩, ⟨1, 0, 0, 0⟩⟩

/-- A pose whose position is at distance `1000` from the origin. -/
def far_pose : SurvivePose := ⟨⟨1000, 0, 0⟩, ⟨1, 0, 0, 0⟩⟩

/-- The tracker that `survive_imu_tracker_init scenario_so` becomes by a first
observation `(pose, R)` at `timecode` (shown by `first_observed_eq`). -/
def first_observed (pose : SurvivePose) (R : FLT × FLT) (timecode : ℕ) : SurviveIMUTracker :=
  { survive_imu_tracker_init scenario_so with
    pose :=
      { Pos := { info := { variance := R.1, variance_per_second := 1 / 10,
                           last_update := timecode },
                 v := pose.Pos },
        Rot := { info := { variance := R.2, variance_per_second := 1 / 10,
                           last_update := timecode },
                 v := pose.Rot } },
    last_pose :=
      { Pos := { info := { variance := R.1, variance_per_second := 0, last_update := timecode },
                 v := pose.Pos },
        Rot := { info := { variance := R.2, variance_per_second := 0, last_update := 0 },
                 v := pose.Rot } } }

/-- The freshly initialised scenario tracker with `velocity.Pos.info.variance`
forced to `100` (scenario S6 before any observation). -/
def diverged_cold_tracker : SurviveIMUTracker :=
  { survive_imu_tracker_init scenario_so with
    velocity :=
      { (survive_imu_tracker_init scenario_so).velocity with
        Pos := { info := { variance := 100, variance_per_second := 1, last_update := 0 },
                 v := ⟨0, 0, 0⟩ } } }

/-- A tracker observed at the rest pose at timecode `0`, moving at `1` along
`x`, with `velocity.Pos.info.variance` forced to `100` and a velocity
variance-per-second of `-100`. -/
def diverged_neg_rate_tracker : SurviveIMUTracker :=
  { first_observed rest_pose (1 / 100, 1 / 100) 0 with
    velocity :=
      { (survive_imu_tracker_init scenario_so).velocity with
        Pos := { info := { variance := 100, variance_per_second := -100, last_update := 0 },
                 v := ⟨1, 0, 0⟩ } } }

/-- A tracker observed at the rest pose at timecode `0`, with
`velocity.Pos.info.variance` forced to `100` (scenario S6). -/
def diverged_tracker : SurviveIMUTracker :=
  { first_observed rest_pose (1 / 100, 1 / 100) 0 with
    velocity :=
      { (survive_imu_tracker_init scenario_so).velocity with
        Pos := { info := { variance := 100, variance_per_second := 1, last_update := 0 },
                 v := ⟨1, 0, 0⟩ } } }

/-- A tracker past warm-up: observed at the rest pose at `t = 0`, with an IMU
sample cached at `t = 0`. -/
def warm_tracker : SurviveIMUTracker :=
  { first_observed rest_pose (1 / 100, 1 / 100) 0 with
    last_data := ⟨1, ⟨0, 0, 1⟩, ⟨0, 0, 0⟩, 0⟩ }

/-- The samples of scenario S2: `n` samples of datamask `1` with the given
`accel` and `gyro`, one millisecond (48000 ticks) apart, the first at
`48000 * k`. -/
def s2_samples (gyro accel : LinmathVec3d) : ℕ → ℕ → List PoserDataIMU
  | _, 0 => []
  | k, n + 1 => ⟨1, accel, gyro, 48000 * k⟩ :: s2_samples gyro accel (k + 1) n

/-- The double nearest to pi, an exact rational. -/
def double_pi : FLT := 884279719003555 / 281474976710656

/-- The double nearest to `0.7`, an exact rational. -/
def double_7_tenths : FLT := 3152519739159347 / 4503599627370496

/-- The double nearest to `0.1`, an exact rational. -/
def double_1_tenth : FLT := 3602879701896397 / 36028797018963968

/-- The double nearest to `1.2e-16`, an exact rational. -/
def double_12e_17 : FLT := 4867778304876401 / 40564819207303340847894502572032

/-- Componentwise closeness of two quaternions. -/
def quat_within (a b : LinmathQuat) (eps : FLT) : Prop :=
  |a.w - b.w| ≤ eps ∧ |a.x - b.x| ≤ eps ∧ |a.y - b.y| ≤ eps ∧ |a.z - b.z| ≤ eps

/-- The laws of the absent `linmath` primitives at the identity quaternion that
the rest state relies on: rotating by the identity keeps a vector, the identity
is already normalised, a zero angular velocity keeps the identity, and
interpolating the identity with itself gives the identity. -/
def identity_laws (L : Linmath) : Prop :=
  (∀ v, L.quatrotatevector ⟨1, 0, 0, 0⟩ v = v) ∧
  L.quatnormalize ⟨1, 0, 0, 0⟩ = ⟨1, 0, 0, 0⟩ ∧
  (∀ dt, L.survive_apply_ang_velocity zero3d dt ⟨1, 0, 0, 0⟩ = ⟨1, 0, 0, 0⟩) ∧
  (∀ w, L.quatslerp ⟨1, 0, 0, 0⟩ ⟨1, 0, 0, 0⟩ w = ⟨1, 0, 0, 0⟩)

/-- A tracker at rest: the identity orientation, zero linear and angular
velocity, zero `last_acc`. -/
def at_rest (tracker : SurviveIMUTracker) : Prop :=
  tracker.pose.Rot.v = ⟨1, 0, 0, 0⟩ ∧ tracker.velocity.Pos.v = zero3d ∧
  tracker.velocity.AxisAngleRot.v = zero3d ∧ tracker.last_acc = zero3d

/-- The sample of the identity-IMU property for a bias `b`: `accel = (0, 0, 1/b)`,
`gyro = 0`. -/
def identity_sample (b : FLT) (data : PoserDataIMU) : Prop :=
  data.accel = ⟨0, 0, 1 / b⟩ ∧ data.gyro = zero3d

/-- A tracker past warm-up with the key `imu-acc-variance` configured to `0`:
the acceleration branch of `survive_imu_tracker_integrate_imu` is not taken. -/
def fallback_tracker : SurviveIMUTracker := { warm_tracker with acc_var := 0 }

/-- The local `v` of `mahony_ahrs` (line 33, "Equiv of q^-1 * G"). -/
def mahony_v (q : LinmathQuat) : LinmathVec3d :=
  ⟨q.x * q.z - q.w * q.y, q.w * q.x + q.y * q.z, q.w * q.w - 1 / 2 + q.z * q.z⟩

/-- The local `gyro` of `mahony_ahrs` before its scaling (lines 28-47): the
gyroscope reading plus the proportional feedback `error * (prop_gain * 2)`;
with `int_gain = 0` the integral feedback is never added. -/
def mahony_rate (L : Linmath) (q : LinmathQuat) (_gyro _accel : LinmathVec3d) : LinmathVec3d :=
  if L.magnitude3d _accel ≠ 0 then
    add3d _gyro
      (scale3d (cross3d (scale3d _accel (1 / L.magnitude3d _accel)) (mahony_v q)) (1 / 2 * 2))
  else _gyro

/-- The local `correction` of `mahony_ahrs` (lines 51-53) for the scaled rate
`gyro`. -/
def mahony_correction (q : LinmathQuat) (gyro : LinmathVec3d) : LinmathQuat :=
  ⟨-q.x * gyro.x - q.y * gyro.y - q.z * gyro.z,
   q.w * gyro.x + q.y * gyro.z - q.z * gyro.y,
   q.w * gyro.y - q.x * gyro.z + q.z * gyro.x,
   q.w * gyro.z + q.x * gyro.y - q.y * gyro.x⟩

/-- The closed form the specification gives for the predicted gravity
direction: `(2(q_x q_z - q_w q_y), 2(q_w q_x + q_y q_z), q_w^2 - 1/2 + q_z^2)`. -/
def spec_gravity_closed_form (q : LinmathQuat) : LinmathVec3d :=
  ⟨2 * (q.x * q.z - q.w * q.y), 2 * (q.w * q.x + q.y * q.z), q.w * q.w - 1 / 2 + q.z * q.z⟩

/-- The world `z` axis in the body frame of `q` (third row of the rotation
matrix of `q`). -/
def body_gravity (q : LinmathQuat) : LinmathVec3d :=
  ⟨2 * (q.x * q.z - q.w * q.y), 2 * (q.w * q.x + q.y * q.z),
   q.w * q.w - q.x * q.x - q.y * q.y + q.z * q.z⟩

/-- The Hamilton product of two quaternions. -/
def hamilton (a b : LinmathQuat) : LinmathQuat :=
  ⟨a.w * b.w - a.x * b.x - a.y * b.y - a.z * b.z,
   a.w * b.x + a.x * b.w + a.y * b.z - a.z * b.y,
   a.w * b.y - a.x * b.z + a.y * b.w + a.z * b.x,
   a.w * b.z + a.x * b.y - a.y * b.x + a.z * b.w⟩

/-- The pure quaternion `[0, v]`. -/
def pure_quat (v : LinmathVec3d) : LinmathQuat := ⟨0, v.x, v.y, v.z⟩

/-- A quaternion scaled by a scalar. -/
def quatscale_by (q : LinmathQuat) (s : FLT) : LinmathQuat := ⟨q.w * s, q.x * s, q.y * s, q.z * s⟩

/-- The inner product of two quaternions. -/
def quat_dot (a b : LinmathQuat) : FLT := a.w * b.w + a.x * b.x + a.y * b.y + a.z * b.z

/-- The squared norm of a quaternion. -/
def quat_norm_sq (q : LinmathQuat) : FLT := quat_dot q q

/-- A stand-in for the absent primitives whose `quatnormalize` is exact on unit
quaternions and returns the identity elsewhere, so that its result always has
norm one. -/
def unit_linmath : Linmath :=
  { scenario_linmath with
    quatnormalize := fun q => if quat_norm_sq q = 1 then q else ⟨1, 0, 0, 0⟩ }

/-- A reading of `isinf` on the rationals: a value at or beyond the binary64
overflow threshold `2^1024` stands for an infinity. -/
def overflow_isinf (x : FLT) : Bool := decide (2 ^ 1024 ≤ |x|)

/-- A tracker past warm-up, default configuration, whose linear-velocity
variance has overflowed: `velocity.Pos.info.variance = 2^1024`. -/
def overflowed_tracker : SurviveIMUTracker :=
  { warm_tracker with
    velocity :=
      { warm_tracker.velocity with
        Pos := { info := { variance := 2 ^ 1024, variance_per_second := 1, last_update := 0 },
                 v := ⟨0, 0, 0⟩ } } }

/-! ## Lemmas on the primitives -/

theorem survive_timecode_difference_self (t : ℕ) : survive_timecode_difference t t = 0 := by
  simp [survive_timecode_difference]

theorem time_diff_seconds_self (so : SurviveObject) (t : ℕ) : time_diff_seconds so t t = 0 := by
  simp [time_diff_seconds, survive_timecode_difference_self]

/-- The weight of the scalar blend of a prior variance `v` with a measurement
variance `r`, both non-negative, lies in the unit interval. -/
theorem blend_weight_bounds (v r : FLT) (hv : 0 ≤ v) (hr : 0 ≤ r) :
    0 ≤ (if r + v = 0 then (1 : FLT) else v / (r + v)) ∧
      (if r + v = 0 then (1 : FLT) else v / (r + v)) ≤ 1 := by
  by_cases h : r + v = 0
  · simp [h]
  · have hpos : 0 < r + v := lt_of_le_of_ne (add_nonneg hr hv) (Ne.symm h)
    simp only [h, if_false]
    constructor
    · exact div_nonneg hv hpos.le
    · rw [div_le_one hpos]
      linarith

/-- The posterior variance `(1 - w) * v` of the blend is non-negative and at
most each of the two variances. -/
theorem blend_variance_bounds (v r : FLT) (hv : 0 ≤ v) (hr : 0 ≤ r) :
    0 ≤ (1 - (if r + v = 0 then (1 : FLT) else v / (r + v))) * v ∧
      (1 - (if r + v = 0 then (1 : FLT) else v / (r + v))) * v ≤ v ∧
      (1 - (if r + v = 0 then (1 : FLT) else v / (r + v))) * v ≤ r := by
  by_cases h : r + v = 0
  · have hv0 : v = 0 := by linarith
    have hr0 : r = 0 := by linarith
    simp [hv0, hr0]
  · have hpos : 0 < r + v := lt_of_le_of_ne (add_nonneg hr hv) (Ne.symm h)
    simp only [h, if_false]
    have hw : (1 : FLT) - v / (r + v) = r / (r + v) := by
      field_simp
    rw [hw]
    have hw0 : 0 ≤ r / (r + v) := div_nonneg hr hpos.le
    have hw1 : r / (r + v) ≤ 1 := by
      rw [div_le_one hpos]; linarith
    refine ⟨mul_nonneg hw0 hv, ?_, ?_⟩
    · calc r / (r + v) * v ≤ 1 * v := mul_le_mul_of_nonneg_right hw1 hv
        _ = v := one_mul v
    · have hv1 : v / (r + v) ≤ 1 := by
        rw [div_le_one hpos]; linarith
      calc r / (r + v) * v = r * (v / (r + v)) := by ring
        _ ≤ r * 1 := mul_le_mul_of_nonneg_left hv1 hr
        _ = r := mul_one r

/-! ## Lemmas on the update functions -/

theorem update_vel_pos_eq (tracker : SurviveIMUTracker) (timecode : ℕ)
    (h : survive_timecode_difference timecode tracker.velocity.Pos.info.last_update < 2147483647) :
    update_vel_pos tracker timecode = some { tracker with
      velocity := { tracker.velocity with
        Pos := { v := tracker.velocity.Pos.v,
                 info := { tracker.velocity.Pos.info with
                   variance := spec_v_prior tracker.so tracker.velocity.Pos.info timecode,
                   last_update := timecode } } } } := by
  simp [update_vel_pos, h, survive_imu_tracker_predict_velocity_pos, spec_v_prior, mul_comm]

theorem update_vel_rot_eq (tracker : SurviveIMUTracker) (timecode : ℕ)
    (h : survive_timecode_difference timecode tracker.velocity.AxisAngleRot.info.last_update
      < 2147483647) :
    update_vel_rot tracker timecode = some { tracker with
      velocity := { tracker.velocity with
        AxisAngleRot := { v := tracker.velocity.AxisAngleRot.v,
                          info := { tracker.velocity.AxisAngleRot.info with
                            variance :=
                              spec_v_prior tracker.so tracker.velocity.AxisAngleRot.info timecode,
                            last_update := timecode } } } } := by
  simp [update_vel_rot, h, survive_imu_tracker_predict_velocity_rot, spec_v_prior, mul_comm]

theorem kalman_at_timecode (tracker : SurviveIMUTracker) (info : kalman_info_t) (timecode : ℕ)
    (new_variance : FLT) (hl : info.last_update = timecode) (h : 0 ≤ info.variance) :
    survive_update_kalman_variance tracker info timecode new_variance =
      (spec_weight info.variance new_variance,
       { info with variance := (1 - spec_weight info.variance new_variance) * info.variance }) := by
  subst hl
  simp [survive_update_kalman_variance, time_diff_seconds_self, not_lt.mpr h, spec_weight, add_comm]

theorem kalman_weight_zero_measurement (tracker : SurviveIMUTracker) (info : kalman_info_t)
    (timecode : ℕ) (hl : info.last_update = timecode) :
    (survive_update_kalman_variance tracker info timecode 0).1 = 1 := by
  subst hl
  unfold survive_update_kalman_variance
  by_cases hs : info.variance < 0
  · simp [hs]
  · by_cases h0 : info.variance = 0
    · simp [hs, h0, time_diff_seconds_self]
    · simp [hs, h0, time_diff_seconds_self]

theorem kalman_last_update (tracker : SurviveIMUTracker) (info : kalman_info_t)
    (timecode : ℕ) (new_variance : FLT) :
    (survive_update_kalman_variance tracker info timecode new_variance).2.last_update = timecode := by
  unfold survive_update_kalman_variance
  split <;> rfl

theorem update_pose_pos_some {tracker t1 : SurviveIMUTracker} {timecode : ℕ}
    (h : update_pose_pos tracker timecode = some t1) :
    ∃ r : FLT × LinmathVec3d, t1 = { tracker with
      pose := { tracker.pose with
        Pos := { v := r.2,
                 info := { tracker.pose.Pos.info with variance := r.1, last_update := timecode } } } } := by
  unfold update_pose_pos at h
  cases hp : survive_imu_tracker_predict_pos tracker timecode tracker.pose.Pos.v with
  | none => simp [hp] at h
  | some r =>
    simp only [hp] at h
    split at h
    · exact ⟨r, by simpa using h.symm⟩
    · exact absurd h (by simp)

theorem update_pose_rot_some {L : Linmath} {tracker t1 : SurviveIMUTracker} {timecode : ℕ}
    (h : update_pose_rot L tracker timecode = some t1) :
    ∃ r : FLT × LinmathQuat, t1 = { tracker with
      pose := { tracker.pose with
        Rot := { v := r.2,
                 info := { tracker.pose.Rot.info with variance := r.1, last_update := timecode } } } } := by
  unfold update_pose_rot at h
  split at h
  · exact ⟨_, by simpa using h.symm⟩
  · exact absurd h (by simp)

theorem survive_update_position_pose_Pos_zero {tracker t1 : SurviveIMUTracker} {timecode : ℕ}
    {new_position : LinmathVec3d}
    (h : survive_update_position tracker position_ref.pose_Pos timecode 0 new_position = some t1) :
    t1.pose.Pos.v = new_position ∧ t1.pose.Pos.info.last_update = timecode ∧
      t1.pose.Rot = tracker.pose.Rot := by
  unfold survive_update_position at h
  simp only [position_ref.update_fn] at h
  cases h0 : update_pose_pos tracker timecode with
  | none => simp [h0] at h
  | some t0 =>
    obtain ⟨r, rfl⟩ := update_pose_pos_some h0
    simp only [h0, Option.some.injEq] at h
    subst h
    simp [position_ref.get, position_ref.set, kalman_weight_zero_measurement,
      kalman_last_update]

theorem survive_update_rotation_zero {L : Linmath} {tracker t1 : SurviveIMUTracker} {timecode : ℕ}
    {new_rot : LinmathQuat} (hslerp : ∀ a, L.quatslerp a new_rot 1 = new_rot)
    (h : survive_update_rotation L tracker timecode 0 new_rot = some t1) :
    t1.pose.Rot.v = new_rot ∧ t1.pose.Rot.info.last_update = timecode ∧
      t1.pose.Pos = tracker.pose.Pos := by
  unfold survive_update_rotation at h
  split at h
  · simp only [Option.some.injEq] at h
    subst h
    simp
  · cases h0 : update_pose_rot L tracker timecode with
    | none => simp [h0] at h
    | some t0 =>
      obtain ⟨r, rfl⟩ := update_pose_rot_some h0
      simp only [h0, Option.some.injEq] at h
      subst h
      simp [kalman_weight_zero_measurement, hslerp, kalman_last_update]

theorem update_vel_pos_pose {tracker t1 : SurviveIMUTracker} {timecode : ℕ}
    (h : update_vel_pos tracker timecode = some t1) :
    t1.pose = tracker.pose ∧ t1.so = tracker.so := by
  unfold update_vel_pos at h
  split at h
  · simp only [Option.some.injEq] at h
    subst h
    simp
  · exact absurd h (by simp)

theorem update_vel_rot_pose {tracker t1 : SurviveIMUTracker} {timecode : ℕ}
    (h : update_vel_rot tracker timecode = some t1) :
    t1.pose = tracker.pose ∧ t1.so = tracker.so := by
  unfold update_vel_rot at h
  split at h
  · simp only [Option.some.injEq] at h
    subst h
    simp
  · exact absurd h (by simp)

theorem integrate_velocity_pose {tracker t1 : SurviveIMUTracker} {timecode : ℕ}
    {Rv : FLT × FLT} {vel : SurviveVelocity}
    (h : survive_imu_tracker_integrate_velocity tracker timecode Rv vel = some t1) :
    t1.pose = tracker.pose ∧ t1.so = tracker.so := by
  unfold survive_imu_tracker_integrate_velocity survive_update_pose_axis_angle at h
  cases ha : survive_update_position tracker position_ref.velocity_Pos timecode Rv.1 vel.Pos with
  | none => simp [ha] at h
  | some ta =>
    simp only [ha] at h
    unfold survive_update_position at ha
    simp only [position_ref.update_fn] at ha
    cases hb : update_vel_pos tracker timecode with
    | none => simp [hb] at ha
    | some tb =>
      simp only [hb, Option.some.injEq] at ha
      obtain ⟨hb1, hb2⟩ := update_vel_pos_pose hb
      have hta : ta.pose = tracker.pose ∧ ta.so = tracker.so := by
        subst ha
        simpa [position_ref.set] using ⟨hb1, hb2⟩
      unfold survive_update_axis_angle_rotation at h
      cases hc : update_vel_rot ta timecode with
      | none => simp [hc] at h
      | some tc =>
        simp only [hc] at h
        obtain ⟨hc1, hc2⟩ := update_vel_rot_pose hc
        unfold survive_update_position at h
        simp only [position_ref.update_fn] at h
        cases hd : update_vel_rot tc timecode with
        | none => simp [hd] at h
        | some td =>
          simp only [hd, Option.some.injEq] at h
          obtain ⟨hd1, hd2⟩ := update_vel_rot_pose hd
          subst h
          simp [position_ref.set, hd1, hd2, hc1, hc2, hta.1, hta.2]

theorem sv_warn_pose (tracker : SurviveIMUTracker) :
    (sv_warn tracker).pose = tracker.pose := rfl

theorem integrate_observation_some {L : Linmath} {timecode : ℕ} {tracker t1 : SurviveIMUTracker}
    {pose : SurvivePose} {R : FLT × FLT}
    (h : survive_imu_tracker_integrate_observation L timecode tracker pose R = some t1) :
    ∃ tu, survive_update_pose L tracker timecode R pose = some tu ∧ t1.pose = tu.pose ∧
      t1.last_pose =
        { Pos := { info := { variance := R.1, variance_per_second := 0, last_update := timecode },
                   v := pose.Pos },
          Rot := { info := { variance := R.2, variance_per_second := 0, last_update := 0 },
                   v := pose.Rot } } := by
  unfold survive_imu_tracker_integrate_observation at h
  cases hp : survive_imu_tracker_predict L tracker timecode ⟨zero3d, zeroquat⟩ with
  | none => rw [hp] at h; exact absurd h (by simp)
  | some p =>
    rw [hp] at h
    cases hu : survive_update_pose L tracker timecode R pose with
    | none => rw [hu] at h; exact absurd h (by simp)
    | some tu =>
      rw [hu] at h
      refine ⟨tu, rfl, ?_⟩
      simp only at h
      split at h
      · split at h
        · generalize hv : survive_imu_tracker_integrate_velocity _ _ _ _ = ov at h
          cases ov with
          | none => exact absurd h (by simp)
          | some tv =>
            simp only [Option.some.injEq] at h
            subst h
            have hf := (integrate_velocity_pose hv).1
            refine ⟨?_, rfl⟩
            simp only [hf]
            split <;> rfl
        · simp only [Option.some.injEq] at h
          subst h
          exact ⟨rfl, rfl⟩
      · exact absurd h (by simp)

theorem survive_update_pose_zero {L : Linmath} {timecode : ℕ} {tracker tu : SurviveIMUTracker}
    {pose : SurvivePose} {R : FLT × FLT} (hR1 : R.1 = 0) (hR2 : R.2 = 0)
    (hslerp : ∀ a, L.quatslerp a pose.Rot 1 = pose.Rot)
    (hu : survive_update_pose L tracker timecode R pose = some tu) :
    tu.pose.Pos.v = pose.Pos ∧ tu.pose.Rot.v = pose.Rot := by
  unfold survive_update_pose at hu
  rw [hR1, hR2] at hu
  cases ha : survive_update_position tracker position_ref.pose_Pos timecode 0 pose.Pos with
  | none => rw [ha] at hu; exact absurd hu (by simp)
  | some ta =>
    rw [ha] at hu
    obtain ⟨ha1, -, -⟩ := survive_update_position_pose_Pos_zero ha
    obtain ⟨hb1, -, hb3⟩ := survive_update_rotation_zero hslerp hu
    exact ⟨by rw [hb3]; exact ha1, hb1⟩

theorem survive_timecode_difference_of_le {t lu : ℕ} (h1 : lu ≤ t) (h2 : t < lu + 2147483648) :
    survive_timecode_difference t lu = (t : ℤ) - (lu : ℤ) := by
  unfold survive_timecode_difference
  simp only
  have h : ((t : ℤ) - (lu : ℤ)) % 4294967296 = (t : ℤ) - (lu : ℤ) := by
    apply Int.emod_eq_of_lt <;> omega
  rw [h]
  split
  · rfl
  · omega

theorem linmath_min_zero : linmath_min (1 / 2) 0 = 0 := by
  norm_num [linmath_min]

theorem time_diff_seconds_mono (so : SurviveObject) (hhz : 0 < so.timebase_hz) {t1 t2 lu : ℕ}
    (h1 : lu ≤ t1) (h12 : t1 ≤ t2) (h2 : t2 < lu + 2147483648) :
    0 ≤ time_diff_seconds so t1 lu ∧ time_diff_seconds so t1 lu ≤ time_diff_seconds so t2 lu := by
  unfold time_diff_seconds
  rw [survive_timecode_difference_of_le h1 (by omega),
    survive_timecode_difference_of_le (by omega : lu ≤ t2) h2]
  have hz : (0 : FLT) < (so.timebase_hz : FLT) := by exact_mod_cast hhz
  constructor
  · apply div_nonneg _ hz.le
    have : (lu : ℤ) ≤ (t1 : ℤ) := by exact_mod_cast h1
    exact_mod_cast sub_nonneg.mpr this
  · apply div_le_div_of_nonneg_right _ hz.le
    have : (t1 : ℤ) ≤ (t2 : ℤ) := by exact_mod_cast h12
    have h3 : (t1 : ℤ) - (lu : ℤ) ≤ (t2 : ℤ) - (lu : ℤ) := by omega
    exact_mod_cast h3

theorem linmath_min_mono {a b : FLT} (h0 : 0 ≤ a) (hab : a ≤ b) :
    0 ≤ linmath_min (1 / 2) a ∧ linmath_min (1 / 2) a ≤ linmath_min (1 / 2) b := by
  unfold linmath_min
  split <;> split <;> constructor <;> linarith

theorem predict_pos_variance {tracker : SurviveIMUTracker} {timecode : ℕ} {out : LinmathVec3d}
    {r : FLT × LinmathVec3d} (hvar : 0 ≤ tracker.pose.Pos.info.variance)
    (h : survive_imu_tracker_predict_pos tracker timecode out = some r) :
    r.1 = tracker.pose.Pos.info.variance + pose_time_diff tracker timecode *
      (if 10 < spec_v_prior tracker.so tracker.velocity.Pos.info timecode
        then tracker.pose.Pos.info.variance_per_second
        else spec_v_prior tracker.so tracker.velocity.Pos.info timecode *
            spec_v_prior tracker.so tracker.velocity.Pos.info timecode +
          tracker.pose.Pos.info.variance_per_second) := by
  have hc : tracker.velocity.Pos.info.variance +
        time_diff_seconds tracker.so timecode tracker.velocity.Pos.info.last_update *
          tracker.velocity.Pos.info.variance_per_second =
      spec_v_prior tracker.so tracker.velocity.Pos.info timecode := by
    unfold spec_v_prior; ring
  simp only [survive_imu_tracker_predict_pos, not_lt.mpr hvar, if_false,
    survive_imu_tracker_predict_velocity_pos, gt_iff_lt, hc] at h
  split at h
  · rename_i hc1
    simp only [Option.some.injEq] at h
    rw [← h, if_pos hc1]
    rfl
  · rename_i hc1
    split at h
    · simp only [Option.some.injEq] at h
      rw [← h, if_neg hc1]
      rfl
    · exact absurd h (by simp)

theorem predict_rot_variance (L : Linmath) (tracker : SurviveIMUTracker) (timecode : ℕ)
    (out : LinmathQuat) :
    (survive_imu_tracker_predict_rot L tracker timecode out).1 =
      if quatiszero tracker.pose.Rot.v then tracker.pose.Rot.info.variance
      else tracker.pose.Rot.info.variance + rot_time_diff tracker timecode *
        (if 10 < spec_v_prior tracker.so tracker.velocity.AxisAngleRot.info timecode
          then tracker.pose.Rot.info.variance_per_second
          else spec_v_prior tracker.so tracker.velocity.AxisAngleRot.info timecode +
            tracker.pose.Rot.info.variance_per_second) := by
  have hc : tracker.velocity.AxisAngleRot.info.variance +
        time_diff_seconds tracker.so timecode tracker.velocity.AxisAngleRot.info.last_update *
          tracker.velocity.AxisAngleRot.info.variance_per_second =
      spec_v_prior tracker.so tracker.velocity.AxisAngleRot.info timecode := by
    unfold spec_v_prior; ring
  simp only [survive_imu_tracker_predict_rot, survive_imu_tracker_predict_velocity_rot,
    gt_iff_lt, hc]
  split
  · rfl
  · split <;> rfl

theorem cold_observation (L : Linmath) (tracker : SurviveIMUTracker) (timecode : ℕ)
    (pose : SurvivePose) (R : FLT × FLT)
    (hPvar : tracker.pose.Pos.info.variance < 0)
    (hRzero : quatiszero tracker.pose.Rot.v = true)
    (hLzero : quatiszero tracker.last_pose.Rot.v = true)
    (hd : survive_timecode_difference timecode tracker.pose.Pos.info.last_update < 2147483647) :
    survive_imu_tracker_integrate_observation L timecode tracker pose R =
      some { tracker with
        pose :=
          { Pos := { info := { tracker.pose.Pos.info with
                       variance := R.1, last_update := timecode },
                     v := pose.Pos },
            Rot := { info := { tracker.pose.Rot.info with
                       variance := R.2, last_update := timecode },
                     v := pose.Rot } },
        last_pose :=
          { Pos := { info := { variance := R.1, variance_per_second := 0,
                               last_update := timecode },
                     v := pose.Pos },
            Rot := { info := { variance := R.2, variance_per_second := 0, last_update := 0 },
                     v := pose.Rot } } } := by
  have hp : ∀ o, survive_imu_tracker_predict_pos tracker timecode o =
      some (tracker.pose.Pos.info.variance, o) := by
    intro o
    simp [survive_imu_tracker_predict_pos, hPvar]
  have h0 : survive_imu_tracker_predict L tracker timecode ⟨zero3d, zeroquat⟩ ≠ none := by
    unfold survive_imu_tracker_predict
    split
    · simp
    · rw [hp]; simp
  have h1 : update_pose_pos tracker timecode = some { tracker with
      pose := { tracker.pose with
        Pos := { v := tracker.pose.Pos.v,
                 info := { tracker.pose.Pos.info with
                   variance := tracker.pose.Pos.info.variance, last_update := timecode } } } } := by
    simp [update_pose_pos, hd, hp]
  have h2 : survive_update_pose L tracker timecode R pose = some { tracker with
        pose :=
          { Pos := { info := { tracker.pose.Pos.info with
                       variance := R.1, last_update := timecode },
                     v := pose.Pos },
            Rot := { info := { tracker.pose.Rot.info with
                       variance := R.2, last_update := timecode },
                     v := pose.Rot } } } := by
    simp only [survive_update_pose, survive_update_position, position_ref.update_fn, h1]
    simp [position_ref.get, position_ref.set, survive_update_kalman_variance, hPvar,
      survive_update_rotation, hRzero]
  unfold survive_imu_tracker_integrate_observation
  cases hq : survive_imu_tracker_predict L tracker timecode ⟨zero3d, zeroquat⟩ with
  | none => exact absurd hq h0
  | some p =>
    simp only [h2]
    simp [hLzero]

theorem predict_pos_at_last_update (tracker : SurviveIMUTracker)
    (hnorm : norm3d_sq tracker.pose.Pos.v < 1000 * 1000) :
    survive_imu_tracker_predict_pos tracker tracker.pose.Pos.info.last_update tracker.pose.Pos.v =
      some (tracker.pose.Pos.info.variance, tracker.pose.Pos.v) := by
  have hadd : add3d (scale3d tracker.velocity.Pos.v 0) tracker.pose.Pos.v = tracker.pose.Pos.v := by
    simp [add3d, scale3d]
  unfold survive_imu_tracker_predict_pos
  simp only [time_diff_seconds_self, linmath_min_zero, zero_mul, add_zero,
    survive_imu_tracker_predict_velocity_pos, hadd, hnorm, if_true]
  split
  · rfl
  · split <;> rfl

theorem predict_rot_at_last_update (L : Linmath) (tracker : SurviveIMUTracker)
    (happly : L.survive_apply_ang_velocity tracker.velocity.AxisAngleRot.v 0 tracker.pose.Rot.v =
      tracker.pose.Rot.v) :
    survive_imu_tracker_predict_rot L tracker tracker.pose.Rot.info.last_update tracker.pose.Rot.v =
      (tracker.pose.Rot.info.variance, tracker.pose.Rot.v) := by
  unfold survive_imu_tracker_predict_rot
  simp only [time_diff_seconds_self, linmath_min_zero, zero_mul, add_zero, happly,
    survive_imu_tracker_predict_velocity_rot]
  split
  · rfl
  · split <;> rfl

theorem update_at_last_update (L : Linmath) (tracker : SurviveIMUTracker) (timecode : ℕ)
    (hP : tracker.pose.Pos.info.last_update = timecode)
    (hR : tracker.pose.Rot.info.last_update = timecode)
    (hnorm : norm3d_sq tracker.pose.Pos.v < 1000 * 1000)
    (happly : L.survive_apply_ang_velocity tracker.velocity.AxisAngleRot.v 0 tracker.pose.Rot.v =
      tracker.pose.Rot.v) :
    survive_imu_tracker_update L tracker timecode =
      some (tracker, ⟨tracker.pose.Pos.v, tracker.pose.Rot.v⟩) := by
  have h1 : update_pose_pos tracker timecode = some tracker := by
    unfold update_pose_pos
    rw [← hP, survive_timecode_difference_self, predict_pos_at_last_update tracker hnorm]
    simp
  have h2 : update_pose_rot L tracker timecode = some tracker := by
    unfold update_pose_rot
    rw [← hR, survive_timecode_difference_self, predict_rot_at_last_update L tracker happly]
    simp
  simp [survive_imu_tracker_update, h1, h2]

theorem first_observed_eq (L : Linmath) (pose : SurvivePose) (R : FLT × FLT) (timecode : ℕ)
    (htc : timecode < 2147483647) :
    survive_imu_tracker_integrate_observation L timecode (survive_imu_tracker_init scenario_so)
      pose R = some (first_observed pose R timecode) := by
  have hd : survive_timecode_difference timecode 0 < 2147483647 := by
    rw [survive_timecode_difference_of_le (Nat.zero_le _) (by omega)]
    omega
  exact cold_observation L (survive_imu_tracker_init scenario_so) timecode pose R
    (by norm_num [survive_imu_tracker_init]) rfl rfl hd

/-! ## The velocity updates as the specification's update -/

theorem kalman_at_timecode_sentinel (tracker : SurviveIMUTracker) (info : kalman_info_t)
    (timecode : ℕ) (new_variance : FLT) (h : info.variance < 0) :
    survive_update_kalman_variance tracker info timecode new_variance =
      (1, { info with last_update := timecode, variance := new_variance }) := by
  simp [survive_update_kalman_variance, h]

theorem update_vel_rot_at_last_update (tracker : SurviveIMUTracker) :
    update_vel_rot tracker tracker.velocity.AxisAngleRot.info.last_update = some tracker := by
  simp [update_vel_rot, survive_timecode_difference_self,
    survive_imu_tracker_predict_velocity_rot, time_diff_seconds_self]

theorem survive_update_position_velocity_Pos_eq (tracker : SurviveIMUTracker) (timecode : ℕ)
    (R : FLT) (m : LinmathVec3d)
    (h : survive_timecode_difference timecode tracker.velocity.Pos.info.last_update
      < 2147483647) :
    survive_update_position tracker position_ref.velocity_Pos timecode R m =
      some { tracker with
        velocity := { tracker.velocity with
          Pos := spec_kalman_update tracker.so tracker.velocity.Pos timecode R m } } := by
  simp only [survive_update_position, position_ref.update_fn, update_vel_pos_eq _ _ h,
    position_ref.get, position_ref.set, spec_kalman_update]
  by_cases hs : spec_v_prior tracker.so tracker.velocity.Pos.info timecode < 0
  · simp [kalman_at_timecode_sentinel, hs, spec_blend3d]
  · simp [kalman_at_timecode, not_lt.mp hs, hs, spec_blend3d]

theorem survive_update_axis_angle_rotation_eq (tracker : SurviveIMUTracker) (timecode : ℕ)
    (R : FLT) (m : LinmathVec3d)
    (h : survive_timecode_difference timecode tracker.velocity.AxisAngleRot.info.last_update
      < 2147483647) :
    survive_update_axis_angle_rotation tracker timecode R m =
      some { tracker with
        velocity := { tracker.velocity with
          AxisAngleRot :=
            spec_kalman_update tracker.so tracker.velocity.AxisAngleRot timecode R m } } := by
  have h2 := update_vel_rot_at_last_update { tracker with
      velocity := { tracker.velocity with
        AxisAngleRot := { v := tracker.velocity.AxisAngleRot.v,
                          info := { tracker.velocity.AxisAngleRot.info with
                            variance :=
                              spec_v_prior tracker.so tracker.velocity.AxisAngleRot.info timecode,
                            last_update := timecode } } } }
  simp only at h2
  simp only [survive_update_axis_angle_rotation, update_vel_rot_eq _ _ h,
    survive_update_position, position_ref.update_fn, h2,
    position_ref.get, position_ref.set, spec_kalman_update]
  by_cases hs : spec_v_prior tracker.so tracker.velocity.AxisAngleRot.info timecode < 0
  · simp [kalman_at_timecode_sentinel, hs, spec_blend3d]
  · simp [kalman_at_timecode, not_lt.mp hs, hs, spec_blend3d]

theorem update_vel_rot_some {tracker t1 : SurviveIMUTracker} {timecode : ℕ}
    (h : update_vel_rot tracker timecode = some t1) :
    survive_timecode_difference timecode tracker.velocity.AxisAngleRot.info.last_update
      < 2147483647 := by
  unfold update_vel_rot at h
  split at h
  · assumption
  · exact absurd h (by simp)

theorem update_vel_pos_some {tracker t1 : SurviveIMUTracker} {timecode : ℕ}
    (h : update_vel_pos tracker timecode = some t1) :
    survive_timecode_difference timecode tracker.velocity.Pos.info.last_update
      < 2147483647 := by
  unfold update_vel_pos at h
  split at h
  · assumption
  · exact absurd h (by simp)

theorem integrate_angular_velocity_some {tracker t1 : SurviveIMUTracker} {timecode : ℕ}
    {R : FLT} {m : LinmathVec3d}
    (h : survive_imu_tracker_integrate_angular_velocity tracker timecode m R = some t1) :
    t1 = { tracker with
        velocity := { tracker.velocity with
          AxisAngleRot :=
            spec_kalman_update tracker.so tracker.velocity.AxisAngleRot timecode R m } } := by
  unfold survive_imu_tracker_integrate_angular_velocity at h
  have ha : survive_timecode_difference timecode tracker.velocity.AxisAngleRot.info.last_update
      < 2147483647 := by
    unfold survive_update_axis_angle_rotation at h
    cases hu : update_vel_rot tracker timecode with
    | none => rw [hu] at h; exact absurd h (by simp)
    | some tu => exact update_vel_rot_some hu
  rw [survive_update_axis_angle_rotation_eq _ _ _ _ ha] at h
  exact (Option.some.inj h).symm

theorem integrate_velocity_eq (tracker : SurviveIMUTracker) (timecode : ℕ)
    (Rv : FLT × FLT) (vel : SurviveVelocity)
    (hpos : survive_timecode_difference timecode tracker.velocity.Pos.info.last_update
      < 2147483647)
    (hrot : survive_timecode_difference timecode tracker.velocity.AxisAngleRot.info.last_update
      < 2147483647) :
    survive_imu_tracker_integrate_velocity tracker timecode Rv vel =
      some { tracker with
        velocity :=
          { Pos := spec_kalman_update tracker.so tracker.velocity.Pos timecode Rv.1 vel.Pos,
            AxisAngleRot := spec_kalman_update tracker.so tracker.velocity.AxisAngleRot timecode
              Rv.2 vel.AxisAngleRot } } := by
  simp only [survive_imu_tracker_integrate_velocity, survive_update_pose_axis_angle,
    survive_update_position_velocity_Pos_eq _ _ _ _ hpos]
  rw [survive_update_axis_angle_rotation_eq _ _ _ _ (by exact hrot)]

theorem integrate_velocity_some {tracker t1 : SurviveIMUTracker} {timecode : ℕ}
    {Rv : FLT × FLT} {vel : SurviveVelocity}
    (h : survive_imu_tracker_integrate_velocity tracker timecode Rv vel = some t1) :
    t1 = { tracker with
        velocity :=
          { Pos := spec_kalman_update tracker.so tracker.velocity.Pos timecode Rv.1 vel.Pos,
            AxisAngleRot := spec_kalman_update tracker.so tracker.velocity.AxisAngleRot timecode
              Rv.2 vel.AxisAngleRot } } := by
  have hpos : survive_timecode_difference timecode tracker.velocity.Pos.info.last_update
      < 2147483647 := by
    unfold survive_imu_tracker_integrate_velocity survive_update_pose_axis_angle
      survive_update_position at h
    simp only [position_ref.update_fn] at h
    cases hu : update_vel_pos tracker timecode with
    | none => rw [hu] at h; exact absurd h (by simp)
    | some tu => exact update_vel_pos_some hu
  have hrot : survive_timecode_difference timecode
      tracker.velocity.AxisAngleRot.info.last_update < 2147483647 := by
    unfold survive_imu_tracker_integrate_velocity survive_update_pose_axis_angle at h
    rw [survive_update_position_velocity_Pos_eq _ _ _ _ hpos] at h
    simp only [survive_update_axis_angle_rotation] at h
    generalize hg : update_vel_rot _ timecode = o at h
    cases o with
    | none => exact absurd h (by simp)
    | some tu =>
      have hx := update_vel_rot_some hg
      exact hx
  rw [integrate_velocity_eq _ _ _ _ hpos hrot] at h
  exact (Option.some.inj h).symm

/-! ## The blocks of `survive_imu_tracker_integrate_imu` -/

theorem mahony_ahrs_fst (L : Linmath) (tracker : SurviveIMUTracker) (q : LinmathQuat)
    (g a : LinmathVec3d) : (mahony_ahrs L tracker q g a).1 = tracker := by
  unfold mahony_ahrs
  simp only [gt_iff_lt, lt_self_iff_false, if_false]
  split <;> rfl

theorem survive_update_rotation_frame {L : Linmath} {tracker t1 : SurviveIMUTracker}
    {timecode : ℕ} {R : FLT} {q : LinmathQuat}
    (h : survive_update_rotation L tracker timecode R q = some t1) :
    t1 = { tracker with pose := { tracker.pose with Rot := t1.pose.Rot } } := by
  unfold survive_update_rotation at h
  split at h
  · simp only [Option.some.injEq] at h
    subst h
    rfl
  · cases h0 : update_pose_rot L tracker timecode with
    | none => simp [h0] at h
    | some t0 =>
      obtain ⟨r, rfl⟩ := update_pose_rot_some h0
      simp only [h0, Option.some.injEq] at h
      subst h
      rfl

theorem integrate_imu_mahony_frame {L : Linmath} {tracker t1 : SurviveIMUTracker}
    {data : PoserDataIMU} (h : integrate_imu_mahony L tracker data = some t1) :
    t1 = { tracker with pose := { tracker.pose with Rot := t1.pose.Rot } } := by
  unfold integrate_imu_mahony at h
  split at h
  · rw [mahony_ahrs_fst] at h
    exact survive_update_rotation_frame h
  · simp only [Option.some.injEq] at h
    subst h
    rfl

theorem integrate_imu_mahony_disabled (L : Linmath) (tracker : SurviveIMUTracker)
    (data : PoserDataIMU) (hm : tracker.mahony_variance < 0) :
    integrate_imu_mahony L tracker data = some tracker := by
  simp [integrate_imu_mahony, not_le.mpr hm]

theorem integrate_imu_time_gap_some {tracker t2 : SurviveIMUTracker} {time_diff : FLT}
    (h : integrate_imu_time_gap tracker time_diff = some t2) :
    time_diff < 10 ∧ t2 = (if 1 < time_diff then sv_warn tracker else tracker) := by
  unfold integrate_imu_time_gap at h
  by_cases h1 : 1 < time_diff
  · by_cases h2 : time_diff < 10
    · simp only [gt_iff_lt, h1, h2, if_true, Option.some.injEq] at h
      exact ⟨h2, by rw [if_pos h1]; exact h.symm⟩
    · simp [h1, h2] at h
  · simp only [gt_iff_lt, h1, if_false, Option.some.injEq] at h
    exact ⟨by linarith [not_lt.mp h1], by rw [if_neg h1]; exact h.symm⟩

theorem integrate_imu_velocity_eq (L : Linmath) (tracker : SurviveIMUTracker)
    (data : PoserDataIMU) (new_rot : LinmathVec3d) (Rv : FLT × FLT) (time_diff : FLT) :
    integrate_imu_velocity L tracker data new_rot Rv time_diff =
      if tracker.acc_var > 0 then
        let acc := scale3d data.accel tracker.acc_bias
        let rAcc := RotateAccel L tracker.pose.Rot.v acc
        let avgAcc := scale3d (add3d rAcc tracker.last_acc) (1 / 2 * time_diff)
        let new_velocity : SurviveVelocity :=
          { Pos := add3d tracker.velocity.Pos.v avgAcc, AxisAngleRot := new_rot }
        survive_imu_tracker_integrate_velocity { tracker with last_acc := rAcc } data.timecode Rv
          new_velocity
      else if tracker.gyro_var > 0 then
        survive_imu_tracker_integrate_angular_velocity tracker data.timecode new_rot Rv.2
      else some tracker := by
  simp only [integrate_imu_velocity, integrate_imu_velocity_isinf, Bool.false_eq_true,
    not_false_eq_true, true_and]

theorem integrate_imu_isinf_never (L : Linmath) (tracker : SurviveIMUTracker)
    (data : PoserDataIMU) :
    survive_imu_tracker_integrate_imu_isinf (fun _ => false) L tracker data =
      survive_imu_tracker_integrate_imu L tracker data := rfl

theorem integrate_imu_velocity_some {L : Linmath} {tracker t3 : SurviveIMUTracker}
    {data : PoserDataIMU} {new_rot : LinmathVec3d} {Rv : FLT × FLT} {time_diff : FLT}
    (h : integrate_imu_velocity L tracker data new_rot Rv time_diff = some t3) :
    t3 =
      if 0 < tracker.acc_var then
        { tracker with
          last_acc := RotateAccel L tracker.pose.Rot.v (scale3d data.accel tracker.acc_bias),
          velocity :=
            { Pos := spec_kalman_update tracker.so tracker.velocity.Pos data.timecode Rv.1
                (add3d tracker.velocity.Pos.v
                  (scale3d (add3d
                      (RotateAccel L tracker.pose.Rot.v (scale3d data.accel tracker.acc_bias))
                      tracker.last_acc) (1 / 2 * time_diff))),
              AxisAngleRot := spec_kalman_update tracker.so tracker.velocity.AxisAngleRot
                data.timecode Rv.2 new_rot } }
      else if 0 < tracker.gyro_var then
        { tracker with
          velocity := { tracker.velocity with
            AxisAngleRot := spec_kalman_update tracker.so tracker.velocity.AxisAngleRot
              data.timecode Rv.2 new_rot } }
      else tracker := by
  rw [integrate_imu_velocity_eq] at h
  by_cases ha : 0 < tracker.acc_var
  · simp only [gt_iff_lt, ha, if_true] at h
    rw [if_pos ha]
    exact integrate_velocity_some h
  · simp only [gt_iff_lt, ha, if_false] at h
    rw [if_neg ha]
    by_cases hg : 0 < tracker.gyro_var
    · simp only [hg, if_true] at h
      rw [if_pos hg]
      exact integrate_angular_velocity_some h
    · simp only [hg, if_false, Option.some.injEq] at h
      rw [if_neg hg]
      exact h.symm

theorem integrate_imu_some {L : Linmath} {tracker t4 : SurviveIMUTracker} {data : PoserDataIMU}
    (hwarm : ¬ (tracker.last_data.datamask = 0 ∨ tracker.pose.Rot.info.variance < 0 ∨
      tracker.pose.Pos.info.variance < 0))
    (h : survive_imu_tracker_integrate_imu L tracker data = some t4) :
    ∃ t1 t2 t3, integrate_imu_mahony L tracker data = some t1 ∧
      integrate_imu_time_gap t1
        (time_diff_seconds t1.so data.timecode t1.last_data.timecode) = some t2 ∧
      integrate_imu_velocity L t2 data (L.quatrotatevector t1.pose.Rot.v data.gyro)
        (t1.pose.Rot.info.variance + t1.velocity.Pos.info.variance + t1.acc_var,
         t1.pose.Rot.info.variance + t1.gyro_var)
        (time_diff_seconds t1.so data.timecode t1.last_data.timecode) = some t3 ∧
      t4 = { t3 with last_data := data } := by
  unfold survive_imu_tracker_integrate_imu at h
  rw [if_neg hwarm] at h
  cases h1 : integrate_imu_mahony L tracker data with
  | none => rw [h1] at h; exact absurd h (by simp)
  | some t1 =>
    rw [h1] at h
    simp only at h
    cases h2 : integrate_imu_time_gap t1
        (time_diff_seconds t1.so data.timecode t1.last_data.timecode) with
    | none => rw [h2] at h; exact absurd h (by simp)
    | some t2 =>
      rw [h2] at h
      simp only at h
      generalize h3 : integrate_imu_velocity L t2 data _ _ _ = o at h
      cases o with
      | none => exact absurd h (by simp)
      | some t3 =>
        simp only [Option.some.injEq] at h
        exact ⟨t1, t2, t3, rfl, h2, h3, h.symm⟩

/-! ## Completion of the calls -/

/-- The position predictor completes when the position is uninitialised, when
the fallback branch is taken, or when the extrapolated position passes
`assert(norm3d(out) < 1000)`. -/
theorem predict_pos_completes (tracker : SurviveIMUTracker) (timecode : ℕ) (out : LinmathVec3d)
    (h : tracker.pose.Pos.info.variance < 0 ∨
      10 < (survive_imu_tracker_predict_velocity_pos tracker timecode).1 ∨
      norm3d_sq (add3d (scale3d tracker.velocity.Pos.v (pose_time_diff tracker timecode))
        tracker.pose.Pos.v) < 1000 * 1000) :
    ∃ r, survive_imu_tracker_predict_pos tracker timecode out = some r := by
  unfold survive_imu_tracker_predict_pos
  split
  · exact ⟨_, rfl⟩
  · rename_i h1
    simp only
    split
    · exact ⟨_, rfl⟩
    · rename_i h2
      rcases h with h | h | h
      · exact absurd h h1
      · exact absurd h h2
      · unfold pose_time_diff at h
        simp only [survive_imu_tracker_predict_velocity_pos]
        rw [if_pos h]
        exact ⟨_, rfl⟩

/-- `survive_imu_tracker_integrate_velocity` completes when the timecode passes
the update assertions of both velocity signals. -/
theorem integrate_velocity_completes (tracker : SurviveIMUTracker) (timecode : ℕ)
    (Rv : FLT × FLT) (vel : SurviveVelocity)
    (hpos : survive_timecode_difference timecode tracker.velocity.Pos.info.last_update
      < 2147483647)
    (hrot : survive_timecode_difference timecode tracker.velocity.AxisAngleRot.info.last_update
      < 2147483647) :
    ∃ t1, survive_imu_tracker_integrate_velocity tracker timecode Rv vel = some t1 := by
  simp [survive_imu_tracker_integrate_velocity, survive_update_pose_axis_angle,
    survive_update_position, position_ref.update_fn, position_ref.get, position_ref.set,
    survive_update_axis_angle_rotation, update_vel_pos_eq _ _ hpos, update_vel_rot_eq, hrot,
    survive_timecode_difference_self]

/-- `survive_imu_tracker_integrate_observation` completes when the timecode
passes the update assertions of the four signals and the position predictor
completes. -/
theorem integrate_observation_completes (L : Linmath) (timecode : ℕ)
    (tracker : SurviveIMUTracker) (pose : SurvivePose) (R : FLT × FLT)
    (hP : survive_timecode_difference timecode tracker.pose.Pos.info.last_update < 2147483647)
    (hR : survive_timecode_difference timecode tracker.pose.Rot.info.last_update < 2147483647)
    (hVP : survive_timecode_difference timecode tracker.velocity.Pos.info.last_update
      < 2147483647)
    (hVR : survive_timecode_difference timecode tracker.velocity.AxisAngleRot.info.last_update
      < 2147483647)
    (hnorm : tracker.pose.Pos.info.variance < 0 ∨
      10 < (survive_imu_tracker_predict_velocity_pos tracker timecode).1 ∨
      norm3d_sq (add3d (scale3d tracker.velocity.Pos.v (pose_time_diff tracker timecode))
        tracker.pose.Pos.v) < 1000 * 1000) :
    ∃ t1, survive_imu_tracker_integrate_observation L timecode tracker pose R = some t1 := by
  obtain ⟨r0, hr0⟩ := predict_pos_completes tracker timecode zero3d hnorm
  obtain ⟨r1, hr1⟩ := predict_pos_completes tracker timecode tracker.pose.Pos.v hnorm
  have h0 : ∃ p, survive_imu_tracker_predict L tracker timecode ⟨zero3d, zeroquat⟩ = some p := by
    unfold survive_imu_tracker_predict
    split
    · exact ⟨_, rfl⟩
    · rw [hr0]; exact ⟨_, rfl⟩
  obtain ⟨p, hp⟩ := h0
  have h1 : update_pose_pos tracker timecode = some { tracker with
      pose := { tracker.pose with
        Pos := { v := r1.2,
                 info := { tracker.pose.Pos.info with
                   variance := r1.1, last_update := timecode } } } } := by
    simp [update_pose_pos, hP, hr1]
  have h2 : ∃ tu, survive_update_pose L tracker timecode R pose = some tu ∧
      tu.pose.Pos.info.last_update = timecode ∧ tu.pose.Rot.info.last_update = timecode ∧
      tu.velocity = tracker.velocity := by
    simp only [survive_update_pose, survive_update_position, position_ref.update_fn, h1]
    simp only [position_ref.get, position_ref.set, survive_update_rotation]
    split
    · exact ⟨_, rfl, by simp [kalman_last_update], rfl, rfl⟩
    · simp only [update_pose_rot, hR, if_true]
      exact ⟨_, rfl, by simp [kalman_last_update], by simp [kalman_last_update], rfl⟩
  obtain ⟨tu, hu, hu1, hu2, hu3⟩ := h2
  unfold survive_imu_tracker_integrate_observation
  simp only [hp, hu, hu1, hu2, and_self, if_true]
  split
  · have hv : ∀ (t2 : SurviveIMUTracker) Rv vel, t2.velocity = tracker.velocity →
        ∃ t3, survive_imu_tracker_integrate_velocity t2 timecode Rv vel = some t3 := by
      intro t2 Rv vel h
      exact integrate_velocity_completes t2 timecode Rv vel (by rw [h]; exact hVP)
        (by rw [h]; exact hVR)
    obtain ⟨t3, ht3⟩ := hv (if time_diff_seconds tu.so timecode tu.last_pose.Pos.info.last_update > 1
        then sv_warn tu else tu) _ _ (by split <;> simp [sv_warn, hu3])
    rw [ht3]
    exact ⟨_, rfl⟩
  · exact ⟨_, rfl⟩

/-! ## Lemmas on binary64 rounding -/

theorem round_half_even_sub_le (y : ℚ) : |(round_half_even y : ℚ) - y| ≤ 1 / 2 := by
  have h1 := Int.floor_le y
  have h2 := Int.lt_floor_add_one y
  unfold round_half_even
  split_ifs with ha hb hc
  · rw [abs_le]; constructor <;> linarith
  · push_cast; rw [abs_le]; constructor <;> linarith
  · rw [abs_le]; constructor <;> linarith
  · push_cast; rw [abs_le]; constructor <;> linarith

theorem round_half_even_intCast (n : ℤ) : round_half_even (n : ℚ) = n := by
  unfold round_half_even
  simp

theorem round_half_even_mono {a b : ℚ} (h : a ≤ b) : round_half_even a ≤ round_half_even b := by
  by_contra hlt
  push_neg at hlt
  have h1 : round_half_even b + 1 ≤ round_half_even a := hlt
  have h2 : ((round_half_even b : ℚ)) + 1 ≤ (round_half_even a : ℚ) := by exact_mod_cast h1
  have ha := abs_le.mp (round_half_even_sub_le a)
  have hb := abs_le.mp (round_half_even_sub_le b)
  -- a + 1/2 ≥ ra ≥ rb + 1 ≥ b + 1/2, so a = b
  have hab : a = b := by linarith
  subst hab
  exact absurd hlt (lt_irrefl _)

theorem log2_lt_succ (x : ℚ) : x < (2 : ℚ) ^ (Int.log 2 x + 1) := by
  simpa using Int.lt_zpow_succ_log_self (b := 2) (by norm_num) x

theorem log2_le_self {x : ℚ} (hx : 0 < x) : (2 : ℚ) ^ Int.log 2 x ≤ x := by
  simpa using Int.zpow_log_le_self (b := 2) (by norm_num) hx

theorem le_log2_iff {x : ℚ} (hx : 0 < x) (e : ℤ) : (2 : ℚ) ^ e ≤ x ↔ e ≤ Int.log 2 x := by
  simpa using Int.zpow_le_iff_le_log (b := 2) (by norm_num) (x := e) hx

theorem log2_lt_iff {x : ℚ} (hx : 0 < x) (e : ℤ) : x < (2 : ℚ) ^ e ↔ Int.log 2 x < e := by
  simpa using Int.lt_zpow_iff_log_lt (b := 2) (by norm_num) (x := e) hx

theorem binary64_exponent_ge (x : ℚ) : -1022 ≤ binary64_exponent x := le_max_right _ _

theorem binary64_lt_next (x : ℚ) : x < (2 : ℚ) ^ (binary64_exponent x + 1) := by
  refine lt_of_lt_of_le (log2_lt_succ x) ?_
  apply zpow_le_zpow_right₀ (by norm_num)
  have := le_max_left (Int.log 2 x) (-1022)
  unfold binary64_exponent
  omega

theorem binary64_normal_or_min {x : ℚ} (hx : 0 < x) :
    (2 : ℚ) ^ binary64_exponent x ≤ x ∨ binary64_exponent x = -1022 := by
  unfold binary64_exponent
  rcases le_total (Int.log 2 x) (-1022) with h | h
  · right; exact max_eq_right h
  · left; rw [max_eq_left h]; exact log2_le_self hx

theorem binary64_exponent_mono {a b : ℚ} (ha : 0 < a) (hab : a ≤ b) :
    binary64_exponent a ≤ binary64_exponent b := by
  unfold binary64_exponent
  exact max_le_max (Int.log_mono_right ha hab) le_rfl

theorem ulp_pos (e : ℤ) : (0 : ℚ) < 2 ^ (e - 52) := by positivity

theorem ulp_mul_pow (e : ℤ) (k : ℤ) : (2 : ℚ) ^ k * 2 ^ (e - 52) = 2 ^ (k + e - 52) := by
  rw [← zpow_add₀ (by norm_num : (2 : ℚ) ≠ 0)]
  congr 1
  ring

theorem binary64_round_magnitude_zero : binary64_round_magnitude 0 = 0 := by
  unfold binary64_round_magnitude
  simp [round_half_even]

theorem binary64_round_magnitude_nonneg {x : ℚ} (hx : 0 ≤ x) :
    0 ≤ binary64_round_magnitude x := by
  unfold binary64_round_magnitude
  apply mul_nonneg _ (le_of_lt (ulp_pos _))
  have h := round_half_even_mono (div_nonneg hx (le_of_lt (ulp_pos (binary64_exponent x))))
  rw [show round_half_even (0 : ℚ) = 0 by simpa using round_half_even_intCast 0] at h
  exact_mod_cast h

theorem binary64_round_magnitude_le_next (x : ℚ) :
    binary64_round_magnitude x ≤ (2 : ℚ) ^ (binary64_exponent x + 1) := by
  unfold binary64_round_magnitude
  have hu := ulp_pos (binary64_exponent x)
  have h1 : x / 2 ^ (binary64_exponent x - 52) ≤ ((2 ^ 53 : ℤ) : ℚ) := by
    rw [div_le_iff₀ hu]
    have h2 := le_of_lt (binary64_lt_next x)
    have h3 : (((2 ^ 53 : ℤ) : ℚ)) * 2 ^ (binary64_exponent x - 52) =
        2 ^ (binary64_exponent x + 1) := by
      have := ulp_mul_pow (binary64_exponent x) 53
      rw [show (53 + binary64_exponent x - 52 : ℤ) = binary64_exponent x + 1 by ring] at this
      rw [← this]
      norm_num
    rw [h3]
    exact h2
  have h4 := round_half_even_mono h1
  rw [round_half_even_intCast] at h4
  have h5 : (round_half_even (x / 2 ^ (binary64_exponent x - 52)) : ℚ) ≤ ((2 ^ 53 : ℤ) : ℚ) := by
    exact_mod_cast h4
  calc (round_half_even (x / 2 ^ (binary64_exponent x - 52)) : ℚ) * 2 ^ (binary64_exponent x - 52)
      ≤ ((2 ^ 53 : ℤ) : ℚ) * 2 ^ (binary64_exponent x - 52) :=
        mul_le_mul_of_nonneg_right h5 (le_of_lt hu)
    _ = 2 ^ (binary64_exponent x + 1) := by
      have := ulp_mul_pow (binary64_exponent x) 53
      rw [show (53 + binary64_exponent x - 52 : ℤ) = binary64_exponent x + 1 by ring] at this
      rw [← this]
      norm_num

theorem binary64_round_magnitude_ge {x : ℚ} (h : (2 : ℚ) ^ binary64_exponent x ≤ x) :
    (2 : ℚ) ^ binary64_exponent x ≤ binary64_round_magnitude x := by
  unfold binary64_round_magnitude
  have hu := ulp_pos (binary64_exponent x)
  have h3 : (((2 ^ 52 : ℤ) : ℚ)) * 2 ^ (binary64_exponent x - 52) =
      2 ^ (binary64_exponent x) := by
    have := ulp_mul_pow (binary64_exponent x) 52
    rw [show (52 + binary64_exponent x - 52 : ℤ) = binary64_exponent x by ring] at this
    rw [← this]
    norm_num
  have h1 : ((2 ^ 52 : ℤ) : ℚ) ≤ x / 2 ^ (binary64_exponent x - 52) := by
    rw [le_div_iff₀ hu, h3]
    exact h
  have h4 := round_half_even_mono h1
  rw [round_half_even_intCast] at h4
  have h5 : ((2 ^ 52 : ℤ) : ℚ) ≤ (round_half_even (x / 2 ^ (binary64_exponent x - 52)) : ℚ) := by
    exact_mod_cast h4
  calc (2 : ℚ) ^ binary64_exponent x
      = ((2 ^ 52 : ℤ) : ℚ) * 2 ^ (binary64_exponent x - 52) := h3.symm
    _ ≤ _ := mul_le_mul_of_nonneg_right h5 (le_of_lt hu)

theorem binary64_round_magnitude_mono {a b : ℚ} (ha : 0 ≤ a) (hab : a ≤ b) :
    binary64_round_magnitude a ≤ binary64_round_magnitude b := by
  rcases eq_or_lt_of_le ha with h0 | hpos
  · rw [← h0, binary64_round_magnitude_zero]
    exact binary64_round_magnitude_nonneg (le_trans ha hab)
  · have he := binary64_exponent_mono hpos hab
    rcases eq_or_lt_of_le he with heq | hlt
    · unfold binary64_round_magnitude
      rw [heq]
      apply mul_le_mul_of_nonneg_right _ (le_of_lt (ulp_pos _))
      have := round_half_even_mono
        (div_le_div_of_nonneg_right hab (le_of_lt (ulp_pos (binary64_exponent b))))
      exact_mod_cast this
    · have hb : (2 : ℚ) ^ binary64_exponent b ≤ b := by
        rcases binary64_normal_or_min (lt_of_lt_of_le hpos hab) with h | h
        · exact h
        · have := binary64_exponent_ge a
          omega
      calc binary64_round_magnitude a ≤ 2 ^ (binary64_exponent a + 1) :=
            binary64_round_magnitude_le_next a
        _ ≤ 2 ^ binary64_exponent b := zpow_le_zpow_right₀ (by norm_num) (by omega)
        _ ≤ binary64_round_magnitude b := binary64_round_magnitude_ge hb

theorem round_half_even_eq {y : ℚ} {n : ℤ} (h : |y - n| < 1 / 2) : round_half_even y = n := by
  have h1 := abs_le.mp (round_half_even_sub_le y)
  have h2 := abs_lt.mp h
  have h3 : ((round_half_even y : ℤ) : ℚ) < (n : ℚ) + 1 := by linarith
  have h4 : ((n : ℤ) : ℚ) < (round_half_even y : ℚ) + 1 := by linarith
  have h5 : round_half_even y < n + 1 := by exact_mod_cast h3
  have h6 : n < round_half_even y + 1 := by exact_mod_cast h4
  omega

theorem binary64_exponent_eq {x : ℚ} {e : ℤ} (he : -1022 ≤ e) (h1 : (2 : ℚ) ^ e ≤ x)
    (h2 : x < (2 : ℚ) ^ (e + 1)) : binary64_exponent x = e := by
  have hx : 0 < x := lt_of_lt_of_le (by positivity) h1
  have ha := (le_log2_iff hx e).mp h1
  have hb := (log2_lt_iff hx (e + 1)).mp h2
  unfold binary64_exponent
  rw [max_eq_left (by omega)]
  omega

/-- The rounding of a value in the binade of exponent `e` whose quotient by the
unit in the last place is within `1/2` of the integer `n`. -/
theorem binary64_round_magnitude_eq {x : ℚ} (e n : ℤ) (he : -1022 ≤ e)
    (h1 : (2 : ℚ) ^ e ≤ x) (h2 : x < (2 : ℚ) ^ (e + 1))
    (hn : |x / 2 ^ (e - 52) - n| < 1 / 2) :
    binary64_round_magnitude x = (n : ℚ) * 2 ^ (e - 52) := by
  unfold binary64_round_magnitude
  rw [binary64_exponent_eq he h1 h2, round_half_even_eq hn]

theorem binary64_round_magnitude_one : binary64_round_magnitude 1 = 1 := by
  rw [binary64_round_magnitude_eq 0 (2 ^ 52) (by norm_num) (by norm_num) (by norm_num)
    (by norm_num)]
  norm_num

theorem binary64_round_magnitude_idem {x : ℚ} (hx : 0 ≤ x) :
    binary64_round_magnitude (binary64_round_magnitude x) = binary64_round_magnitude x := by
  have hu := ulp_pos (binary64_exponent x)
  have hnn := binary64_round_magnitude_nonneg hx
  have hle := binary64_round_magnitude_le_next x
  rcases eq_or_lt_of_le hnn with h0 | hpos
  · rw [← h0, binary64_round_magnitude_zero]
  rcases eq_or_lt_of_le hle with htop | hlt
  · -- the rounding reached the next power of two
    rw [htop]
    have hE := binary64_exponent_ge x
    rw [binary64_round_magnitude_eq (binary64_exponent x + 1) (2 ^ 52) (by omega) le_rfl
      (by apply zpow_lt_zpow_right₀ (by norm_num); omega)
      (by
        have h3 : (2 : ℚ) ^ (binary64_exponent x + 1) / 2 ^ (binary64_exponent x + 1 - 52) =
            2 ^ (52 : ℤ) := by
          rw [← zpow_sub₀ (by norm_num : (2 : ℚ) ≠ 0)]
          congr 1
          ring
        rw [h3]
        norm_num)]
    have := ulp_mul_pow (binary64_exponent x + 1) 52
    rw [show (52 + (binary64_exponent x + 1) - 52 : ℤ) = binary64_exponent x + 1 by ring] at this
    rw [← this]
    norm_num
  · -- the rounding stays in the binade of `x`
    have hxpos : 0 < x := by
      rcases eq_or_lt_of_le hx with h | h
      · rw [← h, binary64_round_magnitude_zero] at hpos
        exact absurd hpos (lt_irrefl _)
      · exact h
    have hexp : binary64_exponent (binary64_round_magnitude x) = binary64_exponent x := by
      have hlog := (log2_lt_iff hpos (binary64_exponent x + 1)).mp hlt
      rcases binary64_normal_or_min hxpos with hn | hm
      · have hge := binary64_round_magnitude_ge hn
        have hlog2 := (le_log2_iff hpos (binary64_exponent x)).mp hge
        have hE := binary64_exponent_ge x
        show max (Int.log 2 (binary64_round_magnitude x)) (-1022) = binary64_exponent x
        rw [max_eq_left (by omega)]
        omega
      · show max (Int.log 2 (binary64_round_magnitude x)) (-1022) = binary64_exponent x
        rw [hm] at hlog ⊢
        rw [max_eq_right (by omega)]
    have hq : binary64_round_magnitude x / 2 ^ (binary64_exponent x - 52) =
        ((round_half_even (x / 2 ^ (binary64_exponent x - 52)) : ℤ) : ℚ) := by
      unfold binary64_round_magnitude
      field_simp
    have hdef : ∀ y : ℚ, binary64_round_magnitude y =
        (round_half_even (y / 2 ^ (binary64_exponent y - 52)) : ℚ) *
          2 ^ (binary64_exponent y - 52) := fun _ => rfl
    rw [hdef (binary64_round_magnitude x), hexp, hq, round_half_even_intCast]
    rfl

theorem binary64_round_zero : binary64_round 0 = 0 := by
  simp [binary64_round, binary64_round_magnitude_zero]

theorem binary64_round_one : binary64_round 1 = 1 := by
  simp [binary64_round, binary64_round_magnitude_one]

theorem binary64_round_of_nonneg {x : ℚ} (hx : 0 ≤ x) :
    binary64_round x = binary64_round_magnitude x := by
  unfold binary64_round
  rw [if_neg (not_lt.mpr hx)]

theorem binary64_round_mono {a b : ℚ} (ha : 0 ≤ a) (hab : a ≤ b) :
    binary64_round a ≤ binary64_round b := by
  rw [binary64_round_of_nonneg ha, binary64_round_of_nonneg (le_trans ha hab)]
  exact binary64_round_magnitude_mono ha hab

theorem binary64_round_idem (x : ℚ) : binary64_round (binary64_round x) = binary64_round x := by
  rcases lt_or_le x 0 with hneg | hnn
  · have hp : 0 ≤ binary64_round_magnitude (-x) :=
      binary64_round_magnitude_nonneg (by linarith)
    have hx : binary64_round x = -binary64_round_magnitude (-x) := by
      unfold binary64_round
      rw [if_pos hneg]
    rw [hx]
    rcases eq_or_lt_of_le hp with h0 | hpos
    · rw [← h0]
      simp [binary64_round_zero]
    · unfold binary64_round
      rw [if_pos (by linarith), neg_neg, binary64_round_magnitude_idem (by linarith)]
  · rw [binary64_round_of_nonneg hnn,
      binary64_round_of_nonneg (binary64_round_magnitude_nonneg hnn),
      binary64_round_magnitude_idem hnn]

/-- The rounding of a positive value in the binade of exponent `e`. -/
theorem binary64_round_eq_pos (x : ℚ) (e n : ℤ) (he : -1022 ≤ e)
    (h1 : (2 : ℚ) ^ e ≤ x) (h2 : x < (2 : ℚ) ^ (e + 1))
    (hn : |x / 2 ^ (e - 52) - n| < 1 / 2) :
    binary64_round x = (n : ℚ) * 2 ^ (e - 52) := by
  have hx : 0 ≤ x := le_trans (by positivity) h1
  rw [binary64_round_of_nonneg hx]
  exact binary64_round_magnitude_eq e n he h1 h2 hn

/-- The rounding of a negative value whose magnitude lies in the binade of
exponent `e`. -/
theorem binary64_round_eq_neg (x : ℚ) (e n : ℤ) (he : -1022 ≤ e)
    (h1 : (2 : ℚ) ^ e ≤ -x) (h2 : -x < (2 : ℚ) ^ (e + 1))
    (hn : |-x / 2 ^ (e - 52) - n| < 1 / 2) :
    binary64_round x = -((n : ℚ) * 2 ^ (e - 52)) := by
  have hx : x < 0 := by
    have : (0 : ℚ) < 2 ^ e := by positivity
    linarith
  unfold binary64_round
  rw [if_pos hx, binary64_round_magnitude_eq e n he h1 h2 hn]

/-- The absolute error of `binary64_round_magnitude`: half a unit in the last
place, which is `2^-53` relative in the normal range and `2^-1075` at most in
the subnormal range. -/
theorem binary64_round_magnitude_error {x : ℚ} (hx : 0 ≤ x) :
    |binary64_round_magnitude x - x| ≤ 2 ^ (-53 : ℤ) * x + 2 ^ (-1075 : ℤ) := by
  have hu := ulp_pos (binary64_exponent x)
  have hr := round_half_even_sub_le (x / 2 ^ (binary64_exponent x - 52))
  have hkey : |binary64_round_magnitude x - x| ≤ 2 ^ (binary64_exponent x - 53) := by
    have h1 : binary64_round_magnitude x - x =
        ((round_half_even (x / 2 ^ (binary64_exponent x - 52)) : ℚ) -
          x / 2 ^ (binary64_exponent x - 52)) * 2 ^ (binary64_exponent x - 52) := by
      unfold binary64_round_magnitude
      field_simp
    rw [h1, abs_mul, abs_of_pos hu]
    have h2 : (2 : ℚ) ^ (binary64_exponent x - 53) = 1 / 2 * 2 ^ (binary64_exponent x - 52) := by
      rw [show binary64_exponent x - 52 = (binary64_exponent x - 53) + 1 by ring,
        zpow_add_one₀ (by norm_num : (2 : ℚ) ≠ 0)]
      ring
    rw [h2]
    exact mul_le_mul_of_nonneg_right hr hu.le
  rcases eq_or_lt_of_le hx with h0 | hpos
  · rw [← h0, binary64_round_magnitude_zero]
    norm_num
  · rcases binary64_normal_or_min hpos with hn | hm
    · have h3 : (2 : ℚ) ^ (binary64_exponent x - 53) = 2 ^ (-53 : ℤ) * 2 ^ binary64_exponent x := by
        rw [← zpow_add₀ (by norm_num : (2 : ℚ) ≠ 0)]
        congr 1
        ring
      have h4 : (2 : ℚ) ^ (-53 : ℤ) * 2 ^ binary64_exponent x ≤ 2 ^ (-53 : ℤ) * x :=
        mul_le_mul_of_nonneg_left hn (by positivity)
      have h5 : (0 : ℚ) < 2 ^ (-1075 : ℤ) := by positivity
      linarith
    · rw [hm] at hkey
      have h6 : (0 : ℚ) ≤ 2 ^ (-53 : ℤ) * x := by positivity
      have h7 : (2 : ℚ) ^ ((-1022 : ℤ) - 53) = 2 ^ (-1075 : ℤ) := by norm_num
      linarith

/-- The absolute error of `binary64_round`. -/
theorem binary64_round_error (x : ℚ) :
    |binary64_round x - x| ≤ 2 ^ (-53 : ℤ) * |x| + 2 ^ (-1075 : ℤ) := by
  unfold binary64_round
  by_cases hx : x < 0
  · rw [if_pos hx, abs_of_neg hx]
    have h := binary64_round_magnitude_error (le_of_lt (neg_pos.mpr hx))
    rw [show -binary64_round_magnitude (-x) - x = -(binary64_round_magnitude (-x) - -x) by ring,
      abs_neg]
    exact h
  · rw [if_neg hx, abs_of_nonneg (not_lt.mp hx)]
    exact binary64_round_magnitude_error (not_lt.mp hx)

/-- The function `binary64_round` satisfies the rounding laws. -/
theorem binary64_rounding_laws : rounding_laws binary64_round :=
  ⟨fun _ _ ha hab => binary64_round_mono ha hab, binary64_round_zero, binary64_round_one,
    binary64_round_idem⟩

/-- The identity, exact arithmetic, satisfies the rounding laws. -/
theorem exact_rounding_laws : rounding_laws (fun x => x) :=
  ⟨fun _ _ _ hab => hab, rfl, rfl, fun _ => rfl⟩

/-! ## The update lines under rounding -/

/-- With the identity for rounding, the rounded lines 70-87 are
`survive_update_kalman_variance`. -/
theorem survive_update_kalman_variance_rnd_exact (tracker : SurviveIMUTracker)
    (info : kalman_info_t) (timecode : ℕ) (new_variance : FLT) :
    survive_update_kalman_variance_rnd (fun x => x) tracker info timecode new_variance =
      survive_update_kalman_variance tracker info timecode new_variance := rfl

/-- A rounding with the laws keeps non-negative values non-negative. -/
theorem rounding_nonneg {rnd : FLT → FLT} (h : rounding_laws rnd) {x : FLT} (hx : 0 ≤ x) :
    0 ≤ rnd x := by
  have := h.1 0 x le_rfl hx
  rwa [h.2.1] at this

/-- A rounding with the laws keeps values of `[0, 1]` in `[0, 1]`. -/
theorem rounding_le_one {rnd : FLT → FLT} (h : rounding_laws rnd) {x : FLT} (h0 : 0 ≤ x)
    (h1 : x ≤ 1) : rnd x ≤ 1 := by
  have := h.1 x 1 h0 h1
  rwa [h.2.2.1] at this

/-- With a measurement variance of `0` the rounded lines 70-87 return the
weight `1` and leave the variance `0`, for every rounding with the laws and
every stored state. -/
theorem kalman_variance_rnd_zero_measurement {rnd : FLT → FLT} (h : rounding_laws rnd)
    (tracker : SurviveIMUTracker) (info : kalman_info_t) (timecode : ℕ) :
    (survive_update_kalman_variance_rnd rnd tracker info timecode 0).1 = 1 ∧
      (survive_update_kalman_variance_rnd rnd tracker info timecode 0).2.variance = 0 := by
  obtain ⟨-, h0, h1, hid⟩ := h
  unfold survive_update_kalman_variance_rnd
  by_cases hs : info.variance < 0
  · simp [hs]
  · simp only [hs, if_false, zero_add, hid]
    by_cases hc : rnd (info.variance + rnd (info.variance_per_second *
        rnd (time_diff_seconds tracker.so timecode info.last_update))) = 0
    · simp [hc, h0]
    · simp [hc, h0, h1]

/-- The bounds of the variance left by the rounded lines 70-87: non-negative
and at most the rounded time-decayed stored variance. -/
theorem kalman_variance_rnd_bounds {rnd : FLT → FLT} (h : rounding_laws rnd)
    (tracker : SurviveIMUTracker) (info : kalman_info_t) (timecode : ℕ) (new_variance : FLT)
    (hvar : 0 ≤ info.variance)
    (hrate : 0 ≤ info.variance_per_second)
    (hdt : 0 ≤ time_diff_seconds tracker.so timecode info.last_update)
    (hR : 0 ≤ new_variance) :
    0 ≤ (survive_update_kalman_variance_rnd rnd tracker info timecode new_variance).2.variance ∧
      (survive_update_kalman_variance_rnd rnd tracker info timecode new_variance).2.variance ≤
        rnd (info.variance + rnd (info.variance_per_second *
          rnd (time_diff_seconds tracker.so timecode info.last_update))) := by
  have hmono := h.1
  have h0 := h.2.1
  have h1 := h.2.2.1
  have hid := h.2.2.2
  unfold survive_update_kalman_variance_rnd
  have hs : ¬ info.variance < 0 := not_lt.mpr hvar
  simp only [hs, if_false]
  generalize hV : rnd (info.variance + rnd (info.variance_per_second *
    rnd (time_diff_seconds tracker.so timecode info.last_update))) = V
  have hV0 : 0 ≤ V := by
    rw [← hV]
    exact rounding_nonneg h (add_nonneg hvar
      (rounding_nonneg h (mul_nonneg hrate (rounding_nonneg h hdt))))
  have hVid : rnd V = V := by rw [← hV, hid]
  have hVC : V ≤ rnd (new_variance + V) := by
    have := hmono V (new_variance + V) hV0 (by linarith)
    rwa [hVid] at this
  have hw : 0 ≤ (if rnd (new_variance + V) = 0 then (1 : FLT) else rnd (V / rnd (new_variance + V))) ∧
      (if rnd (new_variance + V) = 0 then (1 : FLT) else rnd (V / rnd (new_variance + V))) ≤ 1 := by
    by_cases hc : rnd (new_variance + V) = 0
    · rw [if_pos hc]
      exact ⟨zero_le_one, le_rfl⟩
    · rw [if_neg hc]
      have hCpos : 0 < rnd (new_variance + V) :=
        lt_of_le_of_ne (le_trans hV0 hVC) (Ne.symm hc)
      exact ⟨rounding_nonneg h (div_nonneg hV0 hCpos.le),
        rounding_le_one h (div_nonneg hV0 hCpos.le) ((div_le_one hCpos).mpr hVC)⟩
  generalize (if rnd (new_variance + V) = 0 then (1 : FLT) else rnd (V / rnd (new_variance + V)))
    = w at hw
  obtain ⟨hw0, hw1⟩ := hw
  have ho0 : 0 ≤ rnd (1 - w) := rounding_nonneg h (by linarith)
  have ho1 : rnd (1 - w) ≤ 1 := rounding_le_one h (by linarith) (by linarith)
  constructor
  · exact rounding_nonneg h (mul_nonneg ho0 hV0)
  · have := hmono (rnd (1 - w) * V) V (mul_nonneg ho0 hV0) (by nlinarith)
    rwa [hVid] at this

/-- The trace of the rounded lines 70-87 on a non-negative stored variance and
a non-zero combined variance, one rounded operation at a time. -/
theorem kalman_variance_rnd_trace (rnd : FLT → FLT) (tracker : SurviveIMUTracker)
    (info : kalman_info_t) (timecode : ℕ) (new_variance : FLT)
    (time_diff decay variance combined weight rest posterior : FLT)
    (hs : ¬ info.variance < 0)
    (h1 : rnd (time_diff_seconds tracker.so timecode info.last_update) = time_diff)
    (h2 : rnd (info.variance_per_second * time_diff) = decay)
    (h3 : rnd (info.variance + decay) = variance)
    (h4 : rnd (new_variance + variance) = combined)
    (hc : combined ≠ 0)
    (h5 : rnd (variance / combined) = weight)
    (h6 : rnd (1 - weight) = rest)
    (h7 : rnd (rest * variance) = posterior) :
    survive_update_kalman_variance_rnd rnd tracker info timecode new_variance =
      (weight, { info with last_update := timecode, variance := posterior }) := by
  unfold survive_update_kalman_variance_rnd
  simp only [hs, if_false, h1, h2, h3, h4, hc, h5, h6, h7]

/-- At weight `1` the rounded line 96 stores `rnd (v + rnd (m - v))`. -/
theorem position_component_rnd_weight_one {rnd : FLT → FLT} (h : rounding_laws rnd)
    (v m : FLT) :
    survive_update_position_component_rnd rnd v 1 m = rnd (v + rnd (m - v)) := by
  unfold survive_update_position_component_rnd
  rw [one_mul, h.2.2.2]

/-- At weight `1` the rounded line 96 stores the measurement whenever the
measurement is a value of the rounding and the difference `m - v` is exact. -/
theorem position_component_rnd_exact {rnd : FLT → FLT} (h : rounding_laws rnd) (v m : FLT)
    (hm : rnd m = m) (hd : rnd (m - v) = m - v) :
    survive_update_position_component_rnd rnd v 1 m = m := by
  rw [position_component_rnd_weight_one h, hd]
  rw [show v + (m - v) = m by ring, hm]

/-- At weight `1` the line 96 in binary64 stores the measurement up to
rounding. -/
theorem position_component_binary64_error (v m : FLT) :
    |survive_update_position_component_rnd binary64_round v 1 m - m| ≤
      2 ^ (-52 : ℤ) * (|m| + |m - v|) + 2 ^ (-1073 : ℤ) := by
  rw [position_component_rnd_weight_one binary64_rounding_laws]
  have e1 := binary64_round_error (m - v)
  have e2 := binary64_round_error (v + binary64_round (m - v))
  generalize binary64_round (m - v) = d at e1 e2
  generalize binary64_round (v + d) = s at e2
  have hu : (2 : ℚ) ^ (-52 : ℤ) = 2 * 2 ^ (-53 : ℤ) := by norm_num
  have hη : (2 : ℚ) ^ (-1073 : ℤ) = 4 * 2 ^ (-1075 : ℤ) := by norm_num
  rw [hu, hη]
  have hu0 : (0 : ℚ) < 2 ^ (-53 : ℤ) := by positivity
  have hu1 : (2 : ℚ) ^ (-53 : ℤ) ≤ 1 := by norm_num
  have hη0 : (0 : ℚ) < 2 ^ (-1075 : ℤ) := by positivity
  generalize (2 : ℚ) ^ (-53 : ℤ) = u at *
  generalize (2 : ℚ) ^ (-1075 : ℤ) = η at *
  have hA := abs_nonneg (m - v)
  have hB := abs_nonneg m
  have hvd : |v + d| ≤ |m| + |d - (m - v)| := by
    have : v + d = m + (d - (m - v)) := by ring
    rw [this]
    exact abs_add _ _
  have hsm : |s - m| ≤ |s - (v + d)| + |d - (m - v)| := by
    have : s - m = (s - (v + d)) + (d - (m - v)) := by ring
    rw [this]
    exact abs_add _ _
  have hE1 := abs_nonneg (d - (m - v))
  have hp1 : u * |v + d| ≤ u * (|m| + |d - (m - v)|) := mul_le_mul_of_nonneg_left hvd hu0.le
  have hp2 : u * |d - (m - v)| ≤ 1 * |d - (m - v)| := mul_le_mul_of_nonneg_right hu1 hE1
  have hp3 : u * |m - v| ≥ 0 := mul_nonneg hu0.le hA
  have hp4 : u * |m| ≥ 0 := mul_nonneg hu0.le hB
  nlinarith

/-! ## C1: the Kalman step of `survive_imu_tracker_integrate_velocity` -/

/-- C1 (as amended): when the time-decayed variance `v_prior` of `velocity.Pos`
is non-negative and the timecode passes the update assertions of both velocity
signals, `survive_imu_tracker_integrate_velocity` completes and performs the
scalar Kalman step on `velocity.Pos`: the value becomes
`value + w * (m - value)` componentwise, the variance `(1 - w) * v_prior` and
`last_update` the timecode, with `w = v_prior / (v_prior + R)` (`1` when
`v_prior + R = 0`); the time-decay enters once. -/
theorem integrate_velocity_kalman_step (tracker : SurviveIMUTracker) (timecode : ℕ)
    (Rv : FLT × FLT) (vel : SurviveVelocity)
    (hpos : survive_timecode_difference timecode tracker.velocity.Pos.info.last_update
      < 2147483647)
    (hrot : survive_timecode_difference timecode tracker.velocity.AxisAngleRot.info.last_update
      < 2147483647)
    (hprior : 0 ≤ spec_v_prior tracker.so tracker.velocity.Pos.info timecode) :
    ∃ t1, survive_imu_tracker_integrate_velocity tracker timecode Rv vel = some t1 ∧
      t1.velocity.Pos.v = spec_blend3d tracker.velocity.Pos.v vel.Pos
        (spec_weight (spec_v_prior tracker.so tracker.velocity.Pos.info timecode) Rv.1) ∧
      t1.velocity.Pos.info.variance =
        (1 - spec_weight (spec_v_prior tracker.so tracker.velocity.Pos.info timecode) Rv.1) *
          spec_v_prior tracker.so tracker.velocity.Pos.info timecode ∧
      t1.velocity.Pos.info.last_update = timecode := by
  simp [survive_imu_tracker_integrate_velocity, survive_update_pose_axis_angle,
    survive_update_position, position_ref.update_fn, position_ref.get, position_ref.set,
    survive_update_axis_angle_rotation, update_vel_pos_eq _ _ hpos, update_vel_rot_eq, hrot,
    survive_timecode_difference_self, kalman_at_timecode, hprior, spec_blend3d]

/-- An instance of C1 (as amended): the scenario tracker one second after init,
a measurement `(1, 0, 0)` with variance `1/10`. -/
theorem integrate_velocity_kalman_step_witness :
    survive_timecode_difference 48000000
        (survive_imu_tracker_init scenario_so).velocity.Pos.info.last_update < 2147483647 ∧
      survive_timecode_difference 48000000
        (survive_imu_tracker_init scenario_so).velocity.AxisAngleRot.info.last_update
          < 2147483647 ∧
      0 ≤ spec_v_prior (survive_imu_tracker_init scenario_so).so
        (survive_imu_tracker_init scenario_so).velocity.Pos.info 48000000 ∧
      ∃ t1, survive_imu_tracker_integrate_velocity (survive_imu_tracker_init scenario_so)
            48000000 (1 / 10, 1 / 10) ⟨⟨1, 0, 0⟩, ⟨0, 0, 0⟩⟩ = some t1 ∧
        t1.velocity.Pos.v =
          spec_blend3d (survive_imu_tracker_init scenario_so).velocity.Pos.v ⟨1, 0, 0⟩
            (spec_weight (spec_v_prior (survive_imu_tracker_init scenario_so).so
              (survive_imu_tracker_init scenario_so).velocity.Pos.info 48000000) (1 / 10)) ∧
        t1.velocity.Pos.info.variance =
          (1 - spec_weight (spec_v_prior (survive_imu_tracker_init scenario_so).so
              (survive_imu_tracker_init scenario_so).velocity.Pos.info 48000000) (1 / 10)) *
            spec_v_prior (survive_imu_tracker_init scenario_so).so
              (survive_imu_tracker_init scenario_so).velocity.Pos.info 48000000 ∧
        t1.velocity.Pos.info.last_update = 48000000 :=
  ⟨by norm_num [survive_timecode_difference, survive_imu_tracker_init],
   by norm_num [survive_timecode_difference, survive_imu_tracker_init],
   by norm_num [spec_v_prior, time_diff_seconds, survive_timecode_difference,
     survive_imu_tracker_init, scenario_so, default_config],
   integrate_velocity_kalman_step (survive_imu_tracker_init scenario_so) 48000000
     (1 / 10, 1 / 10) ⟨⟨1, 0, 0⟩, ⟨0, 0, 0⟩⟩
     (by norm_num [survive_timecode_difference, survive_imu_tracker_init])
     (by norm_num [survive_timecode_difference, survive_imu_tracker_init])
     (by norm_num [spec_v_prior, time_diff_seconds, survive_timecode_difference,
       survive_imu_tracker_init, scenario_so, default_config])⟩

/-- C1 as stated fails: with `filter-vel-var-per-sec = -1` the freshly
initialised tracker has `velocity.Pos` variance `1/1000 ≥ 0`; one second later
the decayed variance is `-999/1000`, the sentinel branch is taken and a
measurement `(1, 0, 0)` with variance `2` is copied (value `(1, 0, 0)`,
variance `2`), where the stated step gives value `(-999/1001, 0, 0)` and
variance `-1998/1001`. -/
theorem integrate_velocity_negative_rate_counterexample :
    0 ≤ (survive_imu_tracker_init neg_rate_so).velocity.Pos.info.variance ∧
      Option.map (fun t => (t.velocity.Pos.v, t.velocity.Pos.info.variance))
        (survive_imu_tracker_integrate_velocity (survive_imu_tracker_init neg_rate_so) 48000000
          (2, 2) ⟨⟨1, 0, 0⟩, ⟨0, 0, 0⟩⟩) = some (⟨1, 0, 0⟩, 2) ∧
      spec_blend3d (survive_imu_tracker_init neg_rate_so).velocity.Pos.v ⟨1, 0, 0⟩
        (spec_weight (spec_v_prior neg_rate_so
          (survive_imu_tracker_init neg_rate_so).velocity.Pos.info 48000000) 2) =
        ⟨-999 / 1001, 0, 0⟩ ∧
      (1 - spec_weight (spec_v_prior neg_rate_so
          (survive_imu_tracker_init neg_rate_so).velocity.Pos.info 48000000) 2) *
        spec_v_prior neg_rate_so
          (survive_imu_tracker_init neg_rate_so).velocity.Pos.info 48000000 = -1998 / 1001 := by
  refine ⟨by norm_num [survive_imu_tracker_init], ?_, ?_, ?_⟩
  · norm_num [survive_imu_tracker_integrate_velocity, survive_update_pose_axis_angle,
      survive_update_position, position_ref.update_fn, position_ref.get, position_ref.set,
      survive_update_axis_angle_rotation, update_vel_pos, update_vel_rot,
      survive_imu_tracker_predict_velocity_pos, survive_imu_tracker_predict_velocity_rot,
      survive_update_kalman_variance, time_diff_seconds, survive_timecode_difference,
      survive_imu_tracker_init, neg_rate_so, scenario_so, default_config, zero3d]
  · norm_num [spec_blend3d, spec_weight, spec_v_prior, time_diff_seconds,
      survive_timecode_difference, survive_imu_tracker_init, neg_rate_so, scenario_so,
      default_config, zero3d]
  · norm_num [spec_weight, spec_v_prior, time_diff_seconds,
      survive_timecode_difference, survive_imu_tracker_init, neg_rate_so, scenario_so,
      default_config]

/-! ## C2: the bounds of the incoming weight -/

/-- C2: the incoming weight returned by `survive_update_kalman_variance` lies in
`[0, 1]` for every stored variance (negative sentinel or not), every
non-negative variance-per-second, every non-negative elapsed time and every
non-negative measurement variance. -/
theorem kalman_weight_in_unit_interval (tracker : SurviveIMUTracker) (info : kalman_info_t)
    (timecode : ℕ) (new_variance : FLT)
    (hrate : 0 ≤ info.variance_per_second)
    (hdt : 0 ≤ time_diff_seconds tracker.so timecode info.last_update)
    (hR : 0 ≤ new_variance) :
    0 ≤ (survive_update_kalman_variance tracker info timecode new_variance).1 ∧
      (survive_update_kalman_variance tracker info timecode new_variance).1 ≤ 1 := by
  unfold survive_update_kalman_variance
  by_cases hs : info.variance < 0
  · simp [hs]
  · have hv : 0 ≤ info.variance +
        info.variance_per_second * time_diff_seconds tracker.so timecode info.last_update :=
      add_nonneg (not_lt.mp hs) (mul_nonneg hrate hdt)
    simpa [hs] using blend_weight_bounds _ new_variance hv hR

/-- An instance of C2: a signal of variance `1/100` and rate `1/10`, one second
after its last update, a measurement of variance `1/100`. -/
theorem kalman_weight_in_unit_interval_witness :
    (0 : FLT) ≤ (kalman_info_t.mk (1 / 100) (1 / 10) 0).variance_per_second ∧
      0 ≤ time_diff_seconds (survive_imu_tracker_init scenario_so).so 48000000
        (kalman_info_t.mk (1 / 100) (1 / 10) 0).last_update ∧
      (0 : FLT) ≤ 1 / 100 ∧
      0 ≤ (survive_update_kalman_variance (survive_imu_tracker_init scenario_so)
        (kalman_info_t.mk (1 / 100) (1 / 10) 0) 48000000 (1 / 100)).1 ∧
      (survive_update_kalman_variance (survive_imu_tracker_init scenario_so)
        (kalman_info_t.mk (1 / 100) (1 / 10) 0) 48000000 (1 / 100)).1 ≤ 1 :=
  ⟨by norm_num,
   by norm_num [time_diff_seconds, survive_timecode_difference, scenario_so,
     survive_imu_tracker_init],
   by norm_num,
   kalman_weight_in_unit_interval (survive_imu_tracker_init scenario_so)
     (kalman_info_t.mk (1 / 100) (1 / 10) 0) 48000000 (1 / 100) (by norm_num)
     (by norm_num [time_diff_seconds, survive_timecode_difference, scenario_so,
       survive_imu_tracker_init])
     (by norm_num)⟩

/-! ## C3: observation dominance -/

/-- C3 (as amended): whenever `survive_imu_tracker_integrate_observation` with
`R = (0, 0)` completes (no assertion aborts it), on any tracker state,
initialised or not, the blend weight is `1` on both signals. In exact
arithmetic the stored position afterwards equals the observed one, and so does
the stored rotation for a `quatslerp` that returns its second argument at
weight `1` (when the stored quaternion is the zero sentinel the observation is
copied outright). Under every rounding with the laws of `rounding_laws`,
binary64 among them, lines 70-87 still return the weight `1` exactly and leave
the variance `0` exactly, and line 96 stores `rnd (v + rnd (m - v))` for the
predicted component `v` and the observed component `m`: the observation
whenever `m` is a value of the rounding and the difference `m - v` is exact,
and in binary64 a value within `2^-52 * (|m| + |m - v|) + 2^-1073` of it.
`integrate_observation_completes` gives conditions under which the call
completes. -/
theorem observation_dominance (L : Linmath) (timecode : ℕ) (tracker t1 : SurviveIMUTracker)
    (pose : SurvivePose)
    (hslerp : ∀ a, L.quatslerp a pose.Rot 1 = pose.Rot)
    (h : survive_imu_tracker_integrate_observation L timecode tracker pose (0, 0) = some t1) :
    (t1.pose.Pos.v = pose.Pos ∧ t1.pose.Rot.v = pose.Rot) ∧
      (∀ rnd : FLT → FLT, rounding_laws rnd →
        (∀ (tr : SurviveIMUTracker) (info : kalman_info_t) (tc : ℕ),
          (survive_update_kalman_variance_rnd rnd tr info tc 0).1 = 1 ∧
            (survive_update_kalman_variance_rnd rnd tr info tc 0).2.variance = 0) ∧
        (∀ v m : FLT,
          survive_update_position_component_rnd rnd v 1 m = rnd (v + rnd (m - v))) ∧
        (∀ v m : FLT, rnd m = m → rnd (m - v) = m - v →
          survive_update_position_component_rnd rnd v 1 m = m)) ∧
      (∀ v m : FLT,
        |survive_update_position_component_rnd binary64_round v 1 m - m| ≤
          2 ^ (-52 : ℤ) * (|m| + |m - v|) + 2 ^ (-1073 : ℤ)) := by
  refine ⟨?_, fun rnd hrnd => ⟨fun tr info tc =>
      kalman_variance_rnd_zero_measurement hrnd tr info tc,
    fun v m => position_component_rnd_weight_one hrnd v m,
    fun v m hm hd => position_component_rnd_exact hrnd v m hm hd⟩,
    fun v m => position_component_binary64_error v m⟩
  obtain ⟨tu, hu, hpose, -⟩ := integrate_observation_some h
  rw [hpose]
  exact survive_update_pose_zero rfl rfl hslerp hu

/-- An instance of C3 (as amended) on the blend path: a tracker observed at the
rest pose, with `use_obs_velocity = 0`, receives one millisecond later the
observation `((1, 2, 3); (0, 1, 0, 0))` with `R = (0, 0)`; in binary64 the
weight is `1` and the component `3/4` observed over the predicted `1/2` is
stored exactly. -/
theorem observation_dominance_witness :
    (∀ a, scenario_linmath.quatslerp a (⟨0, 1, 0, 0⟩ : LinmathQuat) 1 = ⟨0, 1, 0, 0⟩) ∧
      survive_imu_tracker_integrate_observation scenario_linmath 48000
          { first_observed rest_pose (1 / 100, 1 / 100) 0 with use_obs_velocity := 0 }
          ⟨⟨1, 2, 3⟩, ⟨0, 1, 0, 0⟩⟩ (0, 0) =
        some { first_observed ⟨⟨1, 2, 3⟩, ⟨0, 1, 0, 0⟩⟩ (0, 0) 48000 with
          use_obs_velocity := 0 } ∧
      ({ first_observed ⟨⟨1, 2, 3⟩, ⟨0, 1, 0, 0⟩⟩ (0, 0) 48000 with
          use_obs_velocity := 0 } : SurviveIMUTracker).pose.Pos.v = ⟨1, 2, 3⟩ ∧
      ({ first_observed ⟨⟨1, 2, 3⟩, ⟨0, 1, 0, 0⟩⟩ (0, 0) 48000 with
          use_obs_velocity := 0 } : SurviveIMUTracker).pose.Rot.v = ⟨0, 1, 0, 0⟩ ∧
      (survive_update_kalman_variance_rnd binary64_round (survive_imu_tracker_init scenario_so)
        (kalman_info_t.mk (1 / 100) (1 / 10) 0) 48000 0).1 = 1 ∧
      (survive_update_kalman_variance_rnd binary64_round (survive_imu_tracker_init scenario_so)
        (kalman_info_t.mk (1 / 100) (1 / 10) 0) 48000 0).2.variance = 0 ∧
      survive_update_position_component_rnd binary64_round (1 / 2) 1 (3 / 4) = 3 / 4 ∧
      |survive_update_position_component_rnd binary64_round double_7_tenths 1 double_1_tenth -
          double_1_tenth| ≤
        2 ^ (-52 : ℤ) * (|double_1_tenth| + |double_1_tenth - double_7_tenths|) +
          2 ^ (-1073 : ℤ) := by
  have hs : ∀ a, scenario_linmath.quatslerp a (⟨0, 1, 0, 0⟩ : LinmathQuat) 1 = ⟨0, 1, 0, 0⟩ := by
    intro a
    simp [scenario_linmath]
  have hrun : survive_imu_tracker_integrate_observation scenario_linmath 48000
      { first_observed rest_pose (1 / 100, 1 / 100) 0 with use_obs_velocity := 0 }
      ⟨⟨1, 2, 3⟩, ⟨0, 1, 0, 0⟩⟩ (0, 0) =
      some { first_observed ⟨⟨1, 2, 3⟩, ⟨0, 1, 0, 0⟩⟩ (0, 0) 48000 with
        use_obs_velocity := 0 } := by
    norm_num [survive_imu_tracker_integrate_observation, survive_imu_tracker_predict,
      survive_imu_tracker_predict_pos, survive_imu_tracker_predict_rot, survive_update_pose,
      survive_update_rotation, update_pose_pos, update_pose_rot, quatiszero, zeroquat,
      linmath_min, scale3d, add3d, norm3d_sq, survive_update_position, position_ref.update_fn,
      position_ref.get, position_ref.set, survive_imu_tracker_predict_velocity_pos,
      survive_imu_tracker_predict_velocity_rot, survive_update_kalman_variance,
      time_diff_seconds, survive_timecode_difference, survive_imu_tracker_init, scenario_so,
      default_config, zero3d, scenario_linmath, first_observed, rest_pose]
  have h34 : binary64_round (3 / 4) = 3 / 4 := by
    rw [binary64_round_eq_pos _ (-1) 6755399441055744 (by norm_num) (by norm_num) (by norm_num)
      (by norm_num [abs_lt])]
    norm_num
  have h14 : binary64_round (3 / 4 - 1 / 2) = 3 / 4 - 1 / 2 := by
    rw [binary64_round_eq_pos _ (-2) 4503599627370496 (by norm_num) (by norm_num) (by norm_num)
      (by norm_num [abs_lt])]
    norm_num
  have hthm := observation_dominance scenario_linmath 48000 _ _ ⟨⟨1, 2, 3⟩, ⟨0, 1, 0, 0⟩⟩ hs hrun
  have hb := hthm.2.1 binary64_round binary64_rounding_laws
  exact ⟨hs, hrun, hthm.1.1, hthm.1.2,
    (hb.1 (survive_imu_tracker_init scenario_so) (kalman_info_t.mk (1 / 100) (1 / 10) 0) 48000).1,
    (hb.1 (survive_imu_tracker_init scenario_so) (kalman_info_t.mk (1 / 100) (1 / 10) 0) 48000).2,
    hb.2.2 (1 / 2) (3 / 4) h34 h14, hthm.2.2 double_7_tenths double_1_tenth⟩

/-- C3 as stated fails, in two ways. A first observation with `R = (0, 0)` at
distance `1000` from the origin is stored; on the tracker it leaves, the next
observation with `R = (0, 0)` is aborted by `assert(norm3d(out) < 1000)` in
the predictor, so that no pose is stored. And in binary64 the blend of line 96
at weight `1` does not return the observation: over the predicted component
`0.7` (the double `double_7_tenths`) the observed component `0.1` (the double
`double_1_tenth`) is stored as `0.7 + 1.0 * (0.1 - 0.7)`, the double
`900719925474099 / 2^53 = 0.09999999999999998`, one unit in the last place
below the observation. -/
theorem observation_dominance_counterexample :
    (survive_imu_tracker_integrate_observation scenario_linmath 0
        (survive_imu_tracker_init scenario_so) far_pose (0, 0) =
        some (first_observed far_pose (0, 0) 0) ∧
      survive_imu_tracker_integrate_observation scenario_linmath 48000
        (first_observed far_pose (0, 0) 0) rest_pose (0, 0) = none) ∧
      binary64_round double_7_tenths = double_7_tenths ∧
      binary64_round double_1_tenth = double_1_tenth ∧
      (survive_update_kalman_variance_rnd binary64_round (survive_imu_tracker_init scenario_so)
        (kalman_info_t.mk (1 / 100) (1 / 10) 0) 48000 0).1 = 1 ∧
      binary64_round (double_1_tenth - double_7_tenths) =
        -(5404319552844595 / 9007199254740992) ∧
      survive_update_position_component_rnd binary64_round double_7_tenths 1 double_1_tenth =
        900719925474099 / 9007199254740992 ∧
      survive_update_position_component_rnd binary64_round double_7_tenths 1 double_1_tenth ≠
        double_1_tenth := by
  have hd : binary64_round (double_1_tenth - double_7_tenths) =
      -(5404319552844595 / 9007199254740992) := by
    rw [binary64_round_eq_neg _ (-1) 5404319552844595 (by norm_num)
      (by norm_num [double_1_tenth, double_7_tenths])
      (by norm_num [double_1_tenth, double_7_tenths])
      (by norm_num [double_1_tenth, double_7_tenths, abs_lt])]
    norm_num
  have hs : survive_update_position_component_rnd binary64_round double_7_tenths 1
      double_1_tenth = 900719925474099 / 9007199254740992 := by
    rw [position_component_rnd_weight_one binary64_rounding_laws, hd,
      binary64_round_eq_pos _ (-4) 7205759403792792 (by norm_num)
        (by norm_num [double_7_tenths]) (by norm_num [double_7_tenths])
        (by norm_num [double_7_tenths, abs_lt])]
    norm_num
  refine ⟨⟨first_observed_eq scenario_linmath far_pose (0, 0) 0 (by norm_num), ?_⟩, ?_, ?_,
    (kalman_variance_rnd_zero_measurement binary64_rounding_laws _ _ _).1, hd, hs, ?_⟩
  · norm_num [survive_imu_tracker_integrate_observation, survive_imu_tracker_predict,
      survive_imu_tracker_predict_pos, survive_imu_tracker_predict_velocity_pos, linmath_min,
      scale3d, add3d, norm3d_sq, time_diff_seconds, survive_timecode_difference,
      survive_imu_tracker_init, scenario_so, default_config, zero3d, first_observed, far_pose]
  · rw [binary64_round_eq_pos _ (-1) 6305039478318694 (by norm_num)
      (by norm_num [double_7_tenths]) (by norm_num [double_7_tenths])
      (by norm_num [double_7_tenths, abs_lt])]
    norm_num [double_7_tenths]
  · rw [binary64_round_eq_pos _ (-4) 7205759403792794 (by norm_num)
      (by norm_num [double_1_tenth]) (by norm_num [double_1_tenth])
      (by norm_num [double_1_tenth, abs_lt])]
    norm_num [double_1_tenth]
  · rw [hs]
    norm_num [double_1_tenth]

/-! ## C4: the bounds of the posterior variance -/

/-- C4 (as amended): from a non-negative stored variance, with non-negative
rate, elapsed time and measurement variance, the variance left by
`survive_update_kalman_variance` is non-negative and at most `v_prior`, the
time-decayed stored variance as line 79 computes it, under every rounding with
the laws of `rounding_laws` (binary64 and exact arithmetic among them); in
exact arithmetic it is also at most the measurement variance `R`, so at most
`min(v_prior, R)`. In binary64 the bound by `R` can fail by rounding. -/
theorem kalman_posterior_variance_bounds (rnd : FLT → FLT) (tracker : SurviveIMUTracker)
    (info : kalman_info_t) (timecode : ℕ) (new_variance : FLT)
    (hrnd : rounding_laws rnd)
    (hvar : 0 ≤ info.variance)
    (hrate : 0 ≤ info.variance_per_second)
    (hdt : 0 ≤ time_diff_seconds tracker.so timecode info.last_update)
    (hR : 0 ≤ new_variance) :
    (0 ≤ (survive_update_kalman_variance_rnd rnd tracker info timecode new_variance).2.variance ∧
      (survive_update_kalman_variance_rnd rnd tracker info timecode new_variance).2.variance ≤
        rnd (info.variance + rnd (info.variance_per_second *
          rnd (time_diff_seconds tracker.so timecode info.last_update)))) ∧
      (0 ≤ (survive_update_kalman_variance tracker info timecode new_variance).2.variance ∧
        (survive_update_kalman_variance tracker info timecode new_variance).2.variance ≤
          min (info.variance +
                info.variance_per_second * time_diff_seconds tracker.so timecode info.last_update)
              new_variance) := by
  refine ⟨kalman_variance_rnd_bounds hrnd tracker info timecode new_variance hvar hrate hdt hR, ?_⟩
  unfold survive_update_kalman_variance
  have hs : ¬ info.variance < 0 := not_lt.mpr hvar
  have hv : 0 ≤ info.variance +
      info.variance_per_second * time_diff_seconds tracker.so timecode info.last_update :=
    add_nonneg hvar (mul_nonneg hrate hdt)
  obtain ⟨h0, h1, h2⟩ := blend_variance_bounds _ new_variance hv hR
  simp only [hs, if_false]
  exact ⟨h0, le_min h1 h2⟩

/-- An instance of C4 (as amended), in binary64: a signal of variance `1/2` and
rate `1/2`, one second after its last update, a measurement of variance
`1.2e-16` (the double `double_12e_17`). -/
theorem kalman_posterior_variance_bounds_witness :
    rounding_laws binary64_round ∧
      (0 : FLT) ≤ (kalman_info_t.mk (1 / 2) (1 / 2) 0).variance ∧
      (0 : FLT) ≤ (kalman_info_t.mk (1 / 2) (1 / 2) 0).variance_per_second ∧
      0 ≤ time_diff_seconds (survive_imu_tracker_init scenario_so).so 48000000
        (kalman_info_t.mk (1 / 2) (1 / 2) 0).last_update ∧
      (0 : FLT) ≤ double_12e_17 ∧
      (0 ≤ (survive_update_kalman_variance_rnd binary64_round
          (survive_imu_tracker_init scenario_so) (kalman_info_t.mk (1 / 2) (1 / 2) 0) 48000000
          double_12e_17).2.variance ∧
        (survive_update_kalman_variance_rnd binary64_round
          (survive_imu_tracker_init scenario_so) (kalman_info_t.mk (1 / 2) (1 / 2) 0) 48000000
          double_12e_17).2.variance ≤
          binary64_round ((kalman_info_t.mk (1 / 2) (1 / 2) 0).variance +
            binary64_round ((kalman_info_t.mk (1 / 2) (1 / 2) 0).variance_per_second *
              binary64_round (time_diff_seconds (survive_imu_tracker_init scenario_so).so
                48000000 (kalman_info_t.mk (1 / 2) (1 / 2) 0).last_update)))) ∧
      (0 ≤ (survive_update_kalman_variance (survive_imu_tracker_init scenario_so)
          (kalman_info_t.mk (1 / 2) (1 / 2) 0) 48000000 double_12e_17).2.variance ∧
        (survive_update_kalman_variance (survive_imu_tracker_init scenario_so)
          (kalman_info_t.mk (1 / 2) (1 / 2) 0) 48000000 double_12e_17).2.variance ≤
          min ((kalman_info_t.mk (1 / 2) (1 / 2) 0).variance +
                (kalman_info_t.mk (1 / 2) (1 / 2) 0).variance_per_second *
                  time_diff_seconds (survive_imu_tracker_init scenario_so).so 48000000
                    (kalman_info_t.mk (1 / 2) (1 / 2) 0).last_update)
              double_12e_17) :=
  ⟨binary64_rounding_laws, by norm_num, by norm_num,
   by norm_num [time_diff_seconds, survive_timecode_difference, scenario_so,
     survive_imu_tracker_init],
   by norm_num [double_12e_17],
   kalman_posterior_variance_bounds binary64_round (survive_imu_tracker_init scenario_so)
     (kalman_info_t.mk (1 / 2) (1 / 2) 0) 48000000 double_12e_17 binary64_rounding_laws
     (by norm_num) (by norm_num)
     (by norm_num [time_diff_seconds, survive_timecode_difference, scenario_so,
       survive_imu_tracker_init])
     (by norm_num [double_12e_17])⟩

/-- C4 as stated fails in binary64: a signal of variance `1/2` and rate `1/2`,
one second after its last update (`v_prior = 1`), receives a measurement of
variance `R = 1.2e-16` (the double `double_12e_17`). Lines 79-84 compute
`combined_variance = 1 + 2^-52`, `incoming_weight = 1 - 2^-52` and leave the
variance `(1 - incoming_weight) * 1 = 2^-52 = 2.22e-16`, which exceeds `R`. -/
theorem kalman_posterior_variance_counterexample :
    binary64_round double_12e_17 = double_12e_17 ∧
      (0 : FLT) ≤ (kalman_info_t.mk (1 / 2) (1 / 2) 0).variance ∧
      (0 : FLT) ≤ (kalman_info_t.mk (1 / 2) (1 / 2) 0).variance_per_second ∧
      0 ≤ time_diff_seconds (survive_imu_tracker_init scenario_so).so 48000000
        (kalman_info_t.mk (1 / 2) (1 / 2) 0).last_update ∧
      0 ≤ double_12e_17 ∧
      survive_update_kalman_variance_rnd binary64_round (survive_imu_tracker_init scenario_so)
          (kalman_info_t.mk (1 / 2) (1 / 2) 0) 48000000 double_12e_17 =
        (4503599627370495 / 4503599627370496,
          kalman_info_t.mk (1 / 4503599627370496) (1 / 2) 48000000) ∧
      ¬ ((survive_update_kalman_variance_rnd binary64_round (survive_imu_tracker_init scenario_so)
          (kalman_info_t.mk (1 / 2) (1 / 2) 0) 48000000 double_12e_17).2.variance ≤
        min ((kalman_info_t.mk (1 / 2) (1 / 2) 0).variance +
              (kalman_info_t.mk (1 / 2) (1 / 2) 0).variance_per_second *
                time_diff_seconds (survive_imu_tracker_init scenario_so).so 48000000
                  (kalman_info_t.mk (1 / 2) (1 / 2) 0).last_update)
            double_12e_17) := by
  have htd : time_diff_seconds (survive_imu_tracker_init scenario_so).so 48000000
      (kalman_info_t.mk (1 / 2) (1 / 2) 0).last_update = 1 := by
    norm_num [time_diff_seconds, survive_timecode_difference, scenario_so,
      survive_imu_tracker_init]
  have hrun : survive_update_kalman_variance_rnd binary64_round
      (survive_imu_tracker_init scenario_so) (kalman_info_t.mk (1 / 2) (1 / 2) 0) 48000000
      double_12e_17 =
      (4503599627370495 / 4503599627370496,
        kalman_info_t.mk (1 / 4503599627370496) (1 / 2) 48000000) :=
    kalman_variance_rnd_trace binary64_round (survive_imu_tracker_init scenario_so)
      (kalman_info_t.mk (1 / 2) (1 / 2) 0) 48000000 double_12e_17
      1 (1 / 2) 1 (4503599627370497 / 4503599627370496)
      (4503599627370495 / 4503599627370496) (1 / 4503599627370496) (1 / 4503599627370496)
      (by norm_num)
      (by rw [htd, binary64_round_one])
      (by
        rw [binary64_round_eq_pos _ (-1) 4503599627370496 (by norm_num) (by norm_num)
          (by norm_num) (by norm_num [abs_lt])]
        norm_num)
      (by
        rw [binary64_round_eq_pos _ 0 4503599627370496 (by norm_num) (by norm_num)
          (by norm_num) (by norm_num [abs_lt])]
        norm_num)
      (by
        rw [binary64_round_eq_pos _ 0 4503599627370497 (by norm_num [double_12e_17])
          (by norm_num [double_12e_17]) (by norm_num [double_12e_17])
          (by norm_num [double_12e_17, abs_lt])]
        norm_num)
      (by norm_num)
      (by
        rw [binary64_round_eq_pos _ (-1) 9007199254740990 (by norm_num) (by norm_num)
          (by norm_num) (by norm_num [abs_lt])]
        norm_num)
      (by
        rw [binary64_round_eq_pos _ (-52) 4503599627370496 (by norm_num) (by norm_num)
          (by norm_num) (by norm_num [abs_lt])]
        norm_num)
      (by
        rw [binary64_round_eq_pos _ (-52) 4503599627370496 (by norm_num) (by norm_num)
          (by norm_num) (by norm_num [abs_lt])]
        norm_num)
  refine ⟨?_, by norm_num, by norm_num, by rw [htd]; norm_num, by norm_num [double_12e_17],
    hrun, ?_⟩
  · rw [binary64_round_eq_pos _ (-53) 4867778304876401 (by norm_num [double_12e_17])
      (by norm_num [double_12e_17]) (by norm_num [double_12e_17])
      (by norm_num [double_12e_17, abs_lt])]
    norm_num [double_12e_17]
  · rw [hrun, htd]
    norm_num [double_12e_17]

/-! ## C5: cold start -/

/-- C5 (as amended): from a freshly initialised tracker, one pose observation
`(pose, R)` whose position lies within `1000` of the origin, at a timecode
below `2^31 - 1`, is stored exactly (`pose.Pos.v = pose.Pos`,
`pose.Rot.v = pose.Rot`, variances `R[0]` and `R[1]`), and a following
`survive_imu_tracker_update` at the same timecode returns exactly that pose and
leaves both variances equal to `R`, `survive_apply_ang_velocity` leaving a
quaternion unchanged over zero elapsed time. -/
theorem cold_start (L : Linmath) (so : SurviveObject) (timecode : ℕ) (pose : SurvivePose)
    (R : FLT × FLT)
    (htc : timecode < 2147483647)
    (hnorm : norm3d_sq pose.Pos < 1000 * 1000)
    (happly : L.survive_apply_ang_velocity zero3d 0 pose.Rot = pose.Rot) :
    ∃ t1, survive_imu_tracker_integrate_observation L timecode (survive_imu_tracker_init so)
          pose R = some t1 ∧
      t1.pose.Pos.v = pose.Pos ∧ t1.pose.Rot.v = pose.Rot ∧
      t1.pose.Pos.info.variance = R.1 ∧ t1.pose.Rot.info.variance = R.2 ∧
      ∃ t2, survive_imu_tracker_update L t1 timecode = some (t2, pose) ∧
        t2.pose.Pos.info.variance = R.1 ∧ t2.pose.Rot.info.variance = R.2 := by
  have hd : survive_timecode_difference timecode 0 < 2147483647 := by
    rw [survive_timecode_difference_of_le (Nat.zero_le _) (by omega)]
    omega
  have h1 := cold_observation L (survive_imu_tracker_init so) timecode pose R
    (by norm_num [survive_imu_tracker_init]) rfl rfl hd
  refine ⟨_, h1, rfl, rfl, rfl, rfl, ?_⟩
  exact ⟨_, update_at_last_update L _ timecode rfl rfl hnorm happly, rfl, rfl⟩

/-- Scenario S1, an instance of C5 (as amended): `t = 0`, the rest pose,
`R = (0.01, 0.01)`. -/
theorem cold_start_witness :
    (0 : ℕ) < 2147483647 ∧
      norm3d_sq rest_pose.Pos < 1000 * 1000 ∧
      scenario_linmath.survive_apply_ang_velocity zero3d 0 rest_pose.Rot = rest_pose.Rot ∧
      ∃ t1, survive_imu_tracker_integrate_observation scenario_linmath 0
            (survive_imu_tracker_init scenario_so) rest_pose (1 / 100, 1 / 100) = some t1 ∧
        t1.pose.Pos.v = rest_pose.Pos ∧ t1.pose.Rot.v = rest_pose.Rot ∧
        t1.pose.Pos.info.variance = ((1 / 100, 1 / 100) : FLT × FLT).1 ∧
        t1.pose.Rot.info.variance = ((1 / 100, 1 / 100) : FLT × FLT).2 ∧
        ∃ t2, survive_imu_tracker_update scenario_linmath t1 0 = some (t2, rest_pose) ∧
          t2.pose.Pos.info.variance = ((1 / 100, 1 / 100) : FLT × FLT).1 ∧
          t2.pose.Rot.info.variance = ((1 / 100, 1 / 100) : FLT × FLT).2 :=
  ⟨by norm_num, by norm_num [norm3d_sq, rest_pose],
   by simp [scenario_linmath, zero3d, rest_pose],
   cold_start scenario_linmath scenario_so 0 rest_pose (1 / 100, 1 / 100) (by norm_num)
     (by norm_num [norm3d_sq, rest_pose]) (by simp [scenario_linmath, zero3d, rest_pose])⟩

/-- C5 as stated fails: the observation `((1000, 0, 0); identity)` with
`R = (0.01, 0.01)` at `t = 0` is stored by the freshly initialised tracker,
and the following `survive_imu_tracker_update` at `t = 0` is aborted by
`assert(norm3d(out) < 1000)`: it returns no pose. -/
theorem cold_start_far_pose_counterexample :
    (0 : FLT) ≤ 1 / 100 ∧
      survive_imu_tracker_integrate_observation scenario_linmath 0
        (survive_imu_tracker_init scenario_so) far_pose (1 / 100, 1 / 100) =
        some (first_observed far_pose (1 / 100, 1 / 100) 0) ∧
      survive_imu_tracker_update scenario_linmath
        (first_observed far_pose (1 / 100, 1 / 100) 0) 0 = none := by
  refine ⟨by norm_num,
    first_observed_eq scenario_linmath far_pose (1 / 100, 1 / 100) 0 (by norm_num), ?_⟩
  norm_num [survive_imu_tracker_update, update_pose_pos, survive_imu_tracker_predict_pos,
    survive_imu_tracker_predict_velocity_pos, linmath_min, scale3d, add3d, norm3d_sq,
    time_diff_seconds, survive_timecode_difference, survive_imu_tracker_init, scenario_so,
    default_config, zero3d, first_observed, far_pose]

/-! ## C6: the uninitialised signal is a sentinel, not a failure -/

/-- C6: on a tracker whose pose signals are as `survive_imu_tracker_init` left
them (no observation since init), for every timecode
`survive_imu_tracker_predict_pos` and `survive_imu_tracker_predict_rot` return
the negative sentinel variance `-1` without aborting and without writing their
out-parameter, and `survive_imu_tracker_predict` completes. -/
theorem uninitialised_predict_sentinel (L : Linmath) (so : SurviveObject)
    (tracker : SurviveIMUTracker) (timecode : ℕ) (outp : LinmathVec3d) (outq : LinmathQuat)
    (out : SurvivePose)
    (hpose : tracker.pose = (survive_imu_tracker_init so).pose) :
    survive_imu_tracker_predict_pos tracker timecode outp = some (-1, outp) ∧
      survive_imu_tracker_predict_rot L tracker timecode outq = (-1, outq) ∧
      (survive_imu_tracker_predict L tracker timecode out).isSome = true := by
  have hvar : tracker.pose.Pos.info.variance = -1 := by rw [hpose]; rfl
  have hrvar : tracker.pose.Rot.info.variance = -1 := by rw [hpose]; rfl
  have hzero : quatiszero tracker.pose.Rot.v = true := by rw [hpose]; rfl
  have h1 : ∀ o, survive_imu_tracker_predict_pos tracker timecode o = some (-1, o) := by
    intro o
    simp [survive_imu_tracker_predict_pos, hvar]
  have h2 : survive_imu_tracker_predict_rot L tracker timecode outq = (-1, outq) := by
    simp [survive_imu_tracker_predict_rot, hzero, hrvar]
  refine ⟨h1 outp, h2, ?_⟩
  unfold survive_imu_tracker_predict
  split
  · rfl
  · rw [h1]
    rfl

/-- An instance of C6: the freshly initialised scenario tracker after an IMU
sample was cached, queried at `t = 48000000`. -/
theorem uninitialised_predict_sentinel_witness :
    ({ survive_imu_tracker_init scenario_so with
        last_data := ⟨1, ⟨0, 0, 1⟩, ⟨0, 0, 0⟩, 48000⟩ } : SurviveIMUTracker).pose =
        (survive_imu_tracker_init scenario_so).pose ∧
      survive_imu_tracker_predict_pos
        { survive_imu_tracker_init scenario_so with
          last_data := ⟨1, ⟨0, 0, 1⟩, ⟨0, 0, 0⟩, 48000⟩ } 48000000 ⟨7, 7, 7⟩ =
        some (-1, ⟨7, 7, 7⟩) ∧
      survive_imu_tracker_predict_rot scenario_linmath
        { survive_imu_tracker_init scenario_so with
          last_data := ⟨1, ⟨0, 0, 1⟩, ⟨0, 0, 0⟩, 48000⟩ } 48000000 ⟨7, 7, 7, 7⟩ =
        (-1, ⟨7, 7, 7, 7⟩) ∧
      (survive_imu_tracker_predict scenario_linmath
        { survive_imu_tracker_init scenario_so with
          last_data := ⟨1, ⟨0, 0, 1⟩, ⟨0, 0, 0⟩, 48000⟩ } 48000000
        ⟨⟨7, 7, 7⟩, ⟨7, 7, 7, 7⟩⟩).isSome = true :=
  ⟨rfl, uninitialised_predict_sentinel scenario_linmath scenario_so
    { survive_imu_tracker_init scenario_so with
      last_data := ⟨1, ⟨0, 0, 1⟩, ⟨0, 0, 0⟩, 48000⟩ } 48000000 ⟨7, 7, 7⟩ ⟨7, 7, 7, 7⟩
    ⟨⟨7, 7, 7⟩, ⟨7, 7, 7, 7⟩⟩ rfl⟩

/-! ## C7: rotation bootstrap -/

/-- C7: whenever the stored rotation quaternion is the all-zero sentinel,
`survive_imu_tracker_integrate_rotation` (through `survive_update_rotation`)
completes, for every measurement and variance, with the unconditional copy
`value := new_rot`, `variance := new_variance`, `last_update := timecode` and
nothing else changed: neither the predictor nor the blend takes part. -/
theorem rotation_bootstrap_copy (L : Linmath) (tracker : SurviveIMUTracker) (timecode : ℕ)
    (Rot : LinmathQuat) (R : FLT) (hzero : quatiszero tracker.pose.Rot.v = true) :
    survive_imu_tracker_integrate_rotation L tracker timecode Rot R =
      some { tracker with
        pose := { tracker.pose with
          Rot := { v := Rot,
                   info := { tracker.pose.Rot.info with
                     variance := R, last_update := timecode } } } } := by
  simp [survive_imu_tracker_integrate_rotation, survive_update_rotation, hzero]

/-- An instance of C7: the freshly initialised scenario tracker receives the
rotation `(0, 1, 0, 0)` with variance `1/100` at `t = 48000`. -/
theorem rotation_bootstrap_copy_witness :
    quatiszero (survive_imu_tracker_init scenario_so).pose.Rot.v = true ∧
      survive_imu_tracker_integrate_rotation scenario_linmath
          (survive_imu_tracker_init scenario_so) 48000 ⟨0, 1, 0, 0⟩ (1 / 100) =
        some { survive_imu_tracker_init scenario_so with
          pose := { (survive_imu_tracker_init scenario_so).pose with
            Rot := { v := ⟨0, 1, 0, 0⟩,
                     info := { (survive_imu_tracker_init scenario_so).pose.Rot.info with
                       variance := 1 / 100, last_update := 48000 } } } } :=
  ⟨rfl, rotation_bootstrap_copy scenario_linmath (survive_imu_tracker_init scenario_so) 48000
    ⟨0, 1, 0, 0⟩ (1 / 100) rfl⟩

/-! ## C8: position predict -/

/-- C8 (as amended): for every tracker with non-negative position variance and
predicted velocity variance `v_var = velocity.Pos.var + dt_vel *
velocity.Pos.var_per_sec` not above `10`, whose extrapolated position has norm
below `1000` (otherwise `assert(norm3d(out) < 1000)` aborts the call),
`survive_imu_tracker_predict_pos` outputs `pose.Pos + dt_pose * v` and returns
`pose.Pos.var + dt_pose * (v_var^2 + pose.Pos.var_per_sec)`, where `dt_pose` is
the time in seconds since the last pose-position update capped at `0.5`; for a
timecode not before that update this is the clamp to `[0, 0.5]`. -/
theorem predict_pos_extrapolation (tracker : SurviveIMUTracker) (timecode : ℕ)
    (out : LinmathVec3d)
    (hvar : 0 ≤ tracker.pose.Pos.info.variance)
    (hvel : spec_v_prior tracker.so tracker.velocity.Pos.info timecode ≤ 10)
    (hnorm : norm3d_sq (add3d (scale3d tracker.velocity.Pos.v (pose_time_diff tracker timecode))
      tracker.pose.Pos.v) < 1000 * 1000) :
    survive_imu_tracker_predict_pos tracker timecode out =
        some (tracker.pose.Pos.info.variance +
            pose_time_diff tracker timecode *
              (spec_v_prior tracker.so tracker.velocity.Pos.info timecode ^ 2 +
                tracker.pose.Pos.info.variance_per_second),
          add3d (scale3d tracker.velocity.Pos.v (pose_time_diff tracker timecode))
            tracker.pose.Pos.v) ∧
      (0 ≤ time_diff_seconds tracker.so timecode tracker.pose.Pos.info.last_update →
        pose_time_diff tracker timecode =
          spec_clamp (time_diff_seconds tracker.so timecode tracker.pose.Pos.info.last_update)
            0 (1 / 2)) := by
  constructor
  · have hv : ¬ (10 < tracker.velocity.Pos.info.variance +
        time_diff_seconds tracker.so timecode tracker.velocity.Pos.info.last_update *
          tracker.velocity.Pos.info.variance_per_second) := by
      rw [mul_comm]; exact not_lt.mpr hvel
    unfold pose_time_diff at hnorm
    simp only [survive_imu_tracker_predict_pos, not_lt.mpr hvar, if_false,
      survive_imu_tracker_predict_velocity_pos, gt_iff_lt, hv, hnorm, if_true, pose_time_diff,
      spec_v_prior]
    congr 2
    ring
  · intro hdt
    unfold pose_time_diff spec_clamp linmath_min
    split
    · rename_i h
      rw [min_eq_left h.le, max_eq_right (by norm_num)]
    · rename_i h
      rw [min_eq_right (not_lt.mp h), max_eq_right hdt]

/-- An instance of C8 (as amended): a tracker observed at the rest pose at
`t = 0`, predicted a tenth of a second later. -/
theorem predict_pos_extrapolation_witness :
    0 ≤ (first_observed rest_pose (1 / 100, 1 / 100) 0).pose.Pos.info.variance ∧
      spec_v_prior (first_observed rest_pose (1 / 100, 1 / 100) 0).so
        (first_observed rest_pose (1 / 100, 1 / 100) 0).velocity.Pos.info 4800000 ≤ 10 ∧
      norm3d_sq (add3d (scale3d (first_observed rest_pose (1 / 100, 1 / 100) 0).velocity.Pos.v
          (pose_time_diff (first_observed rest_pose (1 / 100, 1 / 100) 0) 4800000))
        (first_observed rest_pose (1 / 100, 1 / 100) 0).pose.Pos.v) < 1000 * 1000 ∧
      0 ≤ time_diff_seconds (first_observed rest_pose (1 / 100, 1 / 100) 0).so 4800000
        (first_observed rest_pose (1 / 100, 1 / 100) 0).pose.Pos.info.last_update ∧
      survive_imu_tracker_predict_pos (first_observed rest_pose (1 / 100, 1 / 100) 0) 4800000
          ⟨7, 7, 7⟩ =
        some ((first_observed rest_pose (1 / 100, 1 / 100) 0).pose.Pos.info.variance +
            pose_time_diff (first_observed rest_pose (1 / 100, 1 / 100) 0) 4800000 *
              (spec_v_prior (first_observed rest_pose (1 / 100, 1 / 100) 0).so
                  (first_observed rest_pose (1 / 100, 1 / 100) 0).velocity.Pos.info 4800000 ^ 2 +
                (first_observed rest_pose (1 / 100, 1 / 100) 0).pose.Pos.info.variance_per_second),
          add3d (scale3d (first_observed rest_pose (1 / 100, 1 / 100) 0).velocity.Pos.v
              (pose_time_diff (first_observed rest_pose (1 / 100, 1 / 100) 0) 4800000))
            (first_observed rest_pose (1 / 100, 1 / 100) 0).pose.Pos.v) ∧
      pose_time_diff (first_observed rest_pose (1 / 100, 1 / 100) 0) 4800000 =
        spec_clamp (time_diff_seconds (first_observed rest_pose (1 / 100, 1 / 100) 0).so 4800000
          (first_observed rest_pose (1 / 100, 1 / 100) 0).pose.Pos.info.last_update) 0 (1 / 2) := by
  have h1 : 0 ≤ (first_observed rest_pose (1 / 100, 1 / 100) 0).pose.Pos.info.variance := by
    norm_num [first_observed]
  have h2 : spec_v_prior (first_observed rest_pose (1 / 100, 1 / 100) 0).so
      (first_observed rest_pose (1 / 100, 1 / 100) 0).velocity.Pos.info 4800000 ≤ 10 := by
    norm_num [spec_v_prior, time_diff_seconds, survive_timecode_difference, first_observed,
      survive_imu_tracker_init, scenario_so, default_config]
  have h3 : norm3d_sq (add3d (scale3d (first_observed rest_pose (1 / 100, 1 / 100) 0).velocity.Pos.v
        (pose_time_diff (first_observed rest_pose (1 / 100, 1 / 100) 0) 4800000))
      (first_observed rest_pose (1 / 100, 1 / 100) 0).pose.Pos.v) < 1000 * 1000 := by
    norm_num [norm3d_sq, add3d, scale3d, first_observed, survive_imu_tracker_init, zero3d,
      rest_pose]
  have h4 : 0 ≤ time_diff_seconds (first_observed rest_pose (1 / 100, 1 / 100) 0).so 4800000
      (first_observed rest_pose (1 / 100, 1 / 100) 0).pose.Pos.info.last_update := by
    norm_num [time_diff_seconds, survive_timecode_difference, first_observed,
      survive_imu_tracker_init, scenario_so]
  exact ⟨h1, h2, h3, h4,
    (predict_pos_extrapolation (first_observed rest_pose (1 / 100, 1 / 100) 0) 4800000 ⟨7, 7, 7⟩
      h1 h2 h3).1,
    (predict_pos_extrapolation (first_observed rest_pose (1 / 100, 1 / 100) 0) 4800000 ⟨7, 7, 7⟩
      h1 h2 h3).2 h4⟩

/-- C8 as stated fails: the tracker left by a first observation at
`(1000, 0, 0)` has position variance `1/100 ≥ 0` and predicted velocity
variance `1/1000 ≤ 10`, and `survive_imu_tracker_predict_pos` at `t = 0` is
aborted by `assert(norm3d(out) < 1000)`: nothing is output or returned. -/
theorem predict_pos_abort_counterexample :
    0 ≤ (first_observed far_pose (1 / 100, 1 / 100) 0).pose.Pos.info.variance ∧
      spec_v_prior (first_observed far_pose (1 / 100, 1 / 100) 0).so
        (first_observed far_pose (1 / 100, 1 / 100) 0).velocity.Pos.info 0 ≤ 10 ∧
      survive_imu_tracker_predict_pos (first_observed far_pose (1 / 100, 1 / 100) 0) 0
        ⟨0, 0, 0⟩ = none := by
  refine ⟨by norm_num [first_observed], ?_, ?_⟩
  · norm_num [spec_v_prior, time_diff_seconds, survive_timecode_difference, first_observed,
      survive_imu_tracker_init, scenario_so, default_config]
  · norm_num [survive_imu_tracker_predict_pos, survive_imu_tracker_predict_velocity_pos,
      linmath_min, scale3d, add3d, norm3d_sq, time_diff_seconds, survive_timecode_difference,
      survive_imu_tracker_init, scenario_so, default_config, zero3d, first_observed, far_pose]

/-! ## C9: divergence fallback -/

/-- C9 (as amended): for every tracker whose stored velocity variance is above
`10` and every timecode, `survive_imu_tracker_predict` outputs the stored
position (and rotation) unchanged; and whenever the position variance is
non-negative and the velocity variance predicted to the timecode is above
`10`, `survive_imu_tracker_predict_pos` returns the stored position with
variance `pose.Pos.var + dt_pose * pose.Pos.var_per_sec`, `dt_pose` being the
time since the last pose-position update capped at `0.5`. -/
theorem divergence_fallback (L : Linmath) (tracker : SurviveIMUTracker) (timecode : ℕ)
    (out : SurvivePose) (outp : LinmathVec3d)
    (hstored : 10 < tracker.velocity.Pos.info.variance) :
    survive_imu_tracker_predict L tracker timecode out =
        some ⟨tracker.pose.Pos.v, tracker.pose.Rot.v⟩ ∧
      (0 ≤ tracker.pose.Pos.info.variance →
        10 < spec_v_prior tracker.so tracker.velocity.Pos.info timecode →
        survive_imu_tracker_predict_pos tracker timecode outp =
          some (tracker.pose.Pos.info.variance +
              pose_time_diff tracker timecode * tracker.pose.Pos.info.variance_per_second,
            tracker.pose.Pos.v)) := by
  constructor
  · simp [survive_imu_tracker_predict, hstored]
  · intro hvar hpred
    have hv : 10 < tracker.velocity.Pos.info.variance +
        time_diff_seconds tracker.so timecode tracker.velocity.Pos.info.last_update *
          tracker.velocity.Pos.info.variance_per_second := by
      rw [mul_comm]; exact hpred
    simp only [survive_imu_tracker_predict_pos, not_lt.mpr hvar, if_false,
      survive_imu_tracker_predict_velocity_pos, gt_iff_lt, hv, if_true, pose_time_diff]

/-- Scenario S6, an instance of C9 (as amended): an observed tracker moving at
`1` along `x` with velocity variance forced to `100`, predicted half a second
later. -/
theorem divergence_fallback_witness :
    10 < diverged_tracker.velocity.Pos.info.variance ∧
      0 ≤ diverged_tracker.pose.Pos.info.variance ∧
      10 < spec_v_prior diverged_tracker.so diverged_tracker.velocity.Pos.info 24000000 ∧
      survive_imu_tracker_predict scenario_linmath diverged_tracker 24000000
          ⟨⟨7, 7, 7⟩, ⟨7, 7, 7, 7⟩⟩ =
        some ⟨diverged_tracker.pose.Pos.v, diverged_tracker.pose.Rot.v⟩ ∧
      survive_imu_tracker_predict_pos diverged_tracker 24000000 ⟨7, 7, 7⟩ =
        some (diverged_tracker.pose.Pos.info.variance +
            pose_time_diff diverged_tracker 24000000 *
              diverged_tracker.pose.Pos.info.variance_per_second,
          diverged_tracker.pose.Pos.v) := by
  have h1 : 10 < diverged_tracker.velocity.Pos.info.variance := by
    norm_num [diverged_tracker]
  have h2 : 0 ≤ diverged_tracker.pose.Pos.info.variance := by
    norm_num [diverged_tracker, first_observed]
  have h3 : 10 < spec_v_prior diverged_tracker.so diverged_tracker.velocity.Pos.info 24000000 := by
    norm_num [spec_v_prior, time_diff_seconds, survive_timecode_difference, diverged_tracker,
      first_observed, survive_imu_tracker_init, scenario_so]
  exact ⟨h1, h2, h3,
    (divergence_fallback scenario_linmath diverged_tracker 24000000 ⟨⟨7, 7, 7⟩, ⟨7, 7, 7, 7⟩⟩
      ⟨7, 7, 7⟩ h1).1,
    (divergence_fallback scenario_linmath diverged_tracker 24000000 ⟨⟨7, 7, 7⟩, ⟨7, 7, 7, 7⟩⟩
      ⟨7, 7, 7⟩ h1).2 h2 h3⟩

/-- C9 as stated fails in its second part. On the freshly initialised tracker
with velocity variance forced to `100`, `survive_imu_tracker_predict_pos` half
a second after init returns the sentinel `-1` and leaves its out-parameter
`(7, 7, 7)` untouched, where the claim has the stored position `(0, 0, 0)`
with variance `-1 + 0.5 * 0.1`. On an observed tracker with stored velocity
variance `100` and a velocity variance-per-second of `-100`, one second after
the update the predicted velocity variance is `0`, and the position
`(1/2, 0, 0)` is extrapolated, not the stored `(0, 0, 0)`. -/
theorem divergence_fallback_counterexample :
    (10 < diverged_cold_tracker.velocity.Pos.info.variance ∧
        survive_imu_tracker_predict_pos diverged_cold_tracker 24000000 ⟨7, 7, 7⟩ =
          some (-1, ⟨7, 7, 7⟩) ∧
        diverged_cold_tracker.pose.Pos.v = ⟨0, 0, 0⟩ ∧
        diverged_cold_tracker.pose.Pos.info.variance +
          pose_time_diff diverged_cold_tracker 24000000 *
            diverged_cold_tracker.pose.Pos.info.variance_per_second = -19 / 20) ∧
      (10 < diverged_neg_rate_tracker.velocity.Pos.info.variance ∧
        Option.map Prod.snd
          (survive_imu_tracker_predict_pos diverged_neg_rate_tracker 48000000 ⟨7, 7, 7⟩) =
          some ⟨1 / 2, 0, 0⟩ ∧
        diverged_neg_rate_tracker.pose.Pos.v = ⟨0, 0, 0⟩) := by
  refine ⟨⟨by norm_num [diverged_cold_tracker], ?_, rfl, ?_⟩,
    ⟨by norm_num [diverged_neg_rate_tracker], ?_, rfl⟩⟩
  · norm_num [survive_imu_tracker_predict_pos, diverged_cold_tracker, survive_imu_tracker_init]
  · norm_num [pose_time_diff, linmath_min, time_diff_seconds, survive_timecode_difference,
      diverged_cold_tracker, survive_imu_tracker_init, scenario_so, default_config]
  · norm_num [survive_imu_tracker_predict_pos, survive_imu_tracker_predict_velocity_pos,
      linmath_min, scale3d, add3d, norm3d_sq, time_diff_seconds, survive_timecode_difference,
      diverged_neg_rate_tracker, first_observed, survive_imu_tracker_init, scenario_so,
      default_config, zero3d, rest_pose]

/-! ## C10: variance monotonicity under no updates -/

/-- C10 (as amended): for every initialised tracker of positive timebase with
non-negative variances and variance-per-second rates, and every pair of
timecodes `t1 < t2` after the last updates (no wrap), the variance returned by
`survive_imu_tracker_predict_pos` and by `survive_imu_tracker_predict_rot` at
`t2` is at least the one returned at `t1`, provided the two predictions fall on
the same side of the divergence threshold (the predicted velocity variance is
still at most `10` at `t2`, or already above `10` at `t1`). -/
theorem predict_variance_monotone (L : Linmath) (tracker : SurviveIMUTracker) (t1 t2 : ℕ)
    (outp1 outp2 : LinmathVec3d) (outq1 outq2 : LinmathQuat) (r1 r2 : FLT × LinmathVec3d)
    (hhz : 0 < tracker.so.timebase_hz)
    (hnn : nonneg_variances tracker)
    (h1 : after_last_updates tracker t1) (h2 : after_last_updates tracker t2) (h12 : t1 < t2)
    (hbP : spec_v_prior tracker.so tracker.velocity.Pos.info t2 ≤ 10 ∨
      10 < spec_v_prior tracker.so tracker.velocity.Pos.info t1)
    (hbR : spec_v_prior tracker.so tracker.velocity.AxisAngleRot.info t2 ≤ 10 ∨
      10 < spec_v_prior tracker.so tracker.velocity.AxisAngleRot.info t1)
    (hp1 : survive_imu_tracker_predict_pos tracker t1 outp1 = some r1)
    (hp2 : survive_imu_tracker_predict_pos tracker t2 outp2 = some r2) :
    r1.1 ≤ r2.1 ∧
      (survive_imu_tracker_predict_rot L tracker t1 outq1).1 ≤
        (survive_imu_tracker_predict_rot L tracker t2 outq2).1 := by
  obtain ⟨⟨hPv, hPr⟩, ⟨-, hRr⟩, ⟨hVv, hVr⟩, ⟨hAv, hAr⟩⟩ := hnn
  obtain ⟨⟨a1, -⟩, ⟨b1, -⟩, ⟨c1, -⟩, ⟨d1, -⟩⟩ := h1
  obtain ⟨⟨-, a2⟩, ⟨-, b2⟩, ⟨-, c2⟩, ⟨-, d2⟩⟩ := h2
  obtain ⟨hP0, hP12⟩ := time_diff_seconds_mono tracker.so hhz a1 h12.le a2
  obtain ⟨hR0, hR12⟩ := time_diff_seconds_mono tracker.so hhz b1 h12.le b2
  obtain ⟨hV0, hV12⟩ := time_diff_seconds_mono tracker.so hhz c1 h12.le c2
  obtain ⟨hA0, hA12⟩ := time_diff_seconds_mono tracker.so hhz d1 h12.le d2
  obtain ⟨hp0, hp12⟩ := linmath_min_mono hP0 hP12
  obtain ⟨hr0, hr12⟩ := linmath_min_mono hR0 hR12
  have hv0 : 0 ≤ spec_v_prior tracker.so tracker.velocity.Pos.info t1 :=
    add_nonneg hVv (mul_nonneg hVr hV0)
  have hv12 : spec_v_prior tracker.so tracker.velocity.Pos.info t1 ≤
      spec_v_prior tracker.so tracker.velocity.Pos.info t2 := by
    unfold spec_v_prior
    have := mul_le_mul_of_nonneg_left hV12 hVr
    linarith
  have ha0 : 0 ≤ spec_v_prior tracker.so tracker.velocity.AxisAngleRot.info t1 :=
    add_nonneg hAv (mul_nonneg hAr hA0)
  have ha12 : spec_v_prior tracker.so tracker.velocity.AxisAngleRot.info t1 ≤
      spec_v_prior tracker.so tracker.velocity.AxisAngleRot.info t2 := by
    unfold spec_v_prior
    have := mul_le_mul_of_nonneg_left hA12 hAr
    linarith
  constructor
  · rw [predict_pos_variance hPv hp1, predict_pos_variance hPv hp2]
    unfold pose_time_diff
    apply add_le_add_left
    rcases hbP with hb | hb
    · rw [if_neg (not_lt.mpr hb), if_neg (not_lt.mpr (hv12.trans hb))]
      apply mul_le_mul hp12 _ _ (hp0.trans hp12)
      · have := mul_le_mul hv12 hv12 hv0 (hv0.trans hv12)
        linarith
      · have := mul_nonneg hv0 hv0
        linarith
    · rw [if_pos hb, if_pos (lt_of_lt_of_le hb hv12)]
      exact mul_le_mul_of_nonneg_right hp12 hPr
  · rw [predict_rot_variance, predict_rot_variance]
    split
    · exact le_refl _
    · unfold rot_time_diff
      apply add_le_add_left
      rcases hbR with hb | hb
      · rw [if_neg (not_lt.mpr hb), if_neg (not_lt.mpr (ha12.trans hb))]
        apply mul_le_mul hr12 _ _ (hr0.trans hr12)
        · linarith
        · linarith
      · rw [if_pos hb, if_pos (lt_of_lt_of_le hb ha12)]
        exact mul_le_mul_of_nonneg_right hr12 hRr

/-- An instance of C10 (as amended): a tracker observed at the rest pose 9.5 s
after init, predicted 9.6 s and 9.7 s after init, both below the threshold. -/
theorem predict_variance_monotone_witness :
    0 < (first_observed rest_pose (1 / 100, 1 / 100) 456000000).so.timebase_hz ∧
      nonneg_variances (first_observed rest_pose (1 / 100, 1 / 100) 456000000) ∧
      after_last_updates (first_observed rest_pose (1 / 100, 1 / 100) 456000000) 460800000 ∧
      after_last_updates (first_observed rest_pose (1 / 100, 1 / 100) 456000000) 465600000 ∧
      460800000 < 465600000 ∧
      (spec_v_prior (first_observed rest_pose (1 / 100, 1 / 100) 456000000).so
          (first_observed rest_pose (1 / 100, 1 / 100) 456000000).velocity.Pos.info
          465600000 ≤ 10 ∨
        10 < spec_v_prior (first_observed rest_pose (1 / 100, 1 / 100) 456000000).so
          (first_observed rest_pose (1 / 100, 1 / 100) 456000000).velocity.Pos.info
          460800000) ∧
      (spec_v_prior (first_observed rest_pose (1 / 100, 1 / 100) 456000000).so
          (first_observed rest_pose (1 / 100, 1 / 100) 456000000).velocity.AxisAngleRot.info
          465600000 ≤ 10 ∨
        10 < spec_v_prior (first_observed rest_pose (1 / 100, 1 / 100) 456000000).so
          (first_observed rest_pose (1 / 100, 1 / 100) 456000000).velocity.AxisAngleRot.info
          460800000) ∧
      survive_imu_tracker_predict_pos (first_observed rest_pose (1 / 100, 1 / 100) 456000000)
        460800000 ⟨7, 7, 7⟩ = some (92379201 / 10000000, ⟨0, 0, 0⟩) ∧
      survive_imu_tracker_predict_pos (first_observed rest_pose (1 / 100, 1 / 100) 456000000)
        465600000 ⟨7, 7, 7⟩ = some (94259401 / 5000000, ⟨0, 0, 0⟩) ∧
      ((92379201 / 10000000, ⟨0, 0, 0⟩) : FLT × LinmathVec3d).1 ≤
        ((94259401 / 5000000, ⟨0, 0, 0⟩) : FLT × LinmathVec3d).1 ∧
      (survive_imu_tracker_predict_rot scenario_linmath
          (first_observed rest_pose (1 / 100, 1 / 100) 456000000) 460800000 ⟨7, 7, 7, 7⟩).1 ≤
        (survive_imu_tracker_predict_rot scenario_linmath
          (first_observed rest_pose (1 / 100, 1 / 100) 456000000) 465600000 ⟨7, 7, 7, 7⟩).1 := by
  have a1 : 0 < (first_observed rest_pose (1 / 100, 1 / 100) 456000000).so.timebase_hz := by
    norm_num [first_observed, survive_imu_tracker_init, scenario_so]
  have a2 : nonneg_variances (first_observed rest_pose (1 / 100, 1 / 100) 456000000) := by
    norm_num [nonneg_variances, first_observed, survive_imu_tracker_init, scenario_so,
      default_config]
  have a3 : after_last_updates (first_observed rest_pose (1 / 100, 1 / 100) 456000000)
      460800000 := by
    norm_num [after_last_updates, first_observed, survive_imu_tracker_init]
  have a4 : after_last_updates (first_observed rest_pose (1 / 100, 1 / 100) 456000000)
      465600000 := by
    norm_num [after_last_updates, first_observed, survive_imu_tracker_init]
  have a5 : spec_v_prior (first_observed rest_pose (1 / 100, 1 / 100) 456000000).so
        (first_observed rest_pose (1 / 100, 1 / 100) 456000000).velocity.Pos.info
        465600000 ≤ 10 ∨
      10 < spec_v_prior (first_observed rest_pose (1 / 100, 1 / 100) 456000000).so
        (first_observed rest_pose (1 / 100, 1 / 100) 456000000).velocity.Pos.info
        460800000 := by
    left
    norm_num [spec_v_prior, time_diff_seconds, survive_timecode_difference, first_observed,
      survive_imu_tracker_init, scenario_so, default_config]
  have a6 : spec_v_prior (first_observed rest_pose (1 / 100, 1 / 100) 456000000).so
        (first_observed rest_pose (1 / 100, 1 / 100) 456000000).velocity.AxisAngleRot.info
        465600000 ≤ 10 ∨
      10 < spec_v_prior (first_observed rest_pose (1 / 100, 1 / 100) 456000000).so
        (first_observed rest_pose (1 / 100, 1 / 100) 456000000).velocity.AxisAngleRot.info
        460800000 := by
    left
    norm_num [spec_v_prior, time_diff_seconds, survive_timecode_difference, first_observed,
      survive_imu_tracker_init, scenario_so, default_config]
  have a7 : survive_imu_tracker_predict_pos
      (first_observed rest_pose (1 / 100, 1 / 100) 456000000) 460800000 ⟨7, 7, 7⟩ =
      some (92379201 / 10000000, ⟨0, 0, 0⟩) := by
    norm_num [survive_imu_tracker_predict_pos, survive_imu_tracker_predict_velocity_pos,
      linmath_min, scale3d, add3d, norm3d_sq, time_diff_seconds, survive_timecode_difference,
      survive_imu_tracker_init, scenario_so, default_config, zero3d, first_observed, rest_pose]
  have a8 : survive_imu_tracker_predict_pos
      (first_observed rest_pose (1 / 100, 1 / 100) 456000000) 465600000 ⟨7, 7, 7⟩ =
      some (94259401 / 5000000, ⟨0, 0, 0⟩) := by
    norm_num [survive_imu_tracker_predict_pos, survive_imu_tracker_predict_velocity_pos,
      linmath_min, scale3d, add3d, norm3d_sq, time_diff_seconds, survive_timecode_difference,
      survive_imu_tracker_init, scenario_so, default_config, zero3d, first_observed, rest_pose]
  exact ⟨a1, a2, a3, a4, by norm_num, a5, a6, a7, a8,
    predict_variance_monotone scenario_linmath
      (first_observed rest_pose (1 / 100, 1 / 100) 456000000) 460800000 465600000
      ⟨7, 7, 7⟩ ⟨7, 7, 7⟩ ⟨7, 7, 7, 7⟩ ⟨7, 7, 7, 7⟩ _ _ a1 a2 a3 a4 (by norm_num) a5 a6 a7 a8⟩

/-- C10 as stated fails, with the default configuration. A tracker observed at
the rest pose 9.5 s after init has non-negative variances and rates; its
position predictor returns the variance `98154801/2500000` (about 39.26) at
9.9 s, where the predicted velocity variance is `9.901`, and `3/50` at 10.1 s,
where it is `10.101` and the fallback branch is taken. Observed 19.5 s after
init, its rotation predictor returns `2519/625` at 19.9 s and `3/50` at
20.1 s. -/
theorem predict_variance_drop_counterexample :
    (survive_imu_tracker_integrate_observation scenario_linmath 456000000
          (survive_imu_tracker_init scenario_so) rest_pose (1 / 100, 1 / 100) =
        some (first_observed rest_pose (1 / 100, 1 / 100) 456000000) ∧
      nonneg_variances (first_observed rest_pose (1 / 100, 1 / 100) 456000000) ∧
      after_last_updates (first_observed rest_pose (1 / 100, 1 / 100) 456000000) 475200000 ∧
      after_last_updates (first_observed rest_pose (1 / 100, 1 / 100) 456000000) 484800000 ∧
      Option.map Prod.fst (survive_imu_tracker_predict_pos
          (first_observed rest_pose (1 / 100, 1 / 100) 456000000) 475200000 ⟨0, 0, 0⟩) =
        some (98154801 / 2500000) ∧
      Option.map Prod.fst (survive_imu_tracker_predict_pos
          (first_observed rest_pose (1 / 100, 1 / 100) 456000000) 484800000 ⟨0, 0, 0⟩) =
        some (3 / 50)) ∧
      (survive_imu_tracker_integrate_observation scenario_linmath 936000000
          (survive_imu_tracker_init scenario_so) rest_pose (1 / 100, 1 / 100) =
        some (first_observed rest_pose (1 / 100, 1 / 100) 936000000) ∧
      nonneg_variances (first_observed rest_pose (1 / 100, 1 / 100) 936000000) ∧
      after_last_updates (first_observed rest_pose (1 / 100, 1 / 100) 936000000) 955200000 ∧
      after_last_updates (first_observed rest_pose (1 / 100, 1 / 100) 936000000) 964800000 ∧
      (survive_imu_tracker_predict_rot scenario_linmath
          (first_observed rest_pose (1 / 100, 1 / 100) 936000000) 955200000 ⟨1, 0, 0, 0⟩).1 =
        2519 / 625 ∧
      (survive_imu_tracker_predict_rot scenario_linmath
          (first_observed rest_pose (1 / 100, 1 / 100) 936000000) 964800000 ⟨1, 0, 0, 0⟩).1 =
        3 / 50) ∧
      (3 / 50 : FLT) < 98154801 / 2500000 ∧ (3 / 50 : FLT) < 2519 / 625 := by
  refine ⟨⟨first_observed_eq scenario_linmath rest_pose (1 / 100, 1 / 100) 456000000
      (by norm_num), ?_, ?_, ?_, ?_, ?_⟩,
    ⟨first_observed_eq scenario_linmath rest_pose (1 / 100, 1 / 100) 936000000
      (by norm_num), ?_, ?_, ?_, ?_, ?_⟩, by norm_num, by norm_num⟩
  · norm_num [nonneg_variances, first_observed, survive_imu_tracker_init, scenario_so,
      default_config]
  · norm_num [after_last_updates, first_observed, survive_imu_tracker_init]
  · norm_num [after_last_updates, first_observed, survive_imu_tracker_init]
  · norm_num [survive_imu_tracker_predict_pos, survive_imu_tracker_predict_velocity_pos,
      linmath_min, scale3d, add3d, norm3d_sq, time_diff_seconds, survive_timecode_difference,
      survive_imu_tracker_init, scenario_so, default_config, zero3d, first_observed, rest_pose]
  · norm_num [survive_imu_tracker_predict_pos, survive_imu_tracker_predict_velocity_pos,
      linmath_min, scale3d, add3d, norm3d_sq, time_diff_seconds, survive_timecode_difference,
      survive_imu_tracker_init, scenario_so, default_config, zero3d, first_observed, rest_pose]
  · norm_num [nonneg_variances, first_observed, survive_imu_tracker_init, scenario_so,
      default_config]
  · norm_num [after_last_updates, first_observed, survive_imu_tracker_init]
  · norm_num [after_last_updates, first_observed, survive_imu_tracker_init]
  · norm_num [survive_imu_tracker_predict_rot, survive_imu_tracker_predict_velocity_rot,
      linmath_min, quatiszero, time_diff_seconds, survive_timecode_difference,
      survive_imu_tracker_init, scenario_so, default_config, zero3d, first_observed, rest_pose]
  · norm_num [survive_imu_tracker_predict_rot, survive_imu_tracker_predict_velocity_rot,
      linmath_min, quatiszero, time_diff_seconds, survive_timecode_difference,
      survive_imu_tracker_init, scenario_so, default_config, zero3d, first_observed, rest_pose]

/-! ## C11: rotation predict -/

/-- What `survive_imu_tracker_predict_rot` computes for a non-zero stored
quaternion: the variance term of the extrapolating branch is the predicted
velocity variance itself, not its square. -/
theorem predict_rot_eq (L : Linmath) (tracker : SurviveIMUTracker) (timecode : ℕ)
    (out : LinmathQuat) (hq : quatiszero tracker.pose.Rot.v = false) :
    survive_imu_tracker_predict_rot L tracker timecode out =
      if 10 < spec_v_prior tracker.so tracker.velocity.AxisAngleRot.info timecode then
        (tracker.pose.Rot.info.variance +
            rot_time_diff tracker timecode * tracker.pose.Rot.info.variance_per_second,
          tracker.pose.Rot.v)
      else
        (tracker.pose.Rot.info.variance +
            rot_time_diff tracker timecode *
              (spec_v_prior tracker.so tracker.velocity.AxisAngleRot.info timecode +
                tracker.pose.Rot.info.variance_per_second),
          L.survive_apply_ang_velocity tracker.velocity.AxisAngleRot.v
            (rot_time_diff tracker timecode) tracker.pose.Rot.v) := by
  have hc : tracker.velocity.AxisAngleRot.info.variance +
        time_diff_seconds tracker.so timecode tracker.velocity.AxisAngleRot.info.last_update *
          tracker.velocity.AxisAngleRot.info.variance_per_second =
      spec_v_prior tracker.so tracker.velocity.AxisAngleRot.info timecode := by
    unfold spec_v_prior; ring
  simp only [survive_imu_tracker_predict_rot, hq, survive_imu_tracker_predict_velocity_rot,
    gt_iff_lt, hc, rot_time_diff]
  simp

/-- C11 (the code at the failing input): with the default configuration, on a
tracker observed at the rest pose 9.5 s after init, the rotation predictor at
9.9 s has a non-zero stored quaternion, `dt_rot = 2/5` and a predicted
angular-velocity variance `v_var = 4951/1000`, not above `10`. It returns the
variance `1269/625 = pose.Rot.var + dt_rot * (v_var + pose.Rot.var_per_sec)`,
where the claimed formula `pose.Rot.var + dt_rot * (v_var^2 +
pose.Rot.var_per_sec)` gives `24637401/2500000`; the position predictor does
square its velocity variance. -/
theorem predict_rot_variance_not_squared :
    quatiszero (first_observed rest_pose (1 / 100, 1 / 100) 456000000).pose.Rot.v = false ∧
      spec_v_prior (first_observed rest_pose (1 / 100, 1 / 100) 456000000).so
        (first_observed rest_pose (1 / 100, 1 / 100) 456000000).velocity.AxisAngleRot.info
        475200000 = 4951 / 1000 ∧
      rot_time_diff (first_observed rest_pose (1 / 100, 1 / 100) 456000000) 475200000 = 2 / 5 ∧
      (survive_imu_tracker_predict_rot scenario_linmath
        (first_observed rest_pose (1 / 100, 1 / 100) 456000000) 475200000 ⟨7, 7, 7, 7⟩).1 =
        1269 / 625 ∧
      (first_observed rest_pose (1 / 100, 1 / 100) 456000000).pose.Rot.info.variance +
        (2 / 5) * ((4951 / 1000) ^ 2 +
          (first_observed rest_pose (1 / 100, 1 / 100) 456000000).pose.Rot.info.variance_per_second)
        = 24637401 / 2500000 ∧
      (first_observed rest_pose (1 / 100, 1 / 100) 456000000).pose.Rot.info.variance +
        (2 / 5) * (4951 / 1000 +
          (first_observed rest_pose (1 / 100, 1 / 100) 456000000).pose.Rot.info.variance_per_second)
        = 1269 / 625 := by
  refine ⟨?_, ?_, ?_, ?_, ?_, ?_⟩
  · simp [quatiszero, first_observed, rest_pose]
  · norm_num [spec_v_prior, time_diff_seconds, survive_timecode_difference, first_observed,
      survive_imu_tracker_init, scenario_so, default_config]
  · norm_num [rot_time_diff, linmath_min, time_diff_seconds, survive_timecode_difference,
      first_observed, survive_imu_tracker_init, scenario_so]
  · norm_num [survive_imu_tracker_predict_rot, survive_imu_tracker_predict_velocity_rot,
      linmath_min, quatiszero, time_diff_seconds, survive_timecode_difference,
      survive_imu_tracker_init, scenario_so, default_config, zero3d, first_observed, rest_pose]
  · norm_num [first_observed]
  · norm_num [first_observed]

/-! ## C12: `survive_imu_tracker_update` -/

theorem predict_rot_pose_Pos (L : Linmath) (tracker : SurviveIMUTracker)
    (s : kalman_info_position_t) (timecode : ℕ) (out : LinmathQuat) :
    survive_imu_tracker_predict_rot L
        { tracker with pose := { tracker.pose with Pos := s } } timecode out =
      survive_imu_tracker_predict_rot L tracker timecode out := by
  simp [survive_imu_tracker_predict_rot, survive_imu_tracker_predict_velocity_rot]

/-- C12 (as amended): whenever the timecode passes the update assertions of the
two pose signals and the position predictor completes,
`survive_imu_tracker_update` completes and brings the two pose signals to the
timecode: `pose.Pos` and `pose.Rot` get `last_update = timecode` and the value
and variance their predictor returns for the timecode; the velocity signals
are unchanged (their `last_update` is not advanced); the returned pose is the
stored pose. -/
theorem update_brings_pose_to_timecode (L : Linmath) (tracker : SurviveIMUTracker)
    (timecode : ℕ) (r : FLT × LinmathVec3d)
    (hP : survive_timecode_difference timecode tracker.pose.Pos.info.last_update < 2147483647)
    (hR : survive_timecode_difference timecode tracker.pose.Rot.info.last_update < 2147483647)
    (hpred : survive_imu_tracker_predict_pos tracker timecode tracker.pose.Pos.v = some r) :
    ∃ t1 p, survive_imu_tracker_update L tracker timecode = some (t1, p) ∧
      t1.pose.Pos.info.last_update = timecode ∧ t1.pose.Rot.info.last_update = timecode ∧
      t1.pose.Pos.info.variance = r.1 ∧ t1.pose.Pos.v = r.2 ∧
      t1.pose.Rot.info.variance =
        (survive_imu_tracker_predict_rot L tracker timecode tracker.pose.Rot.v).1 ∧
      t1.pose.Rot.v =
        (survive_imu_tracker_predict_rot L tracker timecode tracker.pose.Rot.v).2 ∧
      t1.velocity = tracker.velocity ∧
      p = ⟨t1.pose.Pos.v, t1.pose.Rot.v⟩ := by
  have h1 : update_pose_pos tracker timecode = some { tracker with
      pose := { tracker.pose with
        Pos := { v := r.2,
                 info := { tracker.pose.Pos.info with
                   variance := r.1, last_update := timecode } } } } := by
    simp [update_pose_pos, hP, hpred]
  simp only [survive_imu_tracker_update, h1, update_pose_rot, hR, if_true,
    predict_rot_pose_Pos]
  exact ⟨_, _, rfl, rfl, rfl, rfl, rfl, rfl, rfl, rfl, rfl⟩

/-- An instance of C12 (as amended): a tracker observed at the rest pose at
`t = 0`, updated a tenth of a second later. -/
theorem update_brings_pose_to_timecode_witness :
    survive_timecode_difference 4800000
        (first_observed rest_pose (1 / 100, 1 / 100) 0).pose.Pos.info.last_update
        < 2147483647 ∧
      survive_timecode_difference 4800000
        (first_observed rest_pose (1 / 100, 1 / 100) 0).pose.Rot.info.last_update
        < 2147483647 ∧
      survive_imu_tracker_predict_pos (first_observed rest_pose (1 / 100, 1 / 100) 0) 4800000
        (first_observed rest_pose (1 / 100, 1 / 100) 0).pose.Pos.v =
        some (210201 / 10000000, ⟨0, 0, 0⟩) ∧
      ∃ t1 p, survive_imu_tracker_update scenario_linmath
            (first_observed rest_pose (1 / 100, 1 / 100) 0) 4800000 = some (t1, p) ∧
        t1.pose.Pos.info.last_update = 4800000 ∧ t1.pose.Rot.info.last_update = 4800000 ∧
        t1.pose.Pos.info.variance = ((210201 / 10000000, ⟨0, 0, 0⟩) : FLT × LinmathVec3d).1 ∧
        t1.pose.Pos.v = ((210201 / 10000000, ⟨0, 0, 0⟩) : FLT × LinmathVec3d).2 ∧
        t1.pose.Rot.info.variance =
          (survive_imu_tracker_predict_rot scenario_linmath
            (first_observed rest_pose (1 / 100, 1 / 100) 0) 4800000
            (first_observed rest_pose (1 / 100, 1 / 100) 0).pose.Rot.v).1 ∧
        t1.pose.Rot.v =
          (survive_imu_tracker_predict_rot scenario_linmath
            (first_observed rest_pose (1 / 100, 1 / 100) 0) 4800000
            (first_observed rest_pose (1 / 100, 1 / 100) 0).pose.Rot.v).2 ∧
        t1.velocity = (first_observed rest_pose (1 / 100, 1 / 100) 0).velocity ∧
        p = ⟨t1.pose.Pos.v, t1.pose.Rot.v⟩ := by
  have a1 : survive_timecode_difference 4800000
      (first_observed rest_pose (1 / 100, 1 / 100) 0).pose.Pos.info.last_update
      < 2147483647 := by
    norm_num [survive_timecode_difference, first_observed]
  have a2 : survive_timecode_difference 4800000
      (first_observed rest_pose (1 / 100, 1 / 100) 0).pose.Rot.info.last_update
      < 2147483647 := by
    norm_num [survive_timecode_difference, first_observed]
  have a3 : survive_imu_tracker_predict_pos (first_observed rest_pose (1 / 100, 1 / 100) 0)
      4800000 (first_observed rest_pose (1 / 100, 1 / 100) 0).pose.Pos.v =
      some (210201 / 10000000, ⟨0, 0, 0⟩) := by
    norm_num [survive_imu_tracker_predict_pos, survive_imu_tracker_predict_velocity_pos,
      linmath_min, scale3d, add3d, norm3d_sq, time_diff_seconds, survive_timecode_difference,
      survive_imu_tracker_init, scenario_so, default_config, zero3d, first_observed, rest_pose]
  exact ⟨a1, a2, a3, update_brings_pose_to_timecode scenario_linmath
    (first_observed rest_pose (1 / 100, 1 / 100) 0) 4800000 _ a1 a2 a3⟩

/-- C12 as stated fails: on a tracker observed at the rest pose at `t = 0`,
`survive_imu_tracker_update` at `t = 4800000` completes and leaves
`last_update = 0` in both velocity signals. -/
theorem update_leaves_velocity_counterexample :
    Option.map
        (fun r => (r.1.velocity.Pos.info.last_update,
          r.1.velocity.AxisAngleRot.info.last_update,
          r.1.pose.Pos.info.last_update, r.1.pose.Rot.info.last_update))
        (survive_imu_tracker_update scenario_linmath
          (first_observed rest_pose (1 / 100, 1 / 100) 0) 4800000) =
      some (0, 0, 4800000, 4800000) := by
  norm_num [survive_imu_tracker_update, update_pose_pos, update_pose_rot,
    survive_imu_tracker_predict_pos, survive_imu_tracker_predict_velocity_pos,
    survive_imu_tracker_predict_rot, survive_imu_tracker_predict_velocity_rot, quatiszero,
    linmath_min, scale3d, add3d, norm3d_sq, time_diff_seconds, survive_timecode_difference,
    survive_imu_tracker_init, scenario_so, default_config, zero3d, first_observed, rest_pose,
    scenario_linmath]

/-! ## C13: IMU warm-up -/

/-- C13: if `last_data.datamask == 0` or `pose.Pos.variance < 0` or
`pose.Rot.variance < 0`, then for every sample (whatever its timecode gap)
`survive_imu_tracker_integrate_imu` completes and only caches the sample:
`last_data` becomes the sample, every other field of the tracker is
unchanged, and no warning is logged. -/
theorem integrate_imu_warm_up (L : Linmath) (tracker : SurviveIMUTracker) (data : PoserDataIMU)
    (hwarm : tracker.last_data.datamask = 0 ∨ tracker.pose.Pos.info.variance < 0 ∨
      tracker.pose.Rot.info.variance < 0) :
    survive_imu_tracker_integrate_imu L tracker data = some { tracker with last_data := data } ∧
      ({ tracker with last_data := data } : SurviveIMUTracker).so.ctx.warnings =
        tracker.so.ctx.warnings := by
  have h : tracker.last_data.datamask = 0 ∨ tracker.pose.Rot.info.variance < 0 ∨
      tracker.pose.Pos.info.variance < 0 := by
    rcases hwarm with h | h | h
    · exact Or.inl h
    · exact Or.inr (Or.inr h)
    · exact Or.inr (Or.inl h)
  exact ⟨by simp [survive_imu_tracker_integrate_imu, h], rfl⟩

/-- An instance of C13: the freshly initialised scenario tracker receives a
sample 20 s after init. -/
theorem integrate_imu_warm_up_witness :
    ((survive_imu_tracker_init scenario_so).last_data.datamask = 0 ∨
        (survive_imu_tracker_init scenario_so).pose.Pos.info.variance < 0 ∨
        (survive_imu_tracker_init scenario_so).pose.Rot.info.variance < 0) ∧
      survive_imu_tracker_integrate_imu scenario_linmath (survive_imu_tracker_init scenario_so)
          ⟨1, ⟨0, 0, 1⟩, ⟨0, 0, 1⟩, 960000000⟩ =
        some { survive_imu_tracker_init scenario_so with
          last_data := ⟨1, ⟨0, 0, 1⟩, ⟨0, 0, 1⟩, 960000000⟩ } ∧
      ({ survive_imu_tracker_init scenario_so with
          last_data := ⟨1, ⟨0, 0, 1⟩, ⟨0, 0, 1⟩, 960000000⟩ } : SurviveIMUTracker).so.ctx.warnings =
        (survive_imu_tracker_init scenario_so).so.ctx.warnings :=
  ⟨Or.inl rfl, integrate_imu_warm_up scenario_linmath (survive_imu_tracker_init scenario_so)
    ⟨1, ⟨0, 0, 1⟩, ⟨0, 0, 1⟩, 960000000⟩ (Or.inl rfl)⟩

/-! ## C14: IMU time-gap handling -/

theorem integrate_imu_mahony_completes (L : Linmath) (tracker : SurviveIMUTracker)
    (data : PoserDataIMU)
    (hR : tracker.mahony_variance < 0 ∨
      survive_timecode_difference data.timecode tracker.pose.Rot.info.last_update
        < 2147483647) :
    ∃ t1, integrate_imu_mahony L tracker data = some t1 := by
  unfold integrate_imu_mahony
  split
  · rename_i hm
    rcases hR with hR | hR
    · exact absurd hm (not_le.mpr hR)
    · rw [mahony_ahrs_fst]
      simp only [survive_imu_tracker_integrate_rotation, survive_update_rotation,
        update_pose_rot, hR, if_true]
      split <;> exact ⟨_, rfl⟩
  · exact ⟨_, rfl⟩

theorem integrate_imu_velocity_completes (L : Linmath) (tracker : SurviveIMUTracker)
    (data : PoserDataIMU) (new_rot : LinmathVec3d) (Rv : FLT × FLT) (time_diff : FLT)
    (hVP : survive_timecode_difference data.timecode tracker.velocity.Pos.info.last_update
      < 2147483647)
    (hVR : survive_timecode_difference data.timecode
      tracker.velocity.AxisAngleRot.info.last_update < 2147483647) :
    ∃ t3, integrate_imu_velocity L tracker data new_rot Rv time_diff = some t3 := by
  rw [integrate_imu_velocity_eq]
  split
  · exact integrate_velocity_completes _ _ _ _ hVP hVR
  · split
    · exact ⟨_, survive_update_axis_angle_rotation_eq _ _ _ _ hVR⟩
    · exact ⟨_, rfl⟩

theorem integrate_imu_velocity_so {L : Linmath} {tracker t3 : SurviveIMUTracker}
    {data : PoserDataIMU} {new_rot : LinmathVec3d} {Rv : FLT × FLT} {time_diff : FLT}
    (h : integrate_imu_velocity L tracker data new_rot Rv time_diff = some t3) :
    t3.so = tracker.so := by
  rw [integrate_imu_velocity_some h]
  split
  · rfl
  · split <;> rfl

/-- C14 (as amended): for every tracker past warm-up and every sample, with
`dt` the seconds since `last_data.timecode`: the call aborts whenever
`dt >= 10`; a call that completes has `dt < 10` and has logged a warning
exactly when `dt > 1`; and with `dt < 10` the call completes when its other
assertions pass (the timecode assertions of the velocity signals, and of
`pose.Rot` when Mahony is enabled). -/
theorem imu_time_gap_handling (L : Linmath) (tracker : SurviveIMUTracker) (data : PoserDataIMU)
    (hwarm : ¬ (tracker.last_data.datamask = 0 ∨ tracker.pose.Rot.info.variance < 0 ∨
      tracker.pose.Pos.info.variance < 0)) :
    (10 ≤ time_diff_seconds tracker.so data.timecode tracker.last_data.timecode →
        survive_imu_tracker_integrate_imu L tracker data = none) ∧
      (∀ t1, survive_imu_tracker_integrate_imu L tracker data = some t1 →
        time_diff_seconds tracker.so data.timecode tracker.last_data.timecode < 10 ∧
        t1.so.ctx.warnings = tracker.so.ctx.warnings +
          (if 1 < time_diff_seconds tracker.so data.timecode tracker.last_data.timecode
            then 1 else 0)) ∧
      (time_diff_seconds tracker.so data.timecode tracker.last_data.timecode < 10 →
        (tracker.mahony_variance < 0 ∨
          survive_timecode_difference data.timecode tracker.pose.Rot.info.last_update
            < 2147483647) →
        survive_timecode_difference data.timecode tracker.velocity.Pos.info.last_update
          < 2147483647 →
        survive_timecode_difference data.timecode
          tracker.velocity.AxisAngleRot.info.last_update < 2147483647 →
        ∃ t1, survive_imu_tracker_integrate_imu L tracker data = some t1) := by
  have key : ∀ t1, survive_imu_tracker_integrate_imu L tracker data = some t1 →
      time_diff_seconds tracker.so data.timecode tracker.last_data.timecode < 10 ∧
      t1.so.ctx.warnings = tracker.so.ctx.warnings +
        (if 1 < time_diff_seconds tracker.so data.timecode tracker.last_data.timecode
          then 1 else 0) := by
    intro t1 h
    obtain ⟨ta, tb, tc, h1, h2, h3, rfl⟩ := integrate_imu_some hwarm h
    have hf := integrate_imu_mahony_frame h1
    have hso : ta.so = tracker.so := by rw [hf]
    have hld : ta.last_data = tracker.last_data := by rw [hf]
    rw [hso, hld] at h2
    obtain ⟨hlt, rfl⟩ := integrate_imu_time_gap_some h2
    refine ⟨hlt, ?_⟩
    have hso3 := integrate_imu_velocity_so h3
    show tc.so.ctx.warnings = _
    rw [hso3]
    split
    · simp [sv_warn, hso]
    · simp [hso]
  refine ⟨?_, key, ?_⟩
  · intro h10
    cases h : survive_imu_tracker_integrate_imu L tracker data with
    | none => rfl
    | some t1 => exact absurd (key t1 h).1 (not_lt.mpr h10)
  · intro hlt hR hVP hVR
    obtain ⟨ta, h1⟩ := integrate_imu_mahony_completes L tracker data hR
    have hf := integrate_imu_mahony_frame h1
    have hso : ta.so = tracker.so := by rw [hf]
    have hld : ta.last_data = tracker.last_data := by rw [hf]
    have hvel : ta.velocity = tracker.velocity := by rw [hf]
    have h2 : ∃ tb, integrate_imu_time_gap ta
        (time_diff_seconds ta.so data.timecode ta.last_data.timecode) = some tb ∧
        tb.velocity = tracker.velocity := by
      rw [hso, hld]
      unfold integrate_imu_time_gap
      by_cases hgt : time_diff_seconds tracker.so data.timecode tracker.last_data.timecode > 1
      · rw [if_pos hgt, if_pos hlt]
        exact ⟨_, rfl, hvel⟩
      · rw [if_neg hgt]
        exact ⟨_, rfl, hvel⟩
    obtain ⟨tb, h2, hvb⟩ := h2
    obtain ⟨tc, h3⟩ := integrate_imu_velocity_completes L tb data
      (L.quatrotatevector ta.pose.Rot.v data.gyro)
      (ta.pose.Rot.info.variance + ta.velocity.Pos.info.variance + ta.acc_var,
        ta.pose.Rot.info.variance + ta.gyro_var)
      (time_diff_seconds ta.so data.timecode ta.last_data.timecode)
      (by rw [hvb]; exact hVP) (by rw [hvb]; exact hVR)
    refine ⟨{ tc with last_data := data }, ?_⟩
    unfold survive_imu_tracker_integrate_imu
    rw [if_neg hwarm, h1]
    simp only [h2, h3]

/-- Scenario S5, an instance of C14 (as amended): a tracker past warm-up with a
sample cached at `t = 0` receives a sample at `t = 96000000` (2 s later): the
call completes and has logged one warning. -/
theorem imu_time_gap_handling_witness :
    ¬ (warm_tracker.last_data.datamask = 0 ∨ warm_tracker.pose.Rot.info.variance < 0 ∨
        warm_tracker.pose.Pos.info.variance < 0) ∧
      time_diff_seconds warm_tracker.so 96000000 warm_tracker.last_data.timecode = 2 ∧
      ∃ t1, survive_imu_tracker_integrate_imu scenario_linmath warm_tracker
            ⟨1, ⟨0, 0, 1⟩, ⟨0, 0, 0⟩, 96000000⟩ = some t1 ∧
        t1.so.ctx.warnings = warm_tracker.so.ctx.warnings + 1 := by
  have hw : ¬ (warm_tracker.last_data.datamask = 0 ∨ warm_tracker.pose.Rot.info.variance < 0 ∨
      warm_tracker.pose.Pos.info.variance < 0) := by
    norm_num [warm_tracker, first_observed]
  have hdt : time_diff_seconds warm_tracker.so 96000000 warm_tracker.last_data.timecode = 2 := by
    norm_num [time_diff_seconds, survive_timecode_difference, warm_tracker, first_observed,
      survive_imu_tracker_init, scenario_so]
  have hT := imu_time_gap_handling scenario_linmath warm_tracker
    ⟨1, ⟨0, 0, 1⟩, ⟨0, 0, 0⟩, 96000000⟩ hw
  obtain ⟨t1, h1⟩ := hT.2.2 (by rw [hdt]; norm_num)
    (Or.inl (by norm_num [warm_tracker, first_observed, survive_imu_tracker_init, scenario_so,
      default_config]))
    (by norm_num [survive_timecode_difference, warm_tracker, first_observed,
      survive_imu_tracker_init])
    (by norm_num [survive_timecode_difference, warm_tracker, first_observed,
      survive_imu_tracker_init])
  have h2 := (hT.2.1 t1 h1).2
  rw [hdt] at h2
  exact ⟨hw, hdt, t1, h1, by simpa using h2⟩

/-- C14 as stated fails at the boundary: for the same tracker a sample at
`t = 480000000` has `dt = 10`, which is not above `10`, and the call is
aborted by `assert(time_diff < 10)`; one tick earlier the call completes. -/
theorem imu_time_gap_boundary_counterexample :
    time_diff_seconds warm_tracker.so 480000000 warm_tracker.last_data.timecode = 10 ∧
      ¬ ((10 : FLT) < 10) ∧
      survive_imu_tracker_integrate_imu scenario_linmath warm_tracker
        ⟨1, ⟨0, 0, 1⟩, ⟨0, 0, 0⟩, 480000000⟩ = none ∧
      (survive_imu_tracker_integrate_imu scenario_linmath warm_tracker
        ⟨1, ⟨0, 0, 1⟩, ⟨0, 0, 0⟩, 479999999⟩).isSome = true := by
  refine ⟨?_, by norm_num, ?_, ?_⟩
  · norm_num [time_diff_seconds, survive_timecode_difference, warm_tracker, first_observed,
      survive_imu_tracker_init, scenario_so]
  · norm_num [survive_imu_tracker_integrate_imu, integrate_imu_mahony, integrate_imu_time_gap,
      time_diff_seconds, survive_timecode_difference, survive_imu_tracker_init, scenario_so,
      default_config, warm_tracker, first_observed, rest_pose]
  · norm_num [survive_imu_tracker_integrate_imu, integrate_imu_mahony, integrate_imu_time_gap,
      integrate_imu_velocity, integrate_imu_velocity_isinf, RotateAccel, survive_imu_tracker_integrate_velocity,
      survive_update_pose_axis_angle, survive_update_position, position_ref.update_fn,
      position_ref.get, position_ref.set, survive_update_axis_angle_rotation, update_vel_pos,
      update_vel_rot, survive_imu_tracker_predict_velocity_pos,
      survive_imu_tracker_predict_velocity_rot, survive_update_kalman_variance,
      time_diff_seconds, survive_timecode_difference, survive_imu_tracker_init, scenario_so,
      default_config, zero3d, scale3d, add3d, scenario_linmath, warm_tracker, first_observed,
      rest_pose, sv_warn]

/-! ## C15: Mahony disabled -/

/-- With Mahony disabled a completed IMU call changes neither the pose signals
nor `integralFB`, `last_pose` and the tuning fields. -/
theorem integrate_imu_frame_of_mahony_disabled (L : Linmath) (tracker t1 : SurviveIMUTracker)
    (data : PoserDataIMU) (hm : tracker.mahony_variance < 0)
    (h : survive_imu_tracker_integrate_imu L tracker data = some t1) :
    t1.pose = tracker.pose ∧ t1.integralFB = tracker.integralFB ∧
      t1.last_pose = tracker.last_pose ∧ t1.acc_bias = tracker.acc_bias ∧
      t1.acc_var = tracker.acc_var ∧ t1.gyro_var = tracker.gyro_var ∧
      t1.mahony_variance = tracker.mahony_variance ∧
      t1.obs_variance = tracker.obs_variance ∧
      t1.obs_rot_variance = tracker.obs_rot_variance ∧
      t1.use_obs_velocity = tracker.use_obs_velocity := by
  by_cases hwarm : tracker.last_data.datamask = 0 ∨ tracker.pose.Rot.info.variance < 0 ∨
      tracker.pose.Pos.info.variance < 0
  · simp only [survive_imu_tracker_integrate_imu, hwarm, if_true, Option.some.injEq] at h
    subst h
    simp
  · obtain ⟨ta, tb, tc, h1, h2, h3, rfl⟩ := integrate_imu_some hwarm h
    rw [integrate_imu_mahony_disabled L tracker data hm] at h1
    obtain rfl := Option.some.inj h1
    obtain ⟨-, rfl⟩ := integrate_imu_time_gap_some h2
    have h4 := integrate_imu_velocity_some h3
    subst h4
    split <;> split <;> simp [sv_warn] <;> split <;> simp

/-- C15: with `mahony_variance < 0` (the default `-1`), every completed
`survive_imu_tracker_integrate_imu` leaves `pose.Pos` and `pose.Rot` (value,
variance and `last_update`) and `integralFB` unchanged, as well as
`last_pose` and the tuning fields: only the velocity signals, `last_acc` and
`last_data` can change (an aborted call stores nothing). -/
theorem integrate_imu_mahony_disabled_frame (L : Linmath) (tracker t1 : SurviveIMUTracker)
    (data : PoserDataIMU) (hm : tracker.mahony_variance < 0)
    (h : survive_imu_tracker_integrate_imu L tracker data = some t1) :
    t1.pose = tracker.pose ∧ t1.integralFB = tracker.integralFB ∧
      t1.last_pose = tracker.last_pose ∧ t1.acc_bias = tracker.acc_bias ∧
      t1.acc_var = tracker.acc_var ∧ t1.gyro_var = tracker.gyro_var ∧
      t1.mahony_variance = tracker.mahony_variance ∧
      t1.obs_variance = tracker.obs_variance ∧
      t1.obs_rot_variance = tracker.obs_rot_variance ∧
      t1.use_obs_velocity = tracker.use_obs_velocity :=
  integrate_imu_frame_of_mahony_disabled L tracker t1 data hm h

/-- An instance of C15: the default configuration, a tracker past warm-up, a
sample one millisecond after the cached one. -/
theorem integrate_imu_mahony_disabled_frame_witness :
    warm_tracker.mahony_variance < 0 ∧
      ∃ t1, survive_imu_tracker_integrate_imu scenario_linmath warm_tracker
            ⟨1, ⟨0, 0, 1⟩, ⟨0, 0, 1⟩, 48000⟩ = some t1 ∧
        t1.pose = warm_tracker.pose ∧ t1.integralFB = warm_tracker.integralFB ∧
        t1.last_pose = warm_tracker.last_pose ∧ t1.acc_bias = warm_tracker.acc_bias ∧
        t1.acc_var = warm_tracker.acc_var ∧ t1.gyro_var = warm_tracker.gyro_var ∧
        t1.mahony_variance = warm_tracker.mahony_variance ∧
        t1.obs_variance = warm_tracker.obs_variance ∧
        t1.obs_rot_variance = warm_tracker.obs_rot_variance ∧
        t1.use_obs_velocity = warm_tracker.use_obs_velocity := by
  have hm : warm_tracker.mahony_variance < 0 := by
    norm_num [warm_tracker, first_observed, survive_imu_tracker_init, scenario_so,
      default_config]
  have hs : (survive_imu_tracker_integrate_imu scenario_linmath warm_tracker
      ⟨1, ⟨0, 0, 1⟩, ⟨0, 0, 1⟩, 48000⟩).isSome = true := by
    norm_num [survive_imu_tracker_integrate_imu, integrate_imu_mahony, integrate_imu_time_gap,
      integrate_imu_velocity, integrate_imu_velocity_isinf, RotateAccel, survive_imu_tracker_integrate_velocity,
      survive_update_pose_axis_angle, survive_update_position, position_ref.update_fn,
      position_ref.get, position_ref.set, survive_update_axis_angle_rotation, update_vel_pos,
      update_vel_rot, survive_imu_tracker_predict_velocity_pos,
      survive_imu_tracker_predict_velocity_rot, survive_update_kalman_variance,
      time_diff_seconds, survive_timecode_difference, survive_imu_tracker_init, scenario_so,
      default_config, zero3d, scale3d, add3d, scenario_linmath, warm_tracker, first_observed,
      rest_pose]
  obtain ⟨t1, h⟩ := Option.isSome_iff_exists.mp hs
  exact ⟨hm, t1, h, integrate_imu_mahony_disabled_frame scenario_linmath warm_tracker t1 _ hm h⟩

/-! ## C16: scenario S2, pure gyro -/

theorem spec_kalman_update_last_update (so : SurviveObject) (s : kalman_info_position_t)
    (timecode : ℕ) (R : FLT) (m : LinmathVec3d) :
    (spec_kalman_update so s timecode R m).info.last_update = timecode := by
  unfold spec_kalman_update
  split <;> rfl

/-- With Mahony disabled an IMU call completes when the timecode is at or after
the last updates of the velocity signals, less than `2^31 - 1` ticks later,
and the gap to the cached sample is below 10 s.
The sample is cached, and the velocity signals are last updated no later than
the sample. -/
theorem integrate_imu_step_of_mahony_disabled (L : Linmath) (tracker : SurviveIMUTracker)
    (data : PoserDataIMU) (hm : tracker.mahony_variance < 0)
    (hVP : survive_timecode_difference data.timecode tracker.velocity.Pos.info.last_update
      < 2147483647)
    (hVR : survive_timecode_difference data.timecode
      tracker.velocity.AxisAngleRot.info.last_update < 2147483647)
    (hP : tracker.velocity.Pos.info.last_update ≤ data.timecode)
    (hA : tracker.velocity.AxisAngleRot.info.last_update ≤ data.timecode)
    (hgap : time_diff_seconds tracker.so data.timecode tracker.last_data.timecode < 10) :
    ∃ t1, survive_imu_tracker_integrate_imu L tracker data = some t1 ∧
      t1.last_data = data ∧ t1.so.timebase_hz = tracker.so.timebase_hz ∧
      t1.velocity.Pos.info.last_update ≤ data.timecode ∧
      t1.velocity.AxisAngleRot.info.last_update ≤ data.timecode := by
  by_cases hwarm : tracker.last_data.datamask = 0 ∨ tracker.pose.Rot.info.variance < 0 ∨
      tracker.pose.Pos.info.variance < 0
  · exact ⟨{ tracker with last_data := data },
      by simp [survive_imu_tracker_integrate_imu, hwarm], rfl, rfl, hP, hA⟩
  · have h2 : ∃ tb, integrate_imu_time_gap tracker
        (time_diff_seconds tracker.so data.timecode tracker.last_data.timecode) = some tb ∧
        tb.velocity = tracker.velocity ∧ tb.so.timebase_hz = tracker.so.timebase_hz := by
      unfold integrate_imu_time_gap
      by_cases hgt : time_diff_seconds tracker.so data.timecode tracker.last_data.timecode > 1
      · rw [if_pos hgt, if_pos hgap]
        exact ⟨_, rfl, rfl, rfl⟩
      · rw [if_neg hgt]
        exact ⟨_, rfl, rfl, rfl⟩
    obtain ⟨tb, h2, hvb, hsb⟩ := h2
    obtain ⟨tc, h3⟩ := integrate_imu_velocity_completes L tb data
      (L.quatrotatevector tracker.pose.Rot.v data.gyro)
      (tracker.pose.Rot.info.variance + tracker.velocity.Pos.info.variance + tracker.acc_var,
        tracker.pose.Rot.info.variance + tracker.gyro_var)
      (time_diff_seconds tracker.so data.timecode tracker.last_data.timecode)
      (by rw [hvb]; exact hVP) (by rw [hvb]; exact hVR)
    have h4 := integrate_imu_velocity_some h3
    have hso := integrate_imu_velocity_so h3
    refine ⟨{ tc with last_data := data }, ?_, rfl, ?_, ?_, ?_⟩
    · unfold survive_imu_tracker_integrate_imu
      rw [if_neg hwarm, integrate_imu_mahony_disabled L tracker data hm]
      simp only [h2, h3]
    · show tc.so.timebase_hz = _
      rw [hso, hsb]
    · show tc.velocity.Pos.info.last_update ≤ _
      rw [h4]
      split
      · simp [spec_kalman_update_last_update]
      · split
        · simpa [hvb] using hP
        · simpa [hvb] using hP
    · show tc.velocity.AxisAngleRot.info.last_update ≤ _
      rw [h4]
      split
      · simp [spec_kalman_update_last_update]
      · split
        · simp [spec_kalman_update_last_update]
        · simpa [hvb] using hA

/-- The run of scenario S2 on a tracker with Mahony disabled: every call
completes and the pose signals are those of the start. -/
theorem s2_run_of_mahony_disabled (L : Linmath) (gyro accel : LinmathVec3d) :
    ∀ (n k : ℕ) (tracker : SurviveIMUTracker),
      tracker.so.timebase_hz = 48000000 → tracker.mahony_variance < 0 →
      tracker.velocity.Pos.info.last_update ≤ 48000 * k →
      tracker.velocity.AxisAngleRot.info.last_update ≤ 48000 * k →
      tracker.last_data.timecode ≤ 48000 * k →
      48000 * k ≤ tracker.last_data.timecode + 48000 →
      48000 * (k + n) < 2147483647 →
      ∃ t1, integrate_imu_samples L tracker (s2_samples gyro accel k n) = some t1 ∧
        t1.pose = tracker.pose := by
  intro n
  induction n with
  | zero =>
    intro k tracker _ _ _ _ _ _ _
    exact ⟨tracker, rfl, rfl⟩
  | succ n ih =>
    intro k tracker hhz hm hP hA hl1 hl2 hb
    have hd : ∀ lu : ℕ, lu ≤ 48000 * k →
        survive_timecode_difference (48000 * k) lu = ((48000 * k : ℕ) : ℤ) - (lu : ℤ) := by
      intro lu hlu
      exact survive_timecode_difference_of_le hlu (by omega)
    have hgap : time_diff_seconds tracker.so (48000 * k) tracker.last_data.timecode < 10 := by
      unfold time_diff_seconds
      rw [hd _ hl1, hhz]
      have h1 : (((48000 * k : ℕ) : ℤ) - (tracker.last_data.timecode : ℤ)) ≤ 48000 := by omega
      have h2 : ((((48000 * k : ℕ) : ℤ) - (tracker.last_data.timecode : ℤ) : ℤ) : FLT) ≤ 48000 := by
        exact_mod_cast h1
      rw [div_lt_iff₀ (by norm_num)]
      push_cast at h2 ⊢
      linarith
    obtain ⟨t1, h1, hld, hz1, hP1, hA1⟩ := integrate_imu_step_of_mahony_disabled L tracker
      ⟨1, accel, gyro, 48000 * k⟩ hm
      (by show survive_timecode_difference (48000 * k) _ < _; rw [hd _ hP]; omega)
      (by show survive_timecode_difference (48000 * k) _ < _; rw [hd _ hA]; omega)
      hP hA hgap
    obtain ⟨hpose, -, -, -, -, -, hmv, -, -, -⟩ :=
      integrate_imu_frame_of_mahony_disabled L tracker t1 _ hm h1
    obtain ⟨t2, h2, hpose2⟩ := ih (k + 1) t1 (by rw [hz1, hhz]) (by rw [hmv]; exact hm)
      (by simp only at hP1; omega) (by simp only at hA1; omega)
      (by rw [hld]; simp only; omega) (by rw [hld]; simp only; omega) (by omega)
    refine ⟨t2, ?_, by rw [hpose2, hpose]⟩
    simp only [s2_samples, integrate_imu_samples, h1]
    exact h2

/-- C16 (as the code behaves): on a 48 MHz timebase, for a tracker with Mahony
disabled (`mahony_variance < 0`, the default `-1`) whose velocity signals and
cached sample are at timecode `0`, the 1000 calls of scenario S2, 1 ms apart,
all complete for every gyro and accelerometer reading, and the pose signals
afterwards are those of the start: the stored orientation has not rotated. -/
theorem s2_pure_gyro_pose_unchanged (L : Linmath) (gyro accel : LinmathVec3d)
    (tracker : SurviveIMUTracker) (hhz : tracker.so.timebase_hz = 48000000)
    (hm : tracker.mahony_variance < 0)
    (hP : tracker.velocity.Pos.info.last_update = 0)
    (hA : tracker.velocity.AxisAngleRot.info.last_update = 0)
    (hl : tracker.last_data.timecode = 0) :
    ∃ t1, integrate_imu_samples L tracker (s2_samples gyro accel 0 1000) = some t1 ∧
      t1.pose = tracker.pose :=
  s2_run_of_mahony_disabled L gyro accel 1000 0 tracker hhz hm (by omega) (by omega) (by omega)
    (by omega) (by norm_num)

/-- C16 at the scenario: the tracker observed at the rest pose, default
variances, `gyro = (0,0,pi)` and `accel = (0,0,1)`. -/
theorem s2_pure_gyro_pose_unchanged_witness :
    ∃ t1, integrate_imu_samples scenario_linmath (first_observed rest_pose (1 / 100, 1 / 100) 0)
        (s2_samples ⟨0, 0, double_pi⟩ ⟨0, 0, 1⟩ 0 1000) = some t1 ∧
      t1.pose = (first_observed rest_pose (1 / 100, 1 / 100) 0).pose :=
  s2_pure_gyro_pose_unchanged scenario_linmath ⟨0, 0, double_pi⟩ ⟨0, 0, 1⟩
    (first_observed rest_pose (1 / 100, 1 / 100) 0) rfl
    (by norm_num [first_observed, survive_imu_tracker_init, scenario_so, default_config])
    rfl rfl rfl

/-- C16, counterexample to the claimed rotation: in scenario S2 with the default
variances the stored orientation after the 1000 calls is still `(1,0,0,0)`,
which is not within `1e-3` of `(0,0,0,1)` (nor of `(0,0,0,-1)`). -/
theorem s2_pure_gyro_counterexample :
    ∃ t1, integrate_imu_samples scenario_linmath (first_observed rest_pose (1 / 100, 1 / 100) 0)
        (s2_samples ⟨0, 0, double_pi⟩ ⟨0, 0, 1⟩ 0 1000) = some t1 ∧
      t1.pose.Rot.v = ⟨1, 0, 0, 0⟩ ∧
      ¬ quat_within t1.pose.Rot.v ⟨0, 0, 0, 1⟩ (1 / 1000) ∧
      ¬ quat_within t1.pose.Rot.v ⟨0, 0, 0, -1⟩ (1 / 1000) := by
  obtain ⟨t1, h1, hpose⟩ := s2_run_of_mahony_disabled scenario_linmath ⟨0, 0, double_pi⟩
    ⟨0, 0, 1⟩ 1000 0 (first_observed rest_pose (1 / 100, 1 / 100) 0) rfl
    (by norm_num [first_observed, survive_imu_tracker_init, scenario_so, default_config])
    (by simp [first_observed, survive_imu_tracker_init])
    (by simp [first_observed, survive_imu_tracker_init])
    (by simp [first_observed, survive_imu_tracker_init])
    (by simp [first_observed, survive_imu_tracker_init]) (by norm_num)
  have hv : t1.pose.Rot.v = ⟨1, 0, 0, 0⟩ := by
    rw [hpose]
    rfl
  refine ⟨t1, h1, hv, ?_, ?_⟩
  · rw [hv]
    intro h
    have h2 := h.1
    norm_num at h2
  · rw [hv]
    intro h
    have h2 := h.1
    norm_num at h2

/-! ## C17: identity IMU -/

theorem scenario_linmath_identity_laws : identity_laws scenario_linmath := by
  refine ⟨?_, ?_, ?_, ?_⟩
  · intro v
    simp [scenario_linmath]
  · rfl
  · intro dt
    simp [scenario_linmath, zero3d]
  · intro w
    simp [scenario_linmath]

theorem spec_kalman_update_zero (so : SurviveObject) (s : kalman_info_position_t)
    (timecode : ℕ) (R : FLT) (hs : s.v = zero3d) :
    (spec_kalman_update so s timecode R zero3d).v = zero3d := by
  unfold spec_kalman_update
  split
  · rfl
  · simp [spec_blend3d, hs, zero3d]

/-- Gravity cancels: the bias-corrected rest acceleration, rotated by the
identity, plus `G`, is zero. -/
theorem RotateAccel_rest (L : Linmath) (hL : identity_laws L) (b : FLT) (hb : b ≠ 0) :
    RotateAccel L ⟨1, 0, 0, 0⟩ (scale3d ⟨0, 0, 1 / b⟩ b) = zero3d := by
  unfold RotateAccel
  rw [hL.1]
  simp [scale3d, add3d, zero3d, hb]

/-- At the identity with a zero gyroscope reading and an acceleration along
`z`, the Mahony filter returns the identity. -/
theorem mahony_ahrs_rest (L : Linmath) (hL : identity_laws L) (tracker : SurviveIMUTracker)
    (c : FLT) : (mahony_ahrs L tracker ⟨1, 0, 0, 0⟩ zero3d ⟨0, 0, c⟩).2 = ⟨1, 0, 0, 0⟩ := by
  unfold mahony_ahrs
  simp only
  split
  · simp [cross3d, scale3d, add3d, zero3d, quatadd, hL.2.1]
  · simp [cross3d, scale3d, add3d, zero3d, quatadd, hL.2.1]

theorem predict_rot_rest (L : Linmath) (hL : identity_laws L) (tracker : SurviveIMUTracker)
    (timecode : ℕ) (out : LinmathQuat) (hq : tracker.pose.Rot.v = ⟨1, 0, 0, 0⟩)
    (hw : tracker.velocity.AxisAngleRot.v = zero3d) :
    (survive_imu_tracker_predict_rot L tracker timecode out).2 = ⟨1, 0, 0, 0⟩ := by
  have hz : quatiszero tracker.pose.Rot.v = false := by
    rw [hq]
    simp [quatiszero]
  unfold survive_imu_tracker_predict_rot
  rw [hz]
  simp only [Bool.false_eq_true, if_false, survive_imu_tracker_predict_velocity_rot, hw]
  split
  · exact hq
  · rw [hq]
    exact hL.2.2.1 _

/-- A rotation measurement equal to the identity keeps the identity orientation
of a tracker with zero angular velocity. -/
theorem survive_update_rotation_rest (L : Linmath) (hL : identity_laws L)
    (tracker t1 : SurviveIMUTracker) (timecode : ℕ) (R : FLT)
    (hq : tracker.pose.Rot.v = ⟨1, 0, 0, 0⟩) (hw : tracker.velocity.AxisAngleRot.v = zero3d)
    (h : survive_update_rotation L tracker timecode R ⟨1, 0, 0, 0⟩ = some t1) :
    t1.pose.Rot.v = ⟨1, 0, 0, 0⟩ := by
  unfold survive_update_rotation at h
  have hz : quatiszero tracker.pose.Rot.v = false := by
    rw [hq]
    simp [quatiszero]
  rw [hz] at h
  simp only [Bool.false_eq_true, if_false] at h
  by_cases hc : survive_timecode_difference timecode tracker.pose.Rot.info.last_update
      < 2147483647
  · simp only [update_pose_rot, hc, if_true, Option.some.injEq] at h
    subst h
    show L.quatslerp (survive_imu_tracker_predict_rot L tracker timecode tracker.pose.Rot.v).2
      ⟨1, 0, 0, 0⟩ _ = _
    rw [predict_rot_rest L hL tracker timecode _ hq hw]
    exact hL.2.2.2 _
  · simp [update_pose_rot, hc] at h

/-- The orientation step keeps the identity orientation of a tracker at rest
fed the rest sample. -/
theorem integrate_imu_mahony_rest (L : Linmath) (hL : identity_laws L)
    (tracker t1 : SurviveIMUTracker) (data : PoserDataIMU) (hrest : at_rest tracker)
    (hd : identity_sample tracker.acc_bias data)
    (h : integrate_imu_mahony L tracker data = some t1) : t1.pose.Rot.v = ⟨1, 0, 0, 0⟩ := by
  unfold integrate_imu_mahony at h
  by_cases hm : tracker.mahony_variance ≥ 0
  · rw [if_pos hm, mahony_ahrs_fst, hrest.1, hd.1, hd.2, mahony_ahrs_rest L hL] at h
    exact survive_update_rotation_rest L hL tracker t1 _ _ hrest.1 hrest.2.2.1 h
  · rw [if_neg hm] at h
    obtain rfl := Option.some.inj h
    exact hrest.1

/-- One IMU call on a tracker at rest with the rest sample leaves it at rest. -/
theorem integrate_imu_rest_step (L : Linmath) (hL : identity_laws L)
    (tracker t1 : SurviveIMUTracker) (data : PoserDataIMU) (hrest : at_rest tracker)
    (hb : tracker.acc_bias ≠ 0) (hd : identity_sample tracker.acc_bias data)
    (h : survive_imu_tracker_integrate_imu L tracker data = some t1) :
    at_rest t1 ∧ t1.acc_bias = tracker.acc_bias := by
  by_cases hwarm : tracker.last_data.datamask = 0 ∨ tracker.pose.Rot.info.variance < 0 ∨
      tracker.pose.Pos.info.variance < 0
  · simp only [survive_imu_tracker_integrate_imu, hwarm, if_true, Option.some.injEq] at h
    subst h
    exact ⟨hrest, rfl⟩
  · obtain ⟨ta, tb, tc, h1, h2, h3, rfl⟩ := integrate_imu_some hwarm h
    have hq := integrate_imu_mahony_rest L hL tracker ta data hrest hd h1
    have hfa := integrate_imu_mahony_frame h1
    have hva : ta.velocity = tracker.velocity := by rw [hfa]
    have hla : ta.last_acc = tracker.last_acc := by rw [hfa]
    have hba : ta.acc_bias = tracker.acc_bias := by rw [hfa]
    obtain ⟨-, hb2⟩ := integrate_imu_time_gap_some h2
    have hqb : tb.pose.Rot.v = ⟨1, 0, 0, 0⟩ := by
      rw [hb2]
      split <;> simpa [sv_warn] using hq
    have hvb : tb.velocity = tracker.velocity := by
      rw [hb2]
      split <;> simpa [sv_warn] using hva
    have hlb : tb.last_acc = zero3d := by
      rw [hb2]
      split <;> simpa [sv_warn, hla] using hrest.2.2.2
    have hbb : tb.acc_bias = tracker.acc_bias := by
      rw [hb2]
      split <;> simpa [sv_warn] using hba
    have hacc : RotateAccel L tb.pose.Rot.v (scale3d data.accel tb.acc_bias) = zero3d := by
      rw [hqb, hbb, hd.1]
      exact RotateAccel_rest L hL _ hb
    have hrot : L.quatrotatevector ta.pose.Rot.v data.gyro = zero3d := by
      rw [hq, hd.2]
      exact hL.1 _
    have hvp : tb.velocity.Pos.v = zero3d := by rw [hvb]; exact hrest.2.1
    have hvr : tb.velocity.AxisAngleRot.v = zero3d := by rw [hvb]; exact hrest.2.2.1
    have h4 := integrate_imu_velocity_some h3
    rw [hacc, hrot, hlb, hvp] at h4
    have hm : add3d zero3d (scale3d (add3d zero3d zero3d)
        (1 / 2 * time_diff_seconds ta.so data.timecode ta.last_data.timecode)) = zero3d := by
      simp [add3d, scale3d, zero3d]
    rw [hm] at h4
    subst h4
    unfold at_rest
    split
    · exact ⟨⟨hqb, spec_kalman_update_zero _ _ _ _ hvp, spec_kalman_update_zero _ _ _ _ hvr,
        rfl⟩, hbb⟩
    · split
      · exact ⟨⟨hqb, hvp, spec_kalman_update_zero _ _ _ _ hvr, rfl⟩, hbb⟩
      · exact ⟨⟨hqb, hvp, hvr, hlb⟩, hbb⟩

/-- Any run of IMU calls on a tracker at rest with rest samples, when it
completes, leaves the tracker at rest. -/
theorem integrate_imu_samples_rest (L : Linmath) (hL : identity_laws L) :
    ∀ (samples : List PoserDataIMU) (tracker t1 : SurviveIMUTracker), at_rest tracker →
      tracker.acc_bias ≠ 0 → (∀ d ∈ samples, identity_sample tracker.acc_bias d) →
      integrate_imu_samples L tracker samples = some t1 → at_rest t1 := by
  intro samples
  induction samples with
  | nil =>
    intro tracker t1 hrest _ _ h
    simp only [integrate_imu_samples, Option.some.injEq] at h
    subst h
    exact hrest
  | cons d rest ih =>
    intro tracker t1 hrest hb hs h
    simp only [integrate_imu_samples] at h
    cases h0 : survive_imu_tracker_integrate_imu L tracker d with
    | none => rw [h0] at h; exact absurd h (by simp)
    | some t0 =>
      rw [h0] at h
      obtain ⟨hr0, hb0⟩ := integrate_imu_rest_step L hL tracker t0 d hrest hb
        (hs d (List.mem_cons_self d rest)) h0
      exact ih t0 t1 hr0 (by rw [hb0]; exact hb)
        (fun e he => by rw [hb0]; exact hs e (List.mem_cons_of_mem d he)) h

/-- C17: for a tracker at rest (identity orientation, zero linear and angular
velocity, zero `last_acc`) with a non-zero `acc_bias`, in warm-up or past it,
and any list of samples with `accel = (0, 0, 1/acc_bias)` and `gyro = 0`, after
every sample of the run (every prefix whose calls complete) `velocity.Pos`,
`velocity.AxisAngleRot` and `last_acc` are zero; the bias-corrected
acceleration rotated by the stored orientation, plus `G = (0,0,-1)`, scaled by
`9.8066`, is exactly zero. The absent `linmath` primitives enter through their
laws at the identity quaternion. -/
theorem identity_imu_stays_at_rest (L : Linmath) (hL : identity_laws L)
    (tracker : SurviveIMUTracker) (samples : List PoserDataIMU) (hrest : at_rest tracker)
    (hb : tracker.acc_bias ≠ 0) (hs : ∀ d ∈ samples, identity_sample tracker.acc_bias d) :
    RotateAccel L tracker.pose.Rot.v (scale3d ⟨0, 0, 1 / tracker.acc_bias⟩ tracker.acc_bias)
        = zero3d ∧
      ∀ (n : ℕ) (t1 : SurviveIMUTracker),
        integrate_imu_samples L tracker (samples.take n) = some t1 →
        t1.velocity.Pos.v = zero3d ∧ t1.velocity.AxisAngleRot.v = zero3d ∧
          t1.last_acc = zero3d := by
  refine ⟨by rw [hrest.1]; exact RotateAccel_rest L hL _ hb, ?_⟩
  intro n t1 h
  have hr := integrate_imu_samples_rest L hL (samples.take n) tracker t1 hrest hb
    (fun d hd => hs d (List.mem_of_mem_take hd)) h
  exact ⟨hr.2.1, hr.2.2.1, hr.2.2.2⟩

/-- An instance of C17 with Mahony enabled: two rest samples one millisecond
apart on a tracker past warm-up; both calls complete. -/
theorem identity_imu_stays_at_rest_witness :
    ∃ t1, integrate_imu_samples scenario_linmath { warm_tracker with mahony_variance := 1 / 100 }
        [⟨1, ⟨0, 0, 1⟩, ⟨0, 0, 0⟩, 48000⟩, ⟨1, ⟨0, 0, 1⟩, ⟨0, 0, 0⟩, 96000⟩] = some t1 ∧
      t1.velocity.Pos.v = zero3d ∧ t1.velocity.AxisAngleRot.v = zero3d ∧
      t1.last_acc = zero3d := by
  have hs : (integrate_imu_samples scenario_linmath
      { warm_tracker with mahony_variance := 1 / 100 }
      [⟨1, ⟨0, 0, 1⟩, ⟨0, 0, 0⟩, 48000⟩, ⟨1, ⟨0, 0, 1⟩, ⟨0, 0, 0⟩, 96000⟩]).isSome = true := by
    norm_num [integrate_imu_samples, survive_imu_tracker_integrate_imu, integrate_imu_mahony,
      mahony_ahrs, survive_imu_tracker_integrate_rotation, survive_update_rotation,
      update_pose_rot, survive_imu_tracker_predict_rot, quatiszero, cross3d, quatadd,
      linmath_min, integrate_imu_time_gap,
      integrate_imu_velocity, integrate_imu_velocity_isinf, RotateAccel, survive_imu_tracker_integrate_velocity,
      survive_update_pose_axis_angle, survive_update_position, position_ref.update_fn,
      position_ref.get, position_ref.set, survive_update_axis_angle_rotation, update_vel_pos,
      update_vel_rot, survive_imu_tracker_predict_velocity_pos,
      survive_imu_tracker_predict_velocity_rot, survive_update_kalman_variance,
      time_diff_seconds, survive_timecode_difference, survive_imu_tracker_init, scenario_so,
      default_config, zero3d, scale3d, add3d, scenario_linmath, warm_tracker, first_observed,
      rest_pose]
  obtain ⟨t1, h⟩ := Option.isSome_iff_exists.mp hs
  exact ⟨t1, h, (identity_imu_stays_at_rest scenario_linmath scenario_linmath_identity_laws
    { warm_tracker with mahony_variance := 1 / 100 }
    [⟨1, ⟨0, 0, 1⟩, ⟨0, 0, 0⟩, 48000⟩, ⟨1, ⟨0, 0, 1⟩, ⟨0, 0, 0⟩, 96000⟩]
    ⟨rfl, rfl, rfl, rfl⟩
    (by norm_num [warm_tracker, first_observed, survive_imu_tracker_init])
    (by
      intro d hd
      simp only [List.mem_cons, List.mem_singleton, List.not_mem_nil, or_false] at hd
      rcases hd with rfl | rfl <;>
        exact ⟨by norm_num [warm_tracker, first_observed, survive_imu_tracker_init], rfl⟩)).2 2 t1 h⟩

/-! ## C18: the IMU fallback -/

theorem spec_kalman_update_sv_warn (tracker : SurviveIMUTracker) (s : kalman_info_position_t)
    (timecode : ℕ) (R : FLT) (m : LinmathVec3d) :
    spec_kalman_update (sv_warn tracker).so s timecode R m =
      spec_kalman_update tracker.so s timecode R m := rfl

theorem integrate_imu_isinf_some {isinf : FLT → Bool} {L : Linmath}
    {tracker t4 : SurviveIMUTracker} {data : PoserDataIMU}
    (hwarm : ¬ (tracker.last_data.datamask = 0 ∨ tracker.pose.Rot.info.variance < 0 ∨
      tracker.pose.Pos.info.variance < 0))
    (h : survive_imu_tracker_integrate_imu_isinf isinf L tracker data = some t4) :
    ∃ t1 t2 t3, integrate_imu_mahony L tracker data = some t1 ∧
      integrate_imu_time_gap t1
        (time_diff_seconds t1.so data.timecode t1.last_data.timecode) = some t2 ∧
      integrate_imu_velocity_isinf isinf L t2 data (L.quatrotatevector t1.pose.Rot.v data.gyro)
        (t1.pose.Rot.info.variance + t1.velocity.Pos.info.variance + t1.acc_var,
         t1.pose.Rot.info.variance + t1.gyro_var)
        (time_diff_seconds t1.so data.timecode t1.last_data.timecode) = some t3 ∧
      t4 = { t3 with last_data := data } := by
  unfold survive_imu_tracker_integrate_imu_isinf at h
  rw [if_neg hwarm] at h
  cases h1 : integrate_imu_mahony L tracker data with
  | none => rw [h1] at h; exact absurd h (by simp)
  | some t1 =>
    rw [h1] at h
    simp only at h
    cases h2 : integrate_imu_time_gap t1
        (time_diff_seconds t1.so data.timecode t1.last_data.timecode) with
    | none => rw [h2] at h; exact absurd h (by simp)
    | some t2 =>
      rw [h2] at h
      simp only at h
      generalize h3 : integrate_imu_velocity_isinf isinf L t2 data _ _ _ = o at h
      cases o with
      | none => exact absurd h (by simp)
      | some t3 =>
        simp only [Option.some.injEq] at h
        exact ⟨t1, t2, t3, rfl, h2, h3, h.symm⟩

/-- The velocity step outside the acceleration branch: what a completed call
stores. -/
theorem integrate_imu_velocity_fallback {isinf : FLT → Bool} {L : Linmath}
    {tracker t3 : SurviveIMUTracker} {data : PoserDataIMU} {new_rot : LinmathVec3d}
    {Rv : FLT × FLT} {time_diff : FLT}
    (hacc : isinf Rv.1 = true ∨ tracker.acc_var ≤ 0)
    (h : integrate_imu_velocity_isinf isinf L tracker data new_rot Rv time_diff = some t3) :
    t3.velocity.Pos = tracker.velocity.Pos ∧ t3.last_acc = tracker.last_acc ∧
      t3.velocity.AxisAngleRot =
        (if isinf Rv.2 = false ∧ 0 < tracker.gyro_var then
          spec_kalman_update tracker.so tracker.velocity.AxisAngleRot data.timecode Rv.2 new_rot
        else tracker.velocity.AxisAngleRot) := by
  unfold integrate_imu_velocity_isinf at h
  have hn : ¬ (¬ isinf Rv.1 = true ∧ tracker.acc_var > 0) := by
    rintro ⟨h1, h2⟩
    rcases hacc with h3 | h3
    · exact h1 h3
    · exact absurd h2 (not_lt.mpr h3)
  rw [if_neg hn] at h
  by_cases hg : ¬ isinf Rv.2 = true ∧ tracker.gyro_var > 0
  · rw [if_pos hg] at h
    have hg2 : isinf Rv.2 = false ∧ 0 < tracker.gyro_var :=
      ⟨by simpa using hg.1, hg.2⟩
    rw [if_pos hg2, integrate_angular_velocity_some h]
    exact ⟨rfl, rfl, rfl⟩
  · rw [if_neg hg] at h
    have hg2 : ¬ (isinf Rv.2 = false ∧ 0 < tracker.gyro_var) := by
      rintro ⟨h1, h2⟩
      exact hg ⟨by simp [h1], h2⟩
    rw [if_neg hg2]
    obtain rfl := Option.some.inj h
    exact ⟨rfl, rfl, rfl⟩

/-- The velocity step outside the acceleration branch completes when the
angular update passes its timecode assertion, or is not made. -/
theorem integrate_imu_velocity_fallback_completes (isinf : FLT → Bool) (L : Linmath)
    (tracker : SurviveIMUTracker) (data : PoserDataIMU) (new_rot : LinmathVec3d)
    (Rv : FLT × FLT) (time_diff : FLT)
    (hacc : isinf Rv.1 = true ∨ tracker.acc_var ≤ 0)
    (hVR : isinf Rv.2 = true ∨ tracker.gyro_var ≤ 0 ∨
      survive_timecode_difference data.timecode
        tracker.velocity.AxisAngleRot.info.last_update < 2147483647) :
    ∃ t3, integrate_imu_velocity_isinf isinf L tracker data new_rot Rv time_diff = some t3 := by
  unfold integrate_imu_velocity_isinf
  have hn : ¬ (¬ isinf Rv.1 = true ∧ tracker.acc_var > 0) := by
    rintro ⟨h1, h2⟩
    rcases hacc with h3 | h3
    · exact h1 h3
    · exact absurd h2 (not_lt.mpr h3)
  rw [if_neg hn]
  by_cases hg : ¬ isinf Rv.2 = true ∧ tracker.gyro_var > 0
  · rw [if_pos hg]
    rcases hVR with hVR | hVR | hVR
    · exact absurd hVR hg.1
    · exact absurd hg.2 (not_lt.mpr hVR)
    · exact ⟨_, survive_update_axis_angle_rotation_eq _ _ _ _ hVR⟩
  · rw [if_neg hg]
    exact ⟨_, rfl⟩

/-- C18 (as amended): for every tracker past warm-up and every sample, with
`ta` the tracker after the orientation step (the tracker itself when Mahony is
disabled), `R_pos = ta.pose.Rot.var + velocity.Pos.var + acc_var` and
`R_rot = ta.pose.Rot.var + gyro_var`: when the acceleration branch is not taken
(`R_pos` infinite, or `acc_var <= 0`), a call that completes leaves
`velocity.Pos` (value, variance, `last_update`) and `last_acc` unchanged and
stores in `velocity.AxisAngleRot` the specification's update with the
measurement `rotate(ta.pose.Rot, gyro)` of variance `R_rot` exactly when
`R_rot` is finite and `gyro_var > 0`, leaving it unchanged otherwise; the call
completes when the gap to the cached sample is below 10 s and the timecode
assertion of `velocity.AxisAngleRot` passes or the angular update is not made.
`isinf` is the parameter of `survive_imu_tracker_integrate_imu_isinf`. -/
theorem imu_fallback_angular_only (isinf : FLT → Bool) (L : Linmath)
    (tracker : SurviveIMUTracker) (data : PoserDataIMU)
    (hwarm : ¬ (tracker.last_data.datamask = 0 ∨ tracker.pose.Rot.info.variance < 0 ∨
      tracker.pose.Pos.info.variance < 0)) :
    (∀ t4, survive_imu_tracker_integrate_imu_isinf isinf L tracker data = some t4 →
      ∃ ta, integrate_imu_mahony L tracker data = some ta ∧
        (tracker.mahony_variance < 0 → ta = tracker) ∧
        ((isinf (ta.pose.Rot.info.variance + tracker.velocity.Pos.info.variance +
            tracker.acc_var) = true ∨ tracker.acc_var ≤ 0) →
          t4.velocity.Pos = tracker.velocity.Pos ∧ t4.last_acc = tracker.last_acc ∧
          t4.velocity.AxisAngleRot =
            (if isinf (ta.pose.Rot.info.variance + tracker.gyro_var) = false ∧
                0 < tracker.gyro_var then
              spec_kalman_update tracker.so tracker.velocity.AxisAngleRot data.timecode
                (ta.pose.Rot.info.variance + tracker.gyro_var)
                (L.quatrotatevector ta.pose.Rot.v data.gyro)
            else tracker.velocity.AxisAngleRot))) ∧
      (∀ ta, integrate_imu_mahony L tracker data = some ta →
        (isinf (ta.pose.Rot.info.variance + tracker.velocity.Pos.info.variance +
            tracker.acc_var) = true ∨ tracker.acc_var ≤ 0) →
        time_diff_seconds tracker.so data.timecode tracker.last_data.timecode < 10 →
        (isinf (ta.pose.Rot.info.variance + tracker.gyro_var) = true ∨
          tracker.gyro_var ≤ 0 ∨
          survive_timecode_difference data.timecode
            tracker.velocity.AxisAngleRot.info.last_update < 2147483647) →
        ∃ t4, survive_imu_tracker_integrate_imu_isinf isinf L tracker data = some t4) := by
  constructor
  · intro t4 h
    obtain ⟨ta, tb, tc, h1, h2, h3, rfl⟩ := integrate_imu_isinf_some hwarm h
    have hf := integrate_imu_mahony_frame h1
    have hso : ta.so = tracker.so := by rw [hf]
    have hvel : ta.velocity = tracker.velocity := by rw [hf]
    have hla : ta.last_acc = tracker.last_acc := by rw [hf]
    have hav : ta.acc_var = tracker.acc_var := by rw [hf]
    have hgv : ta.gyro_var = tracker.gyro_var := by rw [hf]
    obtain ⟨-, hb⟩ := integrate_imu_time_gap_some h2
    have hvb : tb.velocity = tracker.velocity := by
      rw [hb]
      split <;> simpa [sv_warn] using hvel
    have hlb : tb.last_acc = tracker.last_acc := by
      rw [hb]
      split <;> simpa [sv_warn] using hla
    have hab : tb.acc_var = tracker.acc_var := by
      rw [hb]
      split <;> simpa [sv_warn] using hav
    have hgb : tb.gyro_var = tracker.gyro_var := by
      rw [hb]
      split <;> simpa [sv_warn] using hgv
    have hsb : ∀ s tc2 R m, spec_kalman_update tb.so s tc2 R m =
        spec_kalman_update tracker.so s tc2 R m := by
      intro s tc2 R m
      rw [hb]
      split
      · rw [spec_kalman_update_sv_warn, hso]
      · rw [hso]
    refine ⟨ta, h1, ?_, ?_⟩
    · intro hm
      rw [integrate_imu_mahony_disabled L tracker data hm] at h1
      exact (Option.some.inj h1).symm
    · intro hbranch
      rw [hvel, hav, hgv] at h3
      obtain ⟨hp, hl, hr⟩ := integrate_imu_velocity_fallback
        (by rw [hab]; exact hbranch) h3
      refine ⟨?_, ?_, ?_⟩
      · show tc.velocity.Pos = _
        rw [hp, hvb]
      · show tc.last_acc = _
        rw [hl, hlb]
      · show tc.velocity.AxisAngleRot = _
        rw [hr, hgb, hsb, hvb]
  · intro ta h1 hbranch hlt hVR
    have hf := integrate_imu_mahony_frame h1
    have hso : ta.so = tracker.so := by rw [hf]
    have hld : ta.last_data = tracker.last_data := by rw [hf]
    have hvel : ta.velocity = tracker.velocity := by rw [hf]
    have hav : ta.acc_var = tracker.acc_var := by rw [hf]
    have hgv : ta.gyro_var = tracker.gyro_var := by rw [hf]
    have h2 : ∃ tb, integrate_imu_time_gap ta
        (time_diff_seconds ta.so data.timecode ta.last_data.timecode) = some tb ∧
        tb.velocity = tracker.velocity ∧ tb.acc_var = tracker.acc_var ∧
        tb.gyro_var = tracker.gyro_var := by
      rw [hso, hld]
      unfold integrate_imu_time_gap
      by_cases hgt : time_diff_seconds tracker.so data.timecode tracker.last_data.timecode > 1
      · rw [if_pos hgt, if_pos hlt]
        exact ⟨_, rfl, hvel, hav, hgv⟩
      · rw [if_neg hgt]
        exact ⟨_, rfl, hvel, hav, hgv⟩
    obtain ⟨tb, h2, hvb, hab, hgb⟩ := h2
    obtain ⟨tc, h3⟩ := integrate_imu_velocity_fallback_completes isinf L tb data
      (L.quatrotatevector ta.pose.Rot.v data.gyro)
      (ta.pose.Rot.info.variance + ta.velocity.Pos.info.variance + ta.acc_var,
        ta.pose.Rot.info.variance + ta.gyro_var)
      (time_diff_seconds ta.so data.timecode ta.last_data.timecode)
      (by rw [hab, hvel, hav]; exact hbranch) (by rw [hgb, hvb, hgv]; exact hVR)
    refine ⟨{ tc with last_data := data }, ?_⟩
    unfold survive_imu_tracker_integrate_imu_isinf
    rw [if_neg hwarm, h1]
    simp only [h2, h3]

/-- An instance of C18 (as amended) in the infinite-variance case: the default
configuration (`acc_var = 0.1 > 0`), a linear-velocity variance at the overflow
threshold, so that `R_pos` is infinite and `R_rot = 0.02` is finite, a sample
with `gyro = (0,0,1)` one millisecond after the cached one. The call completes,
`velocity.Pos` and `last_acc` are unchanged and the angular velocity moves to
`(0,0,3/43)` (`v_prior = 0.0015`, `R_rot = 0.02`). -/
theorem imu_fallback_angular_only_witness :
    0 < overflowed_tracker.acc_var ∧
      overflow_isinf (overflowed_tracker.pose.Rot.info.variance +
        overflowed_tracker.velocity.Pos.info.variance + overflowed_tracker.acc_var) = true ∧
      overflow_isinf (overflowed_tracker.pose.Rot.info.variance +
        overflowed_tracker.gyro_var) = false ∧
      ∃ t4, survive_imu_tracker_integrate_imu_isinf overflow_isinf scenario_linmath
            overflowed_tracker ⟨1, ⟨0, 0, 1⟩, ⟨0, 0, 1⟩, 48000⟩ = some t4 ∧
        t4.velocity.Pos = overflowed_tracker.velocity.Pos ∧
        t4.last_acc = overflowed_tracker.last_acc ∧
        t4.velocity.AxisAngleRot.v = ⟨0, 0, 3 / 43⟩ := by
  have hw : ¬ (overflowed_tracker.last_data.datamask = 0 ∨
      overflowed_tracker.pose.Rot.info.variance < 0 ∨
      overflowed_tracker.pose.Pos.info.variance < 0) := by
    norm_num [overflowed_tracker, warm_tracker, first_observed]
  have hacc : 0 < overflowed_tracker.acc_var := by
    norm_num [overflowed_tracker, warm_tracker, first_observed, survive_imu_tracker_init,
      scenario_so, default_config]
  have hm : overflowed_tracker.mahony_variance < 0 := by
    norm_num [overflowed_tracker, warm_tracker, first_observed, survive_imu_tracker_init,
      scenario_so, default_config]
  have hpos : overflow_isinf (overflowed_tracker.pose.Rot.info.variance +
      overflowed_tracker.velocity.Pos.info.variance + overflowed_tracker.acc_var) = true := by
    norm_num [overflow_isinf, overflowed_tracker, warm_tracker, first_observed,
      survive_imu_tracker_init, scenario_so, default_config, abs_of_nonneg]
  have hrot : overflow_isinf (overflowed_tracker.pose.Rot.info.variance +
      overflowed_tracker.gyro_var) = false := by
    norm_num [overflow_isinf, overflowed_tracker, warm_tracker, first_observed,
      survive_imu_tracker_init, scenario_so, default_config, abs_of_nonneg]
  have hT := imu_fallback_angular_only overflow_isinf scenario_linmath overflowed_tracker
    ⟨1, ⟨0, 0, 1⟩, ⟨0, 0, 1⟩, 48000⟩ hw
  obtain ⟨t4, h4⟩ := hT.2 overflowed_tracker
    (integrate_imu_mahony_disabled scenario_linmath overflowed_tracker _ hm)
    (Or.inl hpos)
    (by norm_num [time_diff_seconds, survive_timecode_difference, overflowed_tracker,
      warm_tracker, first_observed, survive_imu_tracker_init, scenario_so])
    (Or.inr (Or.inr (by norm_num [survive_timecode_difference, overflowed_tracker,
      warm_tracker, first_observed, survive_imu_tracker_init])))
  obtain ⟨ta, -, hta, hfacts⟩ := hT.1 t4 h4
  obtain rfl := hta hm
  obtain ⟨hp, hl, hr⟩ := hfacts (Or.inl hpos)
  refine ⟨hacc, hpos, hrot, t4, h4, hp, hl, ?_⟩
  rw [hr, if_pos ⟨hrot, by
    norm_num [overflowed_tracker, warm_tracker, first_observed, survive_imu_tracker_init,
      scenario_so, default_config]⟩]
  norm_num [spec_kalman_update, spec_v_prior, spec_weight, spec_blend3d, time_diff_seconds,
    survive_timecode_difference, overflowed_tracker, warm_tracker, first_observed,
    survive_imu_tracker_init, scenario_so, default_config, scenario_linmath, rest_pose, zero3d]

/-- C18 as stated fails when an assertion aborts the call: the tracker is past
warm-up with `acc_var <= 0`, a finite `R_rot` and `gyro_var > 0`, the sample
arrives 20 s after the cached one, and `assert(time_diff < 10)` ends the call
before anything is blended into `velocity.AxisAngleRot`. -/
theorem imu_fallback_abort_counterexample :
    ¬ (fallback_tracker.last_data.datamask = 0 ∨ fallback_tracker.pose.Rot.info.variance < 0 ∨
        fallback_tracker.pose.Pos.info.variance < 0) ∧
      fallback_tracker.acc_var ≤ 0 ∧ 0 < fallback_tracker.gyro_var ∧
      overflow_isinf (fallback_tracker.pose.Rot.info.variance + fallback_tracker.gyro_var)
        = false ∧
      time_diff_seconds fallback_tracker.so 960000000 fallback_tracker.last_data.timecode = 20 ∧
      survive_imu_tracker_integrate_imu_isinf overflow_isinf scenario_linmath fallback_tracker
        ⟨1, ⟨0, 0, 1⟩, ⟨0, 0, 1⟩, 960000000⟩ = none := by
  refine ⟨?_, ?_, ?_, ?_, ?_, ?_⟩
  · norm_num [fallback_tracker, warm_tracker, first_observed]
  · norm_num [fallback_tracker]
  · norm_num [fallback_tracker, warm_tracker, first_observed, survive_imu_tracker_init,
      scenario_so, default_config]
  · norm_num [overflow_isinf, fallback_tracker, warm_tracker, first_observed,
      survive_imu_tracker_init, scenario_so, default_config, abs_of_nonneg]
  · norm_num [time_diff_seconds, survive_timecode_difference, fallback_tracker, warm_tracker,
      first_observed, survive_imu_tracker_init, scenario_so]
  · norm_num [survive_imu_tracker_integrate_imu_isinf, integrate_imu_mahony,
      integrate_imu_time_gap, time_diff_seconds, survive_timecode_difference,
      survive_imu_tracker_init, scenario_so, default_config, fallback_tracker, warm_tracker,
      first_observed, rest_pose]

/-! ## The velocity block of `survive_imu_tracker_integrate_observation` -/

theorem survive_update_pose_frame {L : Linmath} {timecode : ℕ} {tracker tu : SurviveIMUTracker}
    {pose : SurvivePose} {R : FLT × FLT}
    (hu : survive_update_pose L tracker timecode R pose = some tu) :
    ∃ p, tu = { tracker with pose := p } := by
  unfold survive_update_pose at hu
  cases ha : survive_update_position tracker position_ref.pose_Pos timecode R.1 pose.Pos with
  | none => rw [ha] at hu; exact absurd hu (by simp)
  | some ta =>
    rw [ha] at hu
    have hb := survive_update_rotation_frame hu
    unfold survive_update_position at ha
    simp only [position_ref.update_fn] at ha
    cases h0 : update_pose_pos tracker timecode with
    | none => simp [h0] at ha
    | some t0 =>
      obtain ⟨r, rfl⟩ := update_pose_pos_some h0
      simp only [h0, Option.some.injEq, position_ref.get, position_ref.set] at ha
      subst ha
      exact ⟨_, hb⟩

/-- What a completed observation stores in the velocity signals: under the
guard of the source (`last_pose` set, a non-zero time difference,
`use_obs_velocity` non-zero) the specification's update of both signals with
the velocities derived from the two poses, otherwise nothing. -/
theorem integrate_observation_velocity {L : Linmath} {timecode : ℕ}
    {tracker t1 : SurviveIMUTracker} {pose : SurvivePose} {R : FLT × FLT}
    (h : survive_imu_tracker_integrate_observation L timecode tracker pose R = some t1) :
    t1.velocity =
      if ¬ quatiszero tracker.last_pose.Rot.v = true ∧
          time_diff_seconds tracker.so timecode tracker.last_pose.Pos.info.last_update ≠ 0 ∧
          tracker.use_obs_velocity ≠ 0 then
        { Pos := spec_kalman_update tracker.so tracker.velocity.Pos timecode
            (R.1 + tracker.last_pose.Pos.info.variance + tracker.obs_variance)
            (scale3d (sub3d pose.Pos tracker.last_pose.Pos.v)
              (1 / time_diff_seconds tracker.so timecode tracker.last_pose.Pos.info.last_update)),
          AxisAngleRot := spec_kalman_update tracker.so tracker.velocity.AxisAngleRot timecode
            (R.2 + tracker.last_pose.Rot.info.variance + tracker.obs_rot_variance)
            (L.survive_find_ang_velocity
              (time_diff_seconds tracker.so timecode tracker.last_pose.Pos.info.last_update)
              tracker.last_pose.Rot.v pose.Rot) }
      else tracker.velocity := by
  unfold survive_imu_tracker_integrate_observation at h
  cases hp : survive_imu_tracker_predict L tracker timecode ⟨zero3d, zeroquat⟩ with
  | none => rw [hp] at h; exact absurd h (by simp)
  | some p0 =>
    rw [hp] at h
    cases hu : survive_update_pose L tracker timecode R pose with
    | none => rw [hu] at h; exact absurd h (by simp)
    | some tu =>
      rw [hu] at h
      obtain ⟨p, rfl⟩ := survive_update_pose_frame hu
      simp only at h
      by_cases hc : timecode = p.Pos.info.last_update ∧ timecode = p.Rot.info.last_update
      · rw [if_pos hc] at h
        by_cases hg : ¬ quatiszero tracker.last_pose.Rot.v = true ∧
            time_diff_seconds tracker.so timecode tracker.last_pose.Pos.info.last_update ≠ 0 ∧
            tracker.use_obs_velocity ≠ 0
        · rw [if_pos hg] at h
          rw [if_pos hg]
          generalize hv : survive_imu_tracker_integrate_velocity _ _ _ _ = ov at h
          cases ov with
          | none => exact absurd h (by simp)
          | some tv =>
            simp only [Option.some.injEq] at h
            subst h
            have h4 := integrate_velocity_some hv
            subst h4
            by_cases hgt : time_diff_seconds tracker.so timecode
                tracker.last_pose.Pos.info.last_update > 1
            · simp only [hgt, if_true, sv_warn]
              rfl
            · simp only [hgt, if_false]
        · rw [if_neg hg] at h
          rw [if_neg hg]
          simp only [Option.some.injEq] at h
          subst h
          rfl
      · rw [if_neg hc] at h
        exact absurd h (by simp)

/-! ## C19: implicit velocity from observations -/

/-- C19 (as amended): when `use_obs_velocity` is set, `last_pose` is
initialised and `dt = seconds(timecode - last_pose.Pos.last_update)` is
non-zero, an observation that completes has stored in `velocity.Pos` the
specification's update with the measurement `(pose.Pos - last_pose.Pos) / dt`
of variance `R[0] + last_pose.Pos.variance + obs_variance`, and in
`velocity.AxisAngleRot` the update with `find_ang_velocity(dt, last_pose.Rot,
pose.Rot)` of variance `R[1] + last_pose.Rot.variance + obs_rot_variance`; the
observation completes when the timecode assertions of the four signals and the
norm assertion of the position predictor pass. In scenario S4 (default
configuration, positions `(0,0,0)` at `t = 0` and `(1,0,0)` at `t = 48000000`,
non-negative position variances) both observations complete and
`velocity.Pos.x` ends at the weight `1.001 / (1.001 + R'[0] + R[0] + 1)`, which
lies in `(0, 1]`. -/
theorem implicit_velocity_from_observations (L : Linmath) (timecode : ℕ)
    (tracker : SurviveIMUTracker) (pose : SurvivePose) (R : FLT × FLT)
    (huse : tracker.use_obs_velocity ≠ 0)
    (hlast : ¬ quatiszero tracker.last_pose.Rot.v = true)
    (hdt : time_diff_seconds tracker.so timecode tracker.last_pose.Pos.info.last_update ≠ 0) :
    (∀ t1, survive_imu_tracker_integrate_observation L timecode tracker pose R = some t1 →
      t1.velocity.Pos = spec_kalman_update tracker.so tracker.velocity.Pos timecode
          (R.1 + tracker.last_pose.Pos.info.variance + tracker.obs_variance)
          (scale3d (sub3d pose.Pos tracker.last_pose.Pos.v)
            (1 / time_diff_seconds tracker.so timecode tracker.last_pose.Pos.info.last_update)) ∧
        t1.velocity.AxisAngleRot =
          spec_kalman_update tracker.so tracker.velocity.AxisAngleRot timecode
            (R.2 + tracker.last_pose.Rot.info.variance + tracker.obs_rot_variance)
            (L.survive_find_ang_velocity
              (time_diff_seconds tracker.so timecode tracker.last_pose.Pos.info.last_update)
              tracker.last_pose.Rot.v pose.Rot)) ∧
      (survive_timecode_difference timecode tracker.pose.Pos.info.last_update < 2147483647 →
        survive_timecode_difference timecode tracker.pose.Rot.info.last_update < 2147483647 →
        survive_timecode_difference timecode tracker.velocity.Pos.info.last_update
          < 2147483647 →
        survive_timecode_difference timecode tracker.velocity.AxisAngleRot.info.last_update
          < 2147483647 →
        (tracker.pose.Pos.info.variance < 0 ∨
          10 < (survive_imu_tracker_predict_velocity_pos tracker timecode).1 ∨
          norm3d_sq (add3d (scale3d tracker.velocity.Pos.v (pose_time_diff tracker timecode))
            tracker.pose.Pos.v) < 1000 * 1000) →
        ∃ t1, survive_imu_tracker_integrate_observation L timecode tracker pose R = some t1) ∧
      (∀ (R0 R1 : FLT × FLT) (q0 q1 : LinmathQuat), 0 ≤ R0.1 → 0 ≤ R1.1 →
        quatiszero q0 = false →
        ∃ t0 t1, survive_imu_tracker_integrate_observation L 0
            (survive_imu_tracker_init scenario_so) ⟨⟨0, 0, 0⟩, q0⟩ R0 = some t0 ∧
          t0.velocity.Pos.v = zero3d ∧
          survive_imu_tracker_integrate_observation L 48000000 t0 ⟨⟨1, 0, 0⟩, q1⟩ R1 = some t1 ∧
          t1.velocity.Pos.v.x = (1001 / 1000) / (1001 / 1000 + (R1.1 + R0.1 + 1)) ∧
          0 < t1.velocity.Pos.v.x ∧ t1.velocity.Pos.v.x ≤ 1) := by
  refine ⟨?_, ?_, ?_⟩
  · intro t1 h
    have hv := integrate_observation_velocity h
    rw [if_pos ⟨hlast, hdt, huse⟩] at hv
    rw [hv]
    exact ⟨rfl, rfl⟩
  · intro hP hR hVP hVR hnorm
    exact integrate_observation_completes L timecode tracker pose R hP hR hVP hVR hnorm
  · intro R0 R1 q0 q1 h0 h1 hq0
    have e0 := first_observed_eq L ⟨⟨0, 0, 0⟩, q0⟩ R0 0 (by norm_num)
    obtain ⟨t1, ht1⟩ := integrate_observation_completes L 48000000
      (first_observed ⟨⟨0, 0, 0⟩, q0⟩ R0 0) ⟨⟨1, 0, 0⟩, q1⟩ R1
      (by norm_num [survive_timecode_difference, first_observed])
      (by norm_num [survive_timecode_difference, first_observed])
      (by norm_num [survive_timecode_difference, first_observed, survive_imu_tracker_init])
      (by norm_num [survive_timecode_difference, first_observed, survive_imu_tracker_init])
      (Or.inr (Or.inr (by
        norm_num [norm3d_sq, add3d, scale3d, first_observed, survive_imu_tracker_init, zero3d])))
    have hv := integrate_observation_velocity ht1
    have hdt1 : time_diff_seconds (first_observed ⟨⟨0, 0, 0⟩, q0⟩ R0 0).so 48000000
        (first_observed ⟨⟨0, 0, 0⟩, q0⟩ R0 0).last_pose.Pos.info.last_update = 1 := by
      norm_num [time_diff_seconds, survive_timecode_difference, first_observed,
        survive_imu_tracker_init, scenario_so]
    have hg : ¬ quatiszero (first_observed ⟨⟨0, 0, 0⟩, q0⟩ R0 0).last_pose.Rot.v = true ∧
        time_diff_seconds (first_observed ⟨⟨0, 0, 0⟩, q0⟩ R0 0).so 48000000
          (first_observed ⟨⟨0, 0, 0⟩, q0⟩ R0 0).last_pose.Pos.info.last_update ≠ 0 ∧
        (first_observed ⟨⟨0, 0, 0⟩, q0⟩ R0 0).use_obs_velocity ≠ 0 := by
      refine ⟨?_, by rw [hdt1]; norm_num, ?_⟩
      · show ¬ quatiszero q0 = true
        rw [hq0]
        simp
      · norm_num [first_observed, survive_imu_tracker_init, scenario_so, default_config]
    rw [if_pos hg, hdt1] at hv
    have hx : t1.velocity.Pos.v.x = (1001 / 1000) / (1001 / 1000 + (R1.1 + R0.1 + 1)) := by
      rw [hv]
      have hpos : (0 : FLT) < 1001 / 1000 + (R1.1 + R0.1 + 1) := by linarith
      norm_num [spec_kalman_update, spec_v_prior, spec_weight, spec_blend3d, scale3d, sub3d,
        time_diff_seconds, survive_timecode_difference, first_observed,
        survive_imu_tracker_init, scenario_so, default_config, zero3d]
      intro hz
      exact absurd hz (ne_of_gt hpos)
    refine ⟨_, t1, e0, rfl, ht1, hx, ?_, ?_⟩
    · rw [hx]
      apply div_pos (by norm_num)
      linarith
    · rw [hx]
      rw [div_le_one (by linarith)]
      linarith

/-- Scenario S4, an instance of C19 (as amended): the tracker observed at the
rest pose at `t = 0` with `R = (0.01, 0.01)` receives the position `(1,0,0)` at
`t = 48000000` with the same `R`; the observation completes and the linear
velocity is `(1001/2021, 0, 0)`. -/
theorem implicit_velocity_from_observations_witness :
    (first_observed rest_pose (1 / 100, 1 / 100) 0).use_obs_velocity ≠ 0 ∧
      ¬ quatiszero (first_observed rest_pose (1 / 100, 1 / 100) 0).last_pose.Rot.v = true ∧
      time_diff_seconds (first_observed rest_pose (1 / 100, 1 / 100) 0).so 48000000
        (first_observed rest_pose (1 / 100, 1 / 100) 0).last_pose.Pos.info.last_update = 1 ∧
      ∃ t1, survive_imu_tracker_integrate_observation scenario_linmath 48000000
            (first_observed rest_pose (1 / 100, 1 / 100) 0) ⟨⟨1, 0, 0⟩, ⟨1, 0, 0, 0⟩⟩
            (1 / 100, 1 / 100) = some t1 ∧
        t1.velocity.Pos.v = ⟨1001 / 2021, 0, 0⟩ := by
  have huse : (first_observed rest_pose (1 / 100, 1 / 100) 0).use_obs_velocity ≠ 0 := by
    norm_num [first_observed, survive_imu_tracker_init, scenario_so, default_config]
  have hlast : ¬ quatiszero (first_observed rest_pose (1 / 100, 1 / 100) 0).last_pose.Rot.v
      = true := by
    simp [first_observed, rest_pose, quatiszero]
  have hdt1 : time_diff_seconds (first_observed rest_pose (1 / 100, 1 / 100) 0).so 48000000
      (first_observed rest_pose (1 / 100, 1 / 100) 0).last_pose.Pos.info.last_update = 1 := by
    norm_num [time_diff_seconds, survive_timecode_difference, first_observed,
      survive_imu_tracker_init, scenario_so]
  have hT := implicit_velocity_from_observations scenario_linmath 48000000
    (first_observed rest_pose (1 / 100, 1 / 100) 0) ⟨⟨1, 0, 0⟩, ⟨1, 0, 0, 0⟩⟩ (1 / 100, 1 / 100)
    huse hlast (by rw [hdt1]; norm_num)
  obtain ⟨t1, h1⟩ := hT.2.1
    (by norm_num [survive_timecode_difference, first_observed])
    (by norm_num [survive_timecode_difference, first_observed])
    (by norm_num [survive_timecode_difference, first_observed, survive_imu_tracker_init])
    (by norm_num [survive_timecode_difference, first_observed, survive_imu_tracker_init])
    (Or.inr (Or.inr (by
      norm_num [norm3d_sq, add3d, scale3d, first_observed, survive_imu_tracker_init, zero3d,
        rest_pose])))
  refine ⟨huse, hlast, hdt1, t1, h1, ?_⟩
  rw [(hT.1 t1 h1).1]
  norm_num [spec_kalman_update, spec_v_prior, spec_weight, spec_blend3d, scale3d, sub3d,
    time_diff_seconds, survive_timecode_difference, first_observed, survive_imu_tracker_init,
    scenario_so, default_config, zero3d, rest_pose]

/-- C19 as stated fails when an assertion aborts the call: the tracker observed
at `((1000, 0, 0); identity)` at `t = 0` has `use_obs_velocity` set, `last_pose`
initialised and `dt = 1` at `t = 48000000`, but the diagnostic predict of the
next observation is aborted by `assert(norm3d(out) < 1000)`: nothing is
submitted to the velocity signals. -/
theorem implicit_velocity_abort_counterexample :
    survive_imu_tracker_integrate_observation scenario_linmath 0
        (survive_imu_tracker_init scenario_so) far_pose (1 / 100, 1 / 100) =
        some (first_observed far_pose (1 / 100, 1 / 100) 0) ∧
      (first_observed far_pose (1 / 100, 1 / 100) 0).use_obs_velocity ≠ 0 ∧
      ¬ quatiszero (first_observed far_pose (1 / 100, 1 / 100) 0).last_pose.Rot.v = true ∧
      time_diff_seconds (first_observed far_pose (1 / 100, 1 / 100) 0).so 48000000
        (first_observed far_pose (1 / 100, 1 / 100) 0).last_pose.Pos.info.last_update = 1 ∧
      survive_imu_tracker_integrate_observation scenario_linmath 48000000
        (first_observed far_pose (1 / 100, 1 / 100) 0) far_pose (1 / 100, 1 / 100) = none := by
  refine ⟨first_observed_eq scenario_linmath far_pose (1 / 100, 1 / 100) 0 (by norm_num),
    ?_, ?_, ?_, ?_⟩
  · norm_num [first_observed, survive_imu_tracker_init, scenario_so, default_config]
  · simp [first_observed, far_pose, quatiszero]
  · norm_num [time_diff_seconds, survive_timecode_difference, first_observed,
      survive_imu_tracker_init, scenario_so]
  · norm_num [survive_imu_tracker_integrate_observation, survive_imu_tracker_predict,
      survive_imu_tracker_predict_pos, survive_imu_tracker_predict_velocity_pos, linmath_min,
      scale3d, add3d, norm3d_sq, time_diff_seconds, survive_timecode_difference,
      survive_imu_tracker_init, scenario_so, default_config, zero3d, first_observed, far_pose]

/-! ## C20: the guard of the velocity block -/

/-- C20: if `use_obs_velocity` is `0`, or `last_pose` has never been set (its
quaternion is the zero sentinel), or the time since
`last_pose.Pos.last_update` is not positive, the timecodes being in order (the
timebase not negative, the timecode at or after `last_pose.Pos.last_update`
and less than `2^31` ticks later), then a completed
`survive_imu_tracker_integrate_observation` leaves `velocity.Pos` and
`velocity.AxisAngleRot` (value, variance and `last_update`) unchanged; an
aborted call stores nothing. The source tests `time_diff != 0`: the property
holds as well whenever the time difference is zero, whatever the timecodes. -/
theorem observation_velocity_guard (L : Linmath) (timecode : ℕ)
    (tracker t1 : SurviveIMUTracker) (pose : SurvivePose) (R : FLT × FLT)
    (hguard : tracker.use_obs_velocity = 0 ∨ quatiszero tracker.last_pose.Rot.v = true ∨
      time_diff_seconds tracker.so timecode tracker.last_pose.Pos.info.last_update = 0 ∨
      (0 ≤ tracker.so.timebase_hz ∧ tracker.last_pose.Pos.info.last_update ≤ timecode ∧
        timecode < tracker.last_pose.Pos.info.last_update + 2147483648 ∧
        ¬ 0 < time_diff_seconds tracker.so timecode tracker.last_pose.Pos.info.last_update))
    (h : survive_imu_tracker_integrate_observation L timecode tracker pose R = some t1) :
    t1.velocity.Pos = tracker.velocity.Pos ∧
      t1.velocity.AxisAngleRot = tracker.velocity.AxisAngleRot := by
  have hv := integrate_observation_velocity h
  have hdt : tracker.use_obs_velocity = 0 ∨ quatiszero tracker.last_pose.Rot.v = true ∨
      time_diff_seconds tracker.so timecode tracker.last_pose.Pos.info.last_update = 0 := by
    rcases hguard with hg | hg | hg | ⟨hhz, hle, hlt, hnp⟩
    · exact Or.inl hg
    · exact Or.inr (Or.inl hg)
    · exact Or.inr (Or.inr hg)
    · refine Or.inr (Or.inr ?_)
      have hnn : 0 ≤ time_diff_seconds tracker.so timecode
          tracker.last_pose.Pos.info.last_update := by
        unfold time_diff_seconds
        rw [survive_timecode_difference_of_le hle hlt]
        apply div_nonneg
        · have : (0 : ℤ) ≤ (timecode : ℤ) - (tracker.last_pose.Pos.info.last_update : ℤ) := by
            omega
          exact_mod_cast this
        · exact_mod_cast hhz
      exact le_antisymm (not_lt.mp hnp) hnn
  have hneg : ¬ (¬ quatiszero tracker.last_pose.Rot.v = true ∧
      time_diff_seconds tracker.so timecode tracker.last_pose.Pos.info.last_update ≠ 0 ∧
      tracker.use_obs_velocity ≠ 0) := by
    rintro ⟨hq, hd, hu⟩
    rcases hdt with hg | hg | hg
    · exact hu hg
    · exact hq hg
    · exact hd hg
  rw [if_neg hneg] at hv
  rw [hv]
  exact ⟨rfl, rfl⟩

/-- An instance of C20: a second observation at the timecode of the first, in
order and with a time difference that is not positive, completes and leaves
both velocity signals unchanged. -/
theorem observation_velocity_guard_witness :
    ¬ 0 < time_diff_seconds (first_observed rest_pose (1 / 100, 1 / 100) 0).so 0
        (first_observed rest_pose (1 / 100, 1 / 100) 0).last_pose.Pos.info.last_update ∧
      ∃ t1, survive_imu_tracker_integrate_observation scenario_linmath 0
            (first_observed rest_pose (1 / 100, 1 / 100) 0) ⟨⟨1, 0, 0⟩, ⟨1, 0, 0, 0⟩⟩
            (1 / 100, 1 / 100) = some t1 ∧
        t1.velocity.Pos = (first_observed rest_pose (1 / 100, 1 / 100) 0).velocity.Pos ∧
        t1.velocity.AxisAngleRot =
          (first_observed rest_pose (1 / 100, 1 / 100) 0).velocity.AxisAngleRot := by
  have hdt : ¬ 0 < time_diff_seconds (first_observed rest_pose (1 / 100, 1 / 100) 0).so 0
      (first_observed rest_pose (1 / 100, 1 / 100) 0).last_pose.Pos.info.last_update := by
    norm_num [time_diff_seconds, survive_timecode_difference, first_observed]
  obtain ⟨t1, h1⟩ := integrate_observation_completes scenario_linmath 0
    (first_observed rest_pose (1 / 100, 1 / 100) 0) ⟨⟨1, 0, 0⟩, ⟨1, 0, 0, 0⟩⟩ (1 / 100, 1 / 100)
    (by norm_num [survive_timecode_difference, first_observed])
    (by norm_num [survive_timecode_difference, first_observed])
    (by norm_num [survive_timecode_difference, first_observed, survive_imu_tracker_init])
    (by norm_num [survive_timecode_difference, first_observed, survive_imu_tracker_init])
    (Or.inr (Or.inr (by
      norm_num [norm3d_sq, add3d, scale3d, first_observed, survive_imu_tracker_init, zero3d,
        rest_pose])))
  exact ⟨hdt, t1, h1, observation_velocity_guard scenario_linmath 0
    (first_observed rest_pose (1 / 100, 1 / 100) 0) t1 ⟨⟨1, 0, 0⟩, ⟨1, 0, 0, 0⟩⟩
    (1 / 100, 1 / 100)
    (Or.inr (Or.inr (Or.inr ⟨by norm_num [first_observed, survive_imu_tracker_init, scenario_so],
      by norm_num [first_observed], by norm_num [first_observed], hdt⟩))) h1⟩

/-! ## C21: `last_pose` is the raw observation -/

/-- C21 (as amended): a call of `survive_imu_tracker_integrate_observation`
that completes leaves in `last_pose` the raw observation, whatever the stored
state and the blend weights were: `last_pose.Pos.v = pose.Pos`,
`last_pose.Rot.v = pose.Rot`, `last_pose.Pos.variance = R[0]`,
`last_pose.Rot.variance = R[1]`, `last_pose.Pos.last_update = timecode`; the
call completes when the timecode assertions of the four signals and the norm
assertion of the position predictor pass. -/
theorem last_pose_is_raw_observation (L : Linmath) (timecode : ℕ) (tracker : SurviveIMUTracker)
    (pose : SurvivePose) (R : FLT × FLT) :
    (∀ t1, survive_imu_tracker_integrate_observation L timecode tracker pose R = some t1 →
      t1.last_pose.Pos.v = pose.Pos ∧ t1.last_pose.Rot.v = pose.Rot ∧
        t1.last_pose.Pos.info.variance = R.1 ∧ t1.last_pose.Rot.info.variance = R.2 ∧
        t1.last_pose.Pos.info.last_update = timecode) ∧
      (survive_timecode_difference timecode tracker.pose.Pos.info.last_update < 2147483647 →
        survive_timecode_difference timecode tracker.pose.Rot.info.last_update < 2147483647 →
        survive_timecode_difference timecode tracker.velocity.Pos.info.last_update
          < 2147483647 →
        survive_timecode_difference timecode tracker.velocity.AxisAngleRot.info.last_update
          < 2147483647 →
        (tracker.pose.Pos.info.variance < 0 ∨
          10 < (survive_imu_tracker_predict_velocity_pos tracker timecode).1 ∨
          norm3d_sq (add3d (scale3d tracker.velocity.Pos.v (pose_time_diff tracker timecode))
            tracker.pose.Pos.v) < 1000 * 1000) →
        ∃ t1, survive_imu_tracker_integrate_observation L timecode tracker pose R = some t1) := by
  constructor
  · intro t1 h
    obtain ⟨tu, -, -, hl⟩ := integrate_observation_some h
    rw [hl]
    exact ⟨rfl, rfl, rfl, rfl, rfl⟩
  · intro hP hR hVP hVR hnorm
    exact integrate_observation_completes L timecode tracker pose R hP hR hVP hVR hnorm

/-- An instance of C21 (as amended): the tracker observed at the rest pose at
`t = 0` receives the pose `((1,0,0); (0,1,0,0))` with `R = (1/50, 1/25)` at
`t = 4800000`; the call completes and `last_pose` holds that observation,
while the stored position is the blend `(210201/410201, 0, 0)`. -/
theorem last_pose_is_raw_observation_witness :
    ∃ t1, survive_imu_tracker_integrate_observation scenario_linmath 4800000
          (first_observed rest_pose (1 / 100, 1 / 100) 0) ⟨⟨1, 0, 0⟩, ⟨0, 1, 0, 0⟩⟩
          (1 / 50, 1 / 25) = some t1 ∧
      t1.last_pose.Pos.v = ⟨1, 0, 0⟩ ∧ t1.last_pose.Rot.v = ⟨0, 1, 0, 0⟩ ∧
      t1.last_pose.Pos.info.variance = 1 / 50 ∧ t1.last_pose.Rot.info.variance = 1 / 25 ∧
      t1.last_pose.Pos.info.last_update = 4800000 ∧
      t1.pose.Pos.v = ⟨210201 / 410201, 0, 0⟩ := by
  have hT := last_pose_is_raw_observation scenario_linmath 4800000
    (first_observed rest_pose (1 / 100, 1 / 100) 0) ⟨⟨1, 0, 0⟩, ⟨0, 1, 0, 0⟩⟩ (1 / 50, 1 / 25)
  obtain ⟨t1, h1⟩ := hT.2
    (by norm_num [survive_timecode_difference, first_observed])
    (by norm_num [survive_timecode_difference, first_observed])
    (by norm_num [survive_timecode_difference, first_observed, survive_imu_tracker_init])
    (by norm_num [survive_timecode_difference, first_observed, survive_imu_tracker_init])
    (Or.inr (Or.inr (by
      norm_num [norm3d_sq, add3d, scale3d, first_observed, survive_imu_tracker_init, zero3d,
        rest_pose])))
  obtain ⟨tu, hu, hpose, -⟩ := integrate_observation_some h1
  have hv : Option.map (fun t => t.pose.Pos.v) (survive_update_pose scenario_linmath
      (first_observed rest_pose (1 / 100, 1 / 100) 0) 4800000 (1 / 50, 1 / 25)
      ⟨⟨1, 0, 0⟩, ⟨0, 1, 0, 0⟩⟩) = some ⟨210201 / 410201, 0, 0⟩ := by
    norm_num [survive_update_pose, survive_update_position, survive_update_rotation,
      position_ref.update_fn, position_ref.get, position_ref.set, update_pose_pos,
      update_pose_rot, survive_imu_tracker_predict_pos, survive_imu_tracker_predict_rot,
      survive_imu_tracker_predict_velocity_pos, survive_imu_tracker_predict_velocity_rot,
      survive_update_kalman_variance, quatiszero, linmath_min, scale3d, add3d, norm3d_sq,
      time_diff_seconds, survive_timecode_difference, survive_imu_tracker_init, scenario_so,
      default_config, zero3d, first_observed, rest_pose]
  rw [hu] at hv
  obtain ⟨a, b, c, d, e⟩ := hT.1 t1 h1
  refine ⟨t1, h1, a, b, c, d, e, ?_⟩
  rw [hpose]
  simpa using hv

/-- C21 as stated fails when an assertion aborts the call: for the tracker
observed at `((1000, 0, 0); identity)` at `t = 0`, the observation of the rest
pose at `t = 4800000` is aborted by `assert(norm3d(out) < 1000)` in the
diagnostic predict, before `last_pose` is written. -/
theorem last_pose_abort_counterexample :
    survive_imu_tracker_integrate_observation scenario_linmath 0
        (survive_imu_tracker_init scenario_so) far_pose (1 / 100, 1 / 100) =
        some (first_observed far_pose (1 / 100, 1 / 100) 0) ∧
      survive_imu_tracker_integrate_observation scenario_linmath 4800000
        (first_observed far_pose (1 / 100, 1 / 100) 0) rest_pose (1 / 100, 1 / 100) = none ∧
      (first_observed far_pose (1 / 100, 1 / 100) 0).last_pose.Pos.v ≠ rest_pose.Pos := by
  refine ⟨first_observed_eq scenario_linmath far_pose (1 / 100, 1 / 100) 0 (by norm_num),
    ?_, ?_⟩
  · norm_num [survive_imu_tracker_integrate_observation, survive_imu_tracker_predict,
      survive_imu_tracker_predict_pos, survive_imu_tracker_predict_velocity_pos, linmath_min,
      scale3d, add3d, norm3d_sq, time_diff_seconds, survive_timecode_difference,
      survive_imu_tracker_init, scenario_so, default_config, zero3d, first_observed, far_pose]
  · simp [first_observed, far_pose, rest_pose]

/-! ## C22: the stamp assertion of the observation -/

theorem survive_update_position_pose_Pos_stamp {tracker t1 : SurviveIMUTracker} {timecode : ℕ}
    {R : FLT} {new_position : LinmathVec3d}
    (h : survive_update_position tracker position_ref.pose_Pos timecode R new_position = some t1) :
    t1.pose.Pos.info.last_update = timecode := by
  unfold survive_update_position at h
  simp only [position_ref.update_fn] at h
  cases h0 : update_pose_pos tracker timecode with
  | none => simp [h0] at h
  | some t0 =>
    simp only [h0, Option.some.injEq] at h
    subst h
    simp [position_ref.get, position_ref.set, kalman_last_update]

theorem survive_update_rotation_stamp {L : Linmath} {tracker t1 : SurviveIMUTracker}
    {timecode : ℕ} {R : FLT} {new_rot : LinmathQuat}
    (h : survive_update_rotation L tracker timecode R new_rot = some t1) :
    t1.pose.Rot.info.last_update = timecode ∧ t1.pose.Pos = tracker.pose.Pos := by
  unfold survive_update_rotation at h
  split at h
  · simp only [Option.some.injEq] at h
    subst h
    exact ⟨rfl, rfl⟩
  · cases h0 : update_pose_rot L tracker timecode with
    | none => simp [h0] at h
    | some t0 =>
      obtain ⟨r, rfl⟩ := update_pose_rot_some h0
      simp only [h0, Option.some.injEq] at h
      subst h
      simp [kalman_last_update]

/-- C22: for every tracker state and every observation, when `survive_update_pose`
returns (inside `survive_imu_tracker_integrate_observation` or elsewhere) both
`pose.Pos.last_update` and `pose.Rot.last_update` equal the timecode, on the
zero-quaternion copy path and on the blend path alike: the condition of
`assert(timecode == ...)` holds whenever the assertion is reached, so an
observation aborts only in the diagnostic predict, in `survive_update_pose` or
in the velocity update. -/
theorem update_pose_stamps_timecode (L : Linmath) (timecode : ℕ) (tracker tu : SurviveIMUTracker)
    (pose : SurvivePose) (R : FLT × FLT)
    (hu : survive_update_pose L tracker timecode R pose = some tu) :
    (timecode = tu.pose.Pos.info.last_update ∧ timecode = tu.pose.Rot.info.last_update) ∧
      (survive_imu_tracker_integrate_observation L timecode tracker pose R = none →
        survive_imu_tracker_predict L tracker timecode ⟨zero3d, zeroquat⟩ = none ∨
        ∃ t2 Rv vel, t2.velocity = tracker.velocity ∧
          survive_imu_tracker_integrate_velocity t2 timecode Rv vel = none) := by
  have hstamp : timecode = tu.pose.Pos.info.last_update ∧
      timecode = tu.pose.Rot.info.last_update := by
    unfold survive_update_pose at hu
    cases ha : survive_update_position tracker position_ref.pose_Pos timecode R.1 pose.Pos with
    | none => rw [ha] at hu; exact absurd hu (by simp)
    | some ta =>
      rw [ha] at hu
      have h1 := survive_update_position_pose_Pos_stamp ha
      obtain ⟨h2, h3⟩ := survive_update_rotation_stamp hu
      exact ⟨by rw [h3, h1], h2.symm⟩
  refine ⟨hstamp, ?_⟩
  intro hnone
  unfold survive_imu_tracker_integrate_observation at hnone
  cases hp : survive_imu_tracker_predict L tracker timecode ⟨zero3d, zeroquat⟩ with
  | none => exact Or.inl rfl
  | some p0 =>
    right
    rw [hp, hu] at hnone
    obtain ⟨p, hpf⟩ := survive_update_pose_frame hu
    simp only [if_pos hstamp] at hnone
    split at hnone
    · generalize hv : survive_imu_tracker_integrate_velocity _ _ _ _ = ov at hnone
      cases ov with
      | none =>
        refine ⟨_, _, _, ?_, hv⟩
        rw [hpf]
        split <;> rfl
      | some tv => exact absurd hnone (by simp)
    · exact absurd hnone (by simp)

/-- An instance of C22: the blend path, on the tracker observed at the rest
pose at `t = 0` and observed again at `t = 4800000`. -/
theorem update_pose_stamps_timecode_witness :
    ∃ tu, survive_update_pose scenario_linmath (first_observed rest_pose (1 / 100, 1 / 100) 0)
          4800000 (1 / 50, 1 / 25) ⟨⟨1, 0, 0⟩, ⟨0, 1, 0, 0⟩⟩ = some tu ∧
      4800000 = tu.pose.Pos.info.last_update ∧ 4800000 = tu.pose.Rot.info.last_update := by
  have hs : (survive_update_pose scenario_linmath (first_observed rest_pose (1 / 100, 1 / 100) 0)
      4800000 (1 / 50, 1 / 25) ⟨⟨1, 0, 0⟩, ⟨0, 1, 0, 0⟩⟩).isSome = true := by
    norm_num [survive_update_pose, survive_update_position, survive_update_rotation,
      position_ref.update_fn, position_ref.get, position_ref.set, update_pose_pos,
      update_pose_rot, survive_imu_tracker_predict_pos, survive_imu_tracker_predict_rot,
      survive_imu_tracker_predict_velocity_pos, survive_imu_tracker_predict_velocity_rot,
      survive_update_kalman_variance, quatiszero, linmath_min, scale3d, add3d, norm3d_sq,
      time_diff_seconds, survive_timecode_difference, survive_imu_tracker_init, scenario_so,
      default_config, zero3d, first_observed, rest_pose]
  obtain ⟨tu, hu⟩ := Option.isSome_iff_exists.mp hs
  exact ⟨tu, hu, (update_pose_stamps_timecode scenario_linmath 4800000
    (first_observed rest_pose (1 / 100, 1 / 100) 0) tu ⟨⟨1, 0, 0⟩, ⟨0, 1, 0, 0⟩⟩
    (1 / 50, 1 / 25) hu).1⟩

/-! ## C26: the state after `survive_imu_tracker_init` -/

/-- C26 (as amended): after `survive_imu_tracker_init`, for every object, the
two pose signals hold the negative sentinel variance `-1` and the stored
rotation is the all-zero quaternion; the two velocity signals are seeded with
the variance `1e-3` and the zero vector; every `last_update` is `0` and
`acc_bias = 1 > 0`. -/
theorem init_signal_state (so : SurviveObject) :
    (survive_imu_tracker_init so).pose.Pos.info.variance = -1 ∧
      (survive_imu_tracker_init so).pose.Rot.info.variance = -1 ∧
      (survive_imu_tracker_init so).velocity.Pos.info.variance = 1 / 1000 ∧
      (survive_imu_tracker_init so).velocity.AxisAngleRot.info.variance = 1 / 1000 ∧
      (survive_imu_tracker_init so).pose.Rot.v = zeroquat ∧
      quatiszero (survive_imu_tracker_init so).pose.Rot.v = true ∧
      (survive_imu_tracker_init so).velocity.Pos.v = zero3d ∧
      (survive_imu_tracker_init so).velocity.AxisAngleRot.v = zero3d ∧
      (survive_imu_tracker_init so).pose.Pos.info.last_update = 0 ∧
      (survive_imu_tracker_init so).pose.Rot.info.last_update = 0 ∧
      (survive_imu_tracker_init so).velocity.Pos.info.last_update = 0 ∧
      (survive_imu_tracker_init so).velocity.AxisAngleRot.info.last_update = 0 ∧
      (survive_imu_tracker_init so).acc_bias = 1 ∧
      0 < (survive_imu_tracker_init so).acc_bias := by
  refine ⟨rfl, rfl, rfl, rfl, rfl, rfl, rfl, rfl, rfl, rfl, rfl, rfl, rfl, ?_⟩
  show (0 : FLT) < 1
  norm_num

/-- C26 as stated fails for the velocity signals: after
`survive_imu_tracker_init` of the scenario object, `velocity.Pos` and
`velocity.AxisAngleRot` hold the variance `1e-3`, which is not negative,
although no measurement has initialised them. -/
theorem init_velocity_variance_counterexample :
    (survive_imu_tracker_init scenario_so).velocity.Pos.info.variance = 1 / 1000 ∧
      ¬ (survive_imu_tracker_init scenario_so).velocity.Pos.info.variance < 0 ∧
      (survive_imu_tracker_init scenario_so).velocity.AxisAngleRot.info.variance = 1 / 1000 ∧
      ¬ (survive_imu_tracker_init scenario_so).velocity.AxisAngleRot.info.variance < 0 := by
  refine ⟨rfl, ?_, rfl, ?_⟩
  · show ¬ ((1 / 1000 : FLT) < 0)
    norm_num
  · show ¬ ((1 / 1000 : FLT) < 0)
    norm_num

/-! ## C29: `survive_imu_tracker_update` at a fixed timecode -/

/-- The position predictor at the timecode of an update it has just made
returns what that update stored. -/
theorem predict_pos_after_update (tracker : SurviveIMUTracker) (timecode : ℕ)
    (r : FLT × LinmathVec3d) (pr : kalman_info_rotation_t)
    (h : survive_imu_tracker_predict_pos tracker timecode tracker.pose.Pos.v = some r) :
    survive_imu_tracker_predict_pos
      { tracker with
        pose := { Pos := { v := r.2,
                           info := { tracker.pose.Pos.info with
                             variance := r.1, last_update := timecode } },
                  Rot := pr } } timecode r.2 = some r := by
  have hadd : add3d (scale3d tracker.velocity.Pos.v 0) r.2 = r.2 := by
    simp [add3d, scale3d]
  unfold survive_imu_tracker_predict_pos at h ⊢
  simp only [time_diff_seconds_self, linmath_min_zero, zero_mul, add_zero,
    survive_imu_tracker_predict_velocity_pos, hadd] at h ⊢
  by_cases h1 : r.1 < 0
  · rw [if_pos h1]
  · rw [if_neg h1]
    by_cases h2 : tracker.velocity.Pos.info.variance +
        time_diff_seconds tracker.so timecode tracker.velocity.Pos.info.last_update *
          tracker.velocity.Pos.info.variance_per_second > 10
    · rw [if_pos h2]
    · rw [if_neg h2]
      by_cases h0 : tracker.pose.Pos.info.variance < 0
      · rw [if_pos h0] at h
        obtain rfl := Option.some.inj h
        exact absurd h0 h1
      · rw [if_neg h0, if_neg h2] at h
        split at h
        · rename_i hn
          obtain rfl := Option.some.inj h
          simp only at hn ⊢
          rw [if_pos hn]
        · exact absurd h (by simp)

theorem update_pose_pos_result {tracker t1 : SurviveIMUTracker} {timecode : ℕ}
    (h : update_pose_pos tracker timecode = some t1) :
    ∃ r : FLT × LinmathVec3d,
      survive_imu_tracker_predict_pos tracker timecode tracker.pose.Pos.v = some r ∧
      t1 = { tracker with
        pose := { Pos := { v := r.2,
                           info := { tracker.pose.Pos.info with
                             variance := r.1, last_update := timecode } },
                  Rot := tracker.pose.Rot } } := by
  unfold update_pose_pos at h
  cases hp : survive_imu_tracker_predict_pos tracker timecode tracker.pose.Pos.v with
  | none => simp [hp] at h
  | some r =>
    simp only [hp] at h
    split at h
    · exact ⟨r, rfl, by simpa using h.symm⟩
    · exact absurd h (by simp)

/-- The variance the rotation predictor returns at the signal's own
`last_update` is the stored variance. -/
theorem predict_rot_variance_at_last_update (L : Linmath) (tracker : SurviveIMUTracker)
    (out : LinmathQuat) :
    (survive_imu_tracker_predict_rot L tracker tracker.pose.Rot.info.last_update out).1 =
      tracker.pose.Rot.info.variance := by
  unfold survive_imu_tracker_predict_rot
  simp only [time_diff_seconds_self, linmath_min_zero, zero_mul, add_zero]
  split
  · rfl
  · split <;> rfl

/-- An update at the timecode of the pose signals, on a tracker whose position
the position update keeps, can only change the rotation value. -/
theorem update_of_fixed_pos (L : Linmath) (T : SurviveIMUTracker) (timecode : ℕ)
    (hpos : update_pose_pos T timecode = some T)
    (hR : T.pose.Rot.info.last_update = timecode) :
    ∃ qv, survive_imu_tracker_update L T timecode =
        some ({ T with pose := { T.pose with Rot := { T.pose.Rot with v := qv } } },
          ⟨T.pose.Pos.v, qv⟩) ∧
      (L.survive_apply_ang_velocity T.velocity.AxisAngleRot.v 0 T.pose.Rot.v = T.pose.Rot.v →
        qv = T.pose.Rot.v) := by
  subst hR
  refine ⟨(survive_imu_tracker_predict_rot L T T.pose.Rot.info.last_update T.pose.Rot.v).2,
    ?_, ?_⟩
  · unfold survive_imu_tracker_update
    rw [hpos]
    simp only [update_pose_rot, survive_timecode_difference_self]
    rw [predict_rot_variance_at_last_update]
    simp
  · intro happly
    rw [predict_rot_at_last_update L T happly]

/-- C29: for every tracker and timecode on which `survive_imu_tracker_update`
completes, the call has written the returned position into the stored pose,
and a second call at the same timecode completes too, returns the same
position and leaves the same tracker state but possibly the rotation value:
`pose.Pos` (value, variance, `last_update`), both `last_update` stamps and the
rotation variance are those of the first call, since the second call sees zero
elapsed time. Where `survive_apply_ang_velocity` keeps a quaternion over zero
elapsed time, the second call changes nothing and returns the same pose. -/
theorem update_idempotent_at_timecode (L : Linmath) (tracker t1 : SurviveIMUTracker)
    (timecode : ℕ) (p1 : SurvivePose)
    (h : survive_imu_tracker_update L tracker timecode = some (t1, p1)) :
    p1.Pos = t1.pose.Pos.v ∧ t1.pose.Pos.info.last_update = timecode ∧
      t1.pose.Rot.info.last_update = timecode ∧
      ∃ t2 p2, survive_imu_tracker_update L t1 timecode = some (t2, p2) ∧
        p2.Pos = p1.Pos ∧ t2.pose.Pos = t1.pose.Pos ∧ t2.pose.Rot.info = t1.pose.Rot.info ∧
        t2 = { t1 with pose := { t1.pose with Rot := { t1.pose.Rot with v := t2.pose.Rot.v } } } ∧
        (L.survive_apply_ang_velocity t1.velocity.AxisAngleRot.v 0 t1.pose.Rot.v = t1.pose.Rot.v →
          t2 = t1 ∧ p2 = p1) := by
  unfold survive_imu_tracker_update at h
  cases ha : update_pose_pos tracker timecode with
  | none => rw [ha] at h; exact absurd h (by simp)
  | some ta =>
    rw [ha] at h
    simp only at h
    cases hb : update_pose_rot L ta timecode with
    | none => rw [hb] at h; exact absurd h (by simp)
    | some tb =>
      rw [hb] at h
      simp only [Option.some.injEq, Prod.mk.injEq] at h
      obtain ⟨rfl, rfl⟩ := h
      obtain ⟨r, hr, rfl⟩ := update_pose_pos_result ha
      obtain ⟨q, rfl⟩ := update_pose_rot_some hb
      have h1 : update_pose_pos
          { tracker with
            pose := { Pos := { v := r.2,
                               info := { tracker.pose.Pos.info with
                                 variance := r.1, last_update := timecode } },
                      Rot := { v := q.2,
                               info := { tracker.pose.Rot.info with
                                 variance := q.1, last_update := timecode } } } } timecode =
          some { tracker with
            pose := { Pos := { v := r.2,
                               info := { tracker.pose.Pos.info with
                                 variance := r.1, last_update := timecode } },
                      Rot := { v := q.2,
                               info := { tracker.pose.Rot.info with
                                 variance := q.1, last_update := timecode } } } } := by
        unfold update_pose_pos
        simp only [survive_timecode_difference_self]
        rw [predict_pos_after_update tracker timecode r _ hr]
        simp
      obtain ⟨qv, h2, hlaw⟩ := update_of_fixed_pos L _ timecode h1 rfl
      refine ⟨rfl, rfl, rfl, _, _, h2, rfl, rfl, rfl, rfl, ?_⟩
      intro happly
      have hq := hlaw happly
      simp only at hq
      subst hq
      exact ⟨rfl, rfl⟩

/-- An instance of C29: the tracker observed at the rest pose at `t = 0` is
updated twice at `t = 4800000`; both calls complete, the second returns the
position of the first and leaves `pose.Pos` as the first left it. -/
theorem update_idempotent_at_timecode_witness :
    ∃ t1 p1, survive_imu_tracker_update scenario_linmath
          (first_observed rest_pose (1 / 100, 1 / 100) 0) 4800000 = some (t1, p1) ∧
      p1.Pos = t1.pose.Pos.v ∧ t1.pose.Pos.info.last_update = 4800000 ∧
      t1.pose.Rot.info.last_update = 4800000 ∧
      ∃ t2 p2, survive_imu_tracker_update scenario_linmath t1 4800000 = some (t2, p2) ∧
        p2.Pos = p1.Pos ∧ t2.pose.Pos = t1.pose.Pos ∧ t2.pose.Rot.info = t1.pose.Rot.info := by
  have hs : (survive_imu_tracker_update scenario_linmath
      (first_observed rest_pose (1 / 100, 1 / 100) 0) 4800000).isSome = true := by
    norm_num [survive_imu_tracker_update, update_pose_pos, update_pose_rot,
      survive_imu_tracker_predict_pos, survive_imu_tracker_predict_velocity_pos,
      survive_imu_tracker_predict_rot, survive_imu_tracker_predict_velocity_rot, quatiszero,
      linmath_min, scale3d, add3d, norm3d_sq, time_diff_seconds, survive_timecode_difference,
      survive_imu_tracker_init, scenario_so, default_config, zero3d, first_observed, rest_pose]
  obtain ⟨⟨t1, p1⟩, h⟩ := Option.isSome_iff_exists.mp hs
  obtain ⟨a, b, c, t2, p2, h2, d, e, f, -, -⟩ := update_idempotent_at_timecode scenario_linmath
    (first_observed rest_pose (1 / 100, 1 / 100) 0) t1 4800000 p1 h
  exact ⟨t1, p1, h, a, b, c, t2, p2, h2, d, e, f⟩

/-! ## C28: the integrated acceleration -/

/-- The specification's update of a vector signal with the measurement
`v + dv`, under a non-negative prior variance and a positive measurement
variance: the value advances by `w * dv` with `w = v_prior / (v_prior + R)`,
and `0 <= w < 1`. -/
theorem spec_kalman_update_increment (so : SurviveObject) (s : kalman_info_position_t)
    (timecode : ℕ) (R : FLT) (dv : LinmathVec3d)
    (hv : 0 ≤ spec_v_prior so s.info timecode) (hR : 0 < R) :
    (spec_kalman_update so s timecode R (add3d s.v dv)).v =
        add3d s.v (scale3d dv (spec_v_prior so s.info timecode /
          (spec_v_prior so s.info timecode + R))) ∧
      0 ≤ spec_v_prior so s.info timecode / (spec_v_prior so s.info timecode + R) ∧
      spec_v_prior so s.info timecode / (spec_v_prior so s.info timecode + R) < 1 := by
  have hpos : 0 < spec_v_prior so s.info timecode + R := by linarith
  refine ⟨?_, div_nonneg hv (le_of_lt hpos), ?_⟩
  · unfold spec_kalman_update
    rw [if_neg (not_lt.mpr hv)]
    simp only [spec_weight, if_neg (ne_of_gt hpos), spec_blend3d, add3d, scale3d,
      LinmathVec3d.mk.injEq]
    refine ⟨?_, ?_, ?_⟩ <;> ring
  · rw [div_lt_one hpos]
    linarith

/-- C28 (as amended): for every tracker past warm-up with `acc_var > 0` and
every sample, with `ta` the tracker after the orientation step (the tracker
itself when Mahony is disabled), `a_world = RotateAccel(ta.pose.Rot,
accel * acc_bias)`, `dt` the seconds since `last_data.timecode`,
`dv = 1/2 * dt * (a_world + last_acc)`, `v_prior` the time-decayed variance of
`velocity.Pos` and `R_pos = ta.pose.Rot.var + velocity.Pos.var + acc_var`: a
call that completes stores `a_world` in `last_acc`, and when the velocity
variance, its rate, the time since the velocity's `last_update` and
`ta.pose.Rot.var` are non-negative, the stored linear velocity is
`v_old + w * dv` with `w = v_prior / (v_prior + R_pos)` and `0 <= w < 1`; the
call completes when the gap to the cached sample is below 10 s and the timecode
assertions pass. -/
theorem imu_acceleration_partially_applied (L : Linmath) (tracker : SurviveIMUTracker)
    (data : PoserDataIMU)
    (hwarm : ¬ (tracker.last_data.datamask = 0 ∨ tracker.pose.Rot.info.variance < 0 ∨
      tracker.pose.Pos.info.variance < 0))
    (hacc : 0 < tracker.acc_var) :
    (∀ t4, survive_imu_tracker_integrate_imu L tracker data = some t4 →
      ∃ ta, integrate_imu_mahony L tracker data = some ta ∧
        (tracker.mahony_variance < 0 → ta = tracker) ∧
        t4.last_acc = RotateAccel L ta.pose.Rot.v (scale3d data.accel tracker.acc_bias) ∧
        (0 ≤ tracker.velocity.Pos.info.variance →
          0 ≤ tracker.velocity.Pos.info.variance_per_second →
          0 ≤ time_diff_seconds tracker.so data.timecode
            tracker.velocity.Pos.info.last_update →
          0 ≤ ta.pose.Rot.info.variance →
          t4.velocity.Pos.v =
              add3d tracker.velocity.Pos.v
                (scale3d
                  (scale3d
                    (add3d (RotateAccel L ta.pose.Rot.v (scale3d data.accel tracker.acc_bias))
                      tracker.last_acc)
                    (1 / 2 * time_diff_seconds tracker.so data.timecode
                      tracker.last_data.timecode))
                  (spec_v_prior tracker.so tracker.velocity.Pos.info data.timecode /
                    (spec_v_prior tracker.so tracker.velocity.Pos.info data.timecode +
                      (ta.pose.Rot.info.variance + tracker.velocity.Pos.info.variance +
                        tracker.acc_var)))) ∧
            0 ≤ spec_v_prior tracker.so tracker.velocity.Pos.info data.timecode /
              (spec_v_prior tracker.so tracker.velocity.Pos.info data.timecode +
                (ta.pose.Rot.info.variance + tracker.velocity.Pos.info.variance +
                  tracker.acc_var)) ∧
            spec_v_prior tracker.so tracker.velocity.Pos.info data.timecode /
              (spec_v_prior tracker.so tracker.velocity.Pos.info data.timecode +
                (ta.pose.Rot.info.variance + tracker.velocity.Pos.info.variance +
                  tracker.acc_var)) < 1)) ∧
      (time_diff_seconds tracker.so data.timecode tracker.last_data.timecode < 10 →
        (tracker.mahony_variance < 0 ∨
          survive_timecode_difference data.timecode tracker.pose.Rot.info.last_update
            < 2147483647) →
        survive_timecode_difference data.timecode tracker.velocity.Pos.info.last_update
          < 2147483647 →
        survive_timecode_difference data.timecode
          tracker.velocity.AxisAngleRot.info.last_update < 2147483647 →
        ∃ t4, survive_imu_tracker_integrate_imu L tracker data = some t4) := by
  constructor
  · intro t4 h
    obtain ⟨ta, tb, tc, h1, h2, h3, rfl⟩ := integrate_imu_some hwarm h
    have hf := integrate_imu_mahony_frame h1
    have hso : ta.so = tracker.so := by rw [hf]
    have hld : ta.last_data = tracker.last_data := by rw [hf]
    have hvel : ta.velocity = tracker.velocity := by rw [hf]
    have hla : ta.last_acc = tracker.last_acc := by rw [hf]
    have hav : ta.acc_var = tracker.acc_var := by rw [hf]
    have hbi : ta.acc_bias = tracker.acc_bias := by rw [hf]
    obtain ⟨-, hb⟩ := integrate_imu_time_gap_some h2
    have hvb : tb.velocity = tracker.velocity := by
      rw [hb]
      split <;> simpa [sv_warn] using hvel
    have hlb : tb.last_acc = tracker.last_acc := by
      rw [hb]
      split <;> simpa [sv_warn] using hla
    have hab : tb.acc_var = tracker.acc_var := by
      rw [hb]
      split <;> simpa [sv_warn] using hav
    have hbb : tb.acc_bias = tracker.acc_bias := by
      rw [hb]
      split <;> simpa [sv_warn] using hbi
    have hpb : tb.pose = ta.pose := by
      rw [hb]
      split <;> rfl
    have hsb : ∀ s tc2 R m, spec_kalman_update tb.so s tc2 R m =
        spec_kalman_update tracker.so s tc2 R m := by
      intro s tc2 R m
      rw [hb]
      split
      · rw [spec_kalman_update_sv_warn, hso]
      · rw [hso]
    have h4 := integrate_imu_velocity_some h3
    rw [if_pos (by rw [hab]; exact hacc)] at h4
    refine ⟨ta, h1, ?_, ?_, ?_⟩
    · intro hm
      rw [integrate_imu_mahony_disabled L tracker data hm] at h1
      exact (Option.some.inj h1).symm
    · show tc.last_acc = _
      rw [h4, hpb, hbb]
    · intro hvar hrate hdt hrot
      have hprior : 0 ≤ spec_v_prior tracker.so tracker.velocity.Pos.info data.timecode := by
        unfold spec_v_prior
        exact add_nonneg hvar (mul_nonneg hrate hdt)
      have hR : 0 < ta.pose.Rot.info.variance + tracker.velocity.Pos.info.variance +
          tracker.acc_var := by linarith
      have hinc := spec_kalman_update_increment tracker.so tracker.velocity.Pos data.timecode
        (ta.pose.Rot.info.variance + tracker.velocity.Pos.info.variance + tracker.acc_var)
        (scale3d (add3d (RotateAccel L ta.pose.Rot.v (scale3d data.accel tracker.acc_bias))
          tracker.last_acc)
          (1 / 2 * time_diff_seconds tracker.so data.timecode tracker.last_data.timecode))
        hprior hR
      refine ⟨?_, hinc.2.1, hinc.2.2⟩
      show tc.velocity.Pos.v = _
      rw [h4]
      simp only [hsb, hvb, hpb, hbb, hlb, hvel, hav, hso, hld]
      exact hinc.1
  · intro hlt hR hVP hVR
    obtain ⟨ta, h1⟩ := integrate_imu_mahony_completes L tracker data hR
    have hf := integrate_imu_mahony_frame h1
    have hso : ta.so = tracker.so := by rw [hf]
    have hld : ta.last_data = tracker.last_data := by rw [hf]
    have hvel : ta.velocity = tracker.velocity := by rw [hf]
    have h2 : ∃ tb, integrate_imu_time_gap ta
        (time_diff_seconds ta.so data.timecode ta.last_data.timecode) = some tb ∧
        tb.velocity = tracker.velocity := by
      rw [hso, hld]
      unfold integrate_imu_time_gap
      by_cases hgt : time_diff_seconds tracker.so data.timecode tracker.last_data.timecode > 1
      · rw [if_pos hgt, if_pos hlt]
        exact ⟨_, rfl, hvel⟩
      · rw [if_neg hgt]
        exact ⟨_, rfl, hvel⟩
    obtain ⟨tb, h2, hvb⟩ := h2
    obtain ⟨tc, h3⟩ := integrate_imu_velocity_completes L tb data
      (L.quatrotatevector ta.pose.Rot.v data.gyro)
      (ta.pose.Rot.info.variance + ta.velocity.Pos.info.variance + ta.acc_var,
        ta.pose.Rot.info.variance + ta.gyro_var)
      (time_diff_seconds ta.so data.timecode ta.last_data.timecode)
      (by rw [hvb]; exact hVP) (by rw [hvb]; exact hVR)
    refine ⟨{ tc with last_data := data }, ?_⟩
    unfold survive_imu_tracker_integrate_imu
    rw [if_neg hwarm, h1]
    simp only [h2, h3]

/-- An instance of C28 (as amended): the default configuration, a tracker past
warm-up at rest, a sample with `accel = (0,0,2)` one millisecond after the
cached one: `a_world = (0,0,9.8066)`, `dv = (0,0,0.0049033)`, `v_prior = 0.002`,
`R_pos = 0.111`, `w = 2/113`; the stored velocity advances by `w * dv` only. -/
theorem imu_acceleration_partially_applied_witness :
    0 < warm_tracker.acc_var ∧
      ∃ t4, survive_imu_tracker_integrate_imu scenario_linmath warm_tracker
            ⟨1, ⟨0, 0, 2⟩, ⟨0, 0, 0⟩, 48000⟩ = some t4 ∧
        t4.last_acc = ⟨0, 0, 49033 / 5000⟩ ∧
        t4.velocity.Pos.v = ⟨0, 0, 49033 / 565000000⟩ := by
  have hw : ¬ (warm_tracker.last_data.datamask = 0 ∨ warm_tracker.pose.Rot.info.variance < 0 ∨
      warm_tracker.pose.Pos.info.variance < 0) := by
    norm_num [warm_tracker, first_observed]
  have hacc : 0 < warm_tracker.acc_var := by
    norm_num [warm_tracker, first_observed, survive_imu_tracker_init, scenario_so,
      default_config]
  have hm : warm_tracker.mahony_variance < 0 := by
    norm_num [warm_tracker, first_observed, survive_imu_tracker_init, scenario_so,
      default_config]
  have hT := imu_acceleration_partially_applied scenario_linmath warm_tracker
    ⟨1, ⟨0, 0, 2⟩, ⟨0, 0, 0⟩, 48000⟩ hw hacc
  obtain ⟨t4, h4⟩ := hT.2
    (by norm_num [time_diff_seconds, survive_timecode_difference, warm_tracker,
      first_observed, survive_imu_tracker_init, scenario_so])
    (Or.inl hm)
    (by norm_num [survive_timecode_difference, warm_tracker, first_observed,
      survive_imu_tracker_init])
    (by norm_num [survive_timecode_difference, warm_tracker, first_observed,
      survive_imu_tracker_init])
  obtain ⟨ta, -, hta, hl, hv⟩ := hT.1 t4 h4
  obtain rfl := hta hm
  refine ⟨hacc, t4, h4, ?_, ?_⟩
  · rw [hl]
    norm_num [RotateAccel, scale3d, add3d, scenario_linmath, warm_tracker, first_observed,
      survive_imu_tracker_init, rest_pose]
  · rw [(hv
      (by norm_num [warm_tracker, first_observed, survive_imu_tracker_init])
      (by norm_num [warm_tracker, first_observed, survive_imu_tracker_init, scenario_so,
        default_config])
      (by norm_num [time_diff_seconds, survive_timecode_difference, warm_tracker,
        first_observed, survive_imu_tracker_init, scenario_so])
      (by norm_num [warm_tracker, first_observed])).1]
    norm_num [spec_v_prior, RotateAccel, scale3d, add3d, time_diff_seconds,
      survive_timecode_difference, scenario_linmath, warm_tracker, first_observed,
      survive_imu_tracker_init, scenario_so, default_config, rest_pose, zero3d]

/-- C28 as stated fails when an assertion aborts the call: the tracker is past
warm-up in the acceleration branch, with non-negative variances and rates, the
sample arrives 15 s after the cached one, and `assert(time_diff < 10)` ends
the call before the velocity and `last_acc` are written. -/
theorem imu_acceleration_abort_counterexample :
    ¬ (warm_tracker.last_data.datamask = 0 ∨ warm_tracker.pose.Rot.info.variance < 0 ∨
        warm_tracker.pose.Pos.info.variance < 0) ∧
      0 < warm_tracker.acc_var ∧ 0 ≤ warm_tracker.velocity.Pos.info.variance ∧
      0 ≤ warm_tracker.velocity.Pos.info.variance_per_second ∧
      time_diff_seconds warm_tracker.so 720000000 warm_tracker.last_data.timecode = 15 ∧
      survive_imu_tracker_integrate_imu scenario_linmath warm_tracker
        ⟨1, ⟨0, 0, 2⟩, ⟨0, 0, 0⟩, 720000000⟩ = none := by
  refine ⟨?_, ?_, ?_, ?_, ?_, ?_⟩
  · norm_num [warm_tracker, first_observed]
  · norm_num [warm_tracker, first_observed, survive_imu_tracker_init, scenario_so,
      default_config]
  · norm_num [warm_tracker, first_observed, survive_imu_tracker_init]
  · norm_num [warm_tracker, first_observed, survive_imu_tracker_init, scenario_so,
      default_config]
  · norm_num [time_diff_seconds, survive_timecode_difference, warm_tracker, first_observed,
      survive_imu_tracker_init, scenario_so]
  · norm_num [survive_imu_tracker_integrate_imu, integrate_imu_mahony, integrate_imu_time_gap,
      time_diff_seconds, survive_timecode_difference, survive_imu_tracker_init, scenario_so,
      default_config, warm_tracker, first_observed, rest_pose]

/-! ## The Mahony step in closed form -/

/-- The quaternion `mahony_ahrs` writes: the locals `v`, `gyro` and `correction`
put together. -/
theorem mahony_ahrs_snd (L : Linmath) (tracker : SurviveIMUTracker) (q : LinmathQuat)
    (gyro accel : LinmathVec3d) :
    (mahony_ahrs L tracker q gyro accel).2 =
      L.quatnormalize (quatadd q (mahony_correction q
        (scale3d (mahony_rate L q gyro accel) ((1 / 2) / (tracker.so.imu_freq : FLT))))) := by
  unfold mahony_ahrs mahony_rate mahony_correction mahony_v
  by_cases hm : L.magnitude3d accel ≠ 0
  · simp only [hm, if_true, gt_iff_lt, lt_self_iff_false, if_false, ne_eq, not_false_eq_true]
  · simp only [hm, if_false, ne_eq, not_false_eq_true]

/-! ## C23: the predicted gravity direction -/

/-- C23 (as amended): for every quaternion `q`, the predicted gravity vector
`v` that `mahony_ahrs` computes and feeds into its error term is
`(q_x q_z - q_w q_y, q_w q_x + q_y q_z, q_w^2 - 1/2 + q_z^2)`, without a factor
`2` on the first two components; for a unit `q` it is half the world `z` axis
seen in the body frame, all three components alike. -/
theorem mahony_gravity_half_vector (L : Linmath) (tracker : SurviveIMUTracker) (q : LinmathQuat)
    (gyro accel : LinmathVec3d) :
    (mahony_ahrs L tracker q gyro accel).2 =
        L.quatnormalize (quatadd q (mahony_correction q
          (scale3d
            (if L.magnitude3d accel ≠ 0 then
              add3d gyro (scale3d (cross3d (scale3d accel (1 / L.magnitude3d accel))
                (mahony_v q)) (1 / 2 * 2))
            else gyro)
            ((1 / 2) / (tracker.so.imu_freq : FLT))))) ∧
      mahony_v q =
        ⟨q.x * q.z - q.w * q.y, q.w * q.x + q.y * q.z, q.w * q.w - 1 / 2 + q.z * q.z⟩ ∧
      (quat_norm_sq q = 1 → scale3d (mahony_v q) 2 = body_gravity q) := by
  refine ⟨mahony_ahrs_snd L tracker q gyro accel, rfl, ?_⟩
  intro hq
  have h1 : q.w * q.w + q.x * q.x + q.y * q.y + q.z * q.z = 1 := hq
  simp only [scale3d, mahony_v, body_gravity, LinmathVec3d.mk.injEq]
  refine ⟨by ring, by ring, ?_⟩
  linear_combination h1

/-- An instance of C23 (as amended): the unit quaternion `(1/2, 1/2, 1/2, 1/2)`
has `v = (0, 1/2, 0)`, half of the body-frame gravity `(0, 1, 0)`. -/
theorem mahony_gravity_half_vector_witness :
    quat_norm_sq ⟨1 / 2, 1 / 2, 1 / 2, 1 / 2⟩ = 1 ∧
      mahony_v ⟨1 / 2, 1 / 2, 1 / 2, 1 / 2⟩ = ⟨0, 1 / 2, 0⟩ ∧
      scale3d (mahony_v ⟨1 / 2, 1 / 2, 1 / 2, 1 / 2⟩) 2 =
        body_gravity ⟨1 / 2, 1 / 2, 1 / 2, 1 / 2⟩ := by
  have hq : quat_norm_sq ⟨1 / 2, 1 / 2, 1 / 2, 1 / 2⟩ = 1 := by
    norm_num [quat_norm_sq, quat_dot]
  refine ⟨hq, by norm_num [mahony_v], ?_⟩
  exact (mahony_gravity_half_vector scenario_linmath warm_tracker ⟨1 / 2, 1 / 2, 1 / 2, 1 / 2⟩
    zero3d ⟨0, 0, 1⟩).2.2 hq

/-- C23 as stated fails: at the unit quaternion `(1/2, 1/2, 1/2, 1/2)` the
source computes `v = (0, 1/2, 0)` where the closed form of the claim gives
`(0, 1, 0)`; with `accel = (0,0,1)` and `gyro = 0` the corrected rate is
`accel x v = (-1/2, 0, 0)`, not `(-1, 0, 0)`, and at 1 kHz the quaternion
written is `(4001, 3999, 3999, 4001) / 8000` before normalisation. -/
theorem mahony_gravity_closed_form_counterexample :
    mahony_v ⟨1 / 2, 1 / 2, 1 / 2, 1 / 2⟩ = ⟨0, 1 / 2, 0⟩ ∧
      spec_gravity_closed_form ⟨1 / 2, 1 / 2, 1 / 2, 1 / 2⟩ = ⟨0, 1, 0⟩ ∧
      mahony_v ⟨1 / 2, 1 / 2, 1 / 2, 1 / 2⟩ ≠
        spec_gravity_closed_form ⟨1 / 2, 1 / 2, 1 / 2, 1 / 2⟩ ∧
      mahony_rate scenario_linmath ⟨1 / 2, 1 / 2, 1 / 2, 1 / 2⟩ zero3d ⟨0, 0, 1⟩ =
        ⟨-1 / 2, 0, 0⟩ ∧
      cross3d ⟨0, 0, 1⟩ (spec_gravity_closed_form ⟨1 / 2, 1 / 2, 1 / 2, 1 / 2⟩) = ⟨-1, 0, 0⟩ ∧
      (mahony_ahrs scenario_linmath warm_tracker ⟨1 / 2, 1 / 2, 1 / 2, 1 / 2⟩ zero3d
        ⟨0, 0, 1⟩).2 = ⟨4001 / 8000, 3999 / 8000, 3999 / 8000, 4001 / 8000⟩ := by
  refine ⟨by norm_num [mahony_v], by norm_num [spec_gravity_closed_form], ?_, ?_, ?_, ?_⟩
  · norm_num [mahony_v, spec_gravity_closed_form]
  · norm_num [mahony_rate, mahony_v, cross3d, scale3d, add3d, zero3d, scenario_linmath]
  · norm_num [spec_gravity_closed_form, cross3d]
  · norm_num [mahony_ahrs, cross3d, scale3d, add3d, zero3d, quatadd, scenario_linmath,
      warm_tracker, first_observed, survive_imu_tracker_init, scenario_so]

/-! ## C24: the Mahony fixed point -/

theorem cross3d_parallel (v : LinmathVec3d) (c k : FLT) :
    cross3d (scale3d (scale3d v c) k) v = zero3d := by
  simp only [cross3d, scale3d, zero3d, LinmathVec3d.mk.injEq]
  refine ⟨by ring, by ring, by ring⟩

theorem mahony_rate_parallel (L : Linmath) (q : LinmathQuat) (c : FLT) :
    mahony_rate L q zero3d (scale3d (mahony_v q) c) = zero3d := by
  unfold mahony_rate
  split
  · rw [cross3d_parallel]
    simp [add3d, scale3d, zero3d]
  · rfl

theorem mahony_ahrs_parallel (L : Linmath) (tracker : SurviveIMUTracker) (q : LinmathQuat)
    (c : FLT) (hn : L.quatnormalize q = q) :
    (mahony_ahrs L tracker q zero3d (scale3d (mahony_v q) c)).2 = q := by
  rw [mahony_ahrs_snd, mahony_rate_parallel]
  have h0 : quatadd q (mahony_correction q
      (scale3d zero3d ((1 / 2) / (tracker.so.imu_freq : FLT)))) = q := by
    simp [quatadd, mahony_correction, scale3d, zero3d]
  rw [h0, hn]

/-- C24: for every unit quaternion `q`, with a `quatnormalize` that returns a
unit quaternion unchanged, if `gyro = 0` and the accelerometer reading is a
multiple `c * v` of the predicted gravity vector `v` of `q` (positive or not),
then the error `a x v` is zero for the normalised reading, the corrected rate
is zero and `mahony_ahrs` returns `q` unchanged and leaves the tracker as it
was; in particular from `q = identity` with `accel = (0,0,1)` the filter
returns the identity however many times it is applied, and (scenario S3) a
tracker at rest with `acc_bias = 1`, whatever its `mahony_variance`, keeps the
identity orientation after every sample of a completed run of such samples. -/
theorem mahony_fixed_point (L : Linmath) (tracker : SurviveIMUTracker) (q : LinmathQuat)
    (c : FLT) (hlaw : ∀ p, quat_norm_sq p = 1 → L.quatnormalize p = p)
    (hq : quat_norm_sq q = 1) :
    (∀ k, cross3d (scale3d (scale3d (mahony_v q) c) k) (mahony_v q) = zero3d) ∧
      mahony_rate L q zero3d (scale3d (mahony_v q) c) = zero3d ∧
      mahony_ahrs L tracker q zero3d (scale3d (mahony_v q) c) = (tracker, q) ∧
      (∀ n : ℕ, Nat.iterate (fun p => (mahony_ahrs L tracker p zero3d ⟨0, 0, 1⟩).2) n
        ⟨1, 0, 0, 0⟩ = ⟨1, 0, 0, 0⟩) ∧
      (identity_laws L →
        ∀ (tr : SurviveIMUTracker) (samples : List PoserDataIMU), at_rest tr →
          tr.acc_bias = 1 → (∀ d ∈ samples, d.accel = ⟨0, 0, 1⟩ ∧ d.gyro = zero3d) →
          ∀ (n : ℕ) (t1 : SurviveIMUTracker),
            integrate_imu_samples L tr (samples.take n) = some t1 →
            t1.pose.Rot.v = ⟨1, 0, 0, 0⟩) := by
  have hid : (mahony_ahrs L tracker ⟨1, 0, 0, 0⟩ zero3d ⟨0, 0, 1⟩).2 = ⟨1, 0, 0, 0⟩ := by
    have h2 : scale3d (mahony_v ⟨1, 0, 0, 0⟩) 2 = ⟨0, 0, 1⟩ := by
      norm_num [scale3d, mahony_v]
    have h3 := mahony_ahrs_parallel L tracker ⟨1, 0, 0, 0⟩ 2
      (hlaw _ (by norm_num [quat_norm_sq, quat_dot]))
    rw [h2] at h3
    exact h3
  refine ⟨fun k => cross3d_parallel _ c k, mahony_rate_parallel L q c, ?_, ?_, ?_⟩
  · refine Prod.ext (mahony_ahrs_fst L tracker q _ _) ?_
    exact mahony_ahrs_parallel L tracker q c (hlaw q hq)
  · intro n
    induction n with
    | zero => rfl
    | succ n ih =>
      rw [Function.iterate_succ_apply', ih]
      exact hid
  · intro hL tr samples hrest hb hs n t1 h
    have hb0 : tr.acc_bias ≠ 0 := by rw [hb]; norm_num
    have hr := integrate_imu_samples_rest L hL (samples.take n) tr t1 hrest hb0
      (fun d hd => by
        obtain ⟨ha, hg⟩ := hs d (List.mem_of_mem_take hd)
        refine ⟨?_, hg⟩
        rw [ha, hb]
        norm_num) h
    exact hr.1

/-- An instance of C24: the identity with `accel = 2 * v = (0,0,1)`, and
scenario S3 on two samples one millisecond apart with `mahony_variance = 0.01`;
both calls complete and the orientation is still the identity. -/
theorem mahony_fixed_point_witness :
    quat_norm_sq ⟨1, 0, 0, 0⟩ = 1 ∧
      scale3d (mahony_v ⟨1, 0, 0, 0⟩) 2 = ⟨0, 0, 1⟩ ∧
      (mahony_ahrs scenario_linmath warm_tracker ⟨1, 0, 0, 0⟩ zero3d
        (scale3d (mahony_v ⟨1, 0, 0, 0⟩) 2)).2 = ⟨1, 0, 0, 0⟩ ∧
      ∃ t1, integrate_imu_samples scenario_linmath
          { warm_tracker with mahony_variance := 1 / 100 }
          [⟨1, ⟨0, 0, 1⟩, ⟨0, 0, 0⟩, 48000⟩, ⟨1, ⟨0, 0, 1⟩, ⟨0, 0, 0⟩, 96000⟩] = some t1 ∧
        t1.pose.Rot.v = ⟨1, 0, 0, 0⟩ := by
  have hq : quat_norm_sq ⟨1, 0, 0, 0⟩ = 1 := by norm_num [quat_norm_sq, quat_dot]
  have hT := mahony_fixed_point scenario_linmath warm_tracker ⟨1, 0, 0, 0⟩ 2
    (fun p _ => rfl) hq
  have hs : (integrate_imu_samples scenario_linmath
      { warm_tracker with mahony_variance := 1 / 100 }
      [⟨1, ⟨0, 0, 1⟩, ⟨0, 0, 0⟩, 48000⟩, ⟨1, ⟨0, 0, 1⟩, ⟨0, 0, 0⟩, 96000⟩]).isSome = true := by
    norm_num [integrate_imu_samples, survive_imu_tracker_integrate_imu, integrate_imu_mahony,
      mahony_ahrs, survive_imu_tracker_integrate_rotation, survive_update_rotation,
      update_pose_rot, survive_imu_tracker_predict_rot, quatiszero, cross3d, quatadd,
      linmath_min, integrate_imu_time_gap,
      integrate_imu_velocity, integrate_imu_velocity_isinf, RotateAccel, survive_imu_tracker_integrate_velocity,
      survive_update_pose_axis_angle, survive_update_position, position_ref.update_fn,
      position_ref.get, position_ref.set, survive_update_axis_angle_rotation, update_vel_pos,
      update_vel_rot, survive_imu_tracker_predict_velocity_pos,
      survive_imu_tracker_predict_velocity_rot, survive_update_kalman_variance,
      time_diff_seconds, survive_timecode_difference, survive_imu_tracker_init, scenario_so,
      default_config, zero3d, scale3d, add3d, scenario_linmath, warm_tracker, first_observed,
      rest_pose]
  obtain ⟨t1, h⟩ := Option.isSome_iff_exists.mp hs
  refine ⟨hq, by norm_num [scale3d, mahony_v], congrArg Prod.snd hT.2.2.1, t1, h, ?_⟩
  exact hT.2.2.2.2 scenario_linmath_identity_laws
    { warm_tracker with mahony_variance := 1 / 100 }
    [⟨1, ⟨0, 0, 1⟩, ⟨0, 0, 0⟩, 48000⟩, ⟨1, ⟨0, 0, 1⟩, ⟨0, 0, 0⟩, 96000⟩]
    ⟨rfl, rfl, rfl, rfl⟩
    (by norm_num [warm_tracker, first_observed, survive_imu_tracker_init])
    (by
      intro d hd
      simp only [List.mem_cons, List.mem_singleton, List.not_mem_nil, or_false] at hd
      rcases hd with rfl | rfl <;> exact ⟨rfl, rfl⟩) 2 t1 h

/-! ## C25: Mahony keeps the orientation unit-norm -/

theorem mahony_correction_hamilton (q : LinmathQuat) (w : LinmathVec3d) (f : FLT) :
    mahony_correction q (scale3d w ((1 / 2) / f)) =
      quatscale_by (hamilton q (pure_quat (scale3d w (1 / f)))) (1 / 2) := by
  simp only [mahony_correction, hamilton, pure_quat, quatscale_by, scale3d,
    LinmathQuat.mk.injEq]
  refine ⟨by ring, by ring, by ring, by ring⟩

theorem mahony_correction_orthogonal (q : LinmathQuat) (g : LinmathVec3d) :
    quat_dot q (mahony_correction q g) = 0 := by
  simp only [quat_dot, mahony_correction]
  ring

theorem mahony_sum_norm_sq (q : LinmathQuat) (g : LinmathVec3d) :
    quat_norm_sq (quatadd q (mahony_correction q g)) = quat_norm_sq q * (1 + norm3d_sq g) := by
  simp only [quat_norm_sq, quat_dot, quatadd, mahony_correction, norm3d_sq]
  ring

/-- C25: for every unit quaternion `q` and every gyro and accel, with `w` the
corrected angular rate and `f = imu_freq`, the increment `mahony_ahrs` adds to
`q` is the Hamilton product `1/2 * q * [0, w/f]`; it is orthogonal to `q`, so
the un-normalised sum has squared norm `1 + |w/(2f)|^2 >= 1` and is not the
zero quaternion; and with a `quatnormalize` that returns a quaternion of norm
one for every non-zero argument, the quaternion `mahony_ahrs` returns has norm
exactly one. -/
theorem mahony_keeps_unit_norm (L : Linmath) (tracker : SurviveIMUTracker) (q : LinmathQuat)
    (gyro accel : LinmathVec3d) (hq : quat_norm_sq q = 1) :
    (mahony_ahrs L tracker q gyro accel).2 =
        L.quatnormalize (quatadd q (quatscale_by
          (hamilton q (pure_quat (scale3d (mahony_rate L q gyro accel)
            (1 / (tracker.so.imu_freq : FLT))))) (1 / 2))) ∧
      quat_dot q (quatscale_by
          (hamilton q (pure_quat (scale3d (mahony_rate L q gyro accel)
            (1 / (tracker.so.imu_freq : FLT))))) (1 / 2)) = 0 ∧
      quat_norm_sq (quatadd q (quatscale_by
          (hamilton q (pure_quat (scale3d (mahony_rate L q gyro accel)
            (1 / (tracker.so.imu_freq : FLT))))) (1 / 2))) =
        1 + norm3d_sq (scale3d (mahony_rate L q gyro accel)
          ((1 / 2) / (tracker.so.imu_freq : FLT))) ∧
      1 ≤ quat_norm_sq (quatadd q (quatscale_by
          (hamilton q (pure_quat (scale3d (mahony_rate L q gyro accel)
            (1 / (tracker.so.imu_freq : FLT))))) (1 / 2))) ∧
      quatiszero (quatadd q (quatscale_by
          (hamilton q (pure_quat (scale3d (mahony_rate L q gyro accel)
            (1 / (tracker.so.imu_freq : FLT))))) (1 / 2))) = false ∧
      ((∀ p, quat_norm_sq p ≠ 0 → quat_norm_sq (L.quatnormalize p) = 1) →
        quat_norm_sq (mahony_ahrs L tracker q gyro accel).2 = 1) := by
  have hc := mahony_correction_hamilton q (mahony_rate L q gyro accel)
    (tracker.so.imu_freq : FLT)
  have hsum : quat_norm_sq (quatadd q (mahony_correction q
      (scale3d (mahony_rate L q gyro accel) ((1 / 2) / (tracker.so.imu_freq : FLT))))) =
      1 + norm3d_sq (scale3d (mahony_rate L q gyro accel)
        ((1 / 2) / (tracker.so.imu_freq : FLT))) := by
    rw [mahony_sum_norm_sq, hq, one_mul]
  have hnn : 0 ≤ norm3d_sq (scale3d (mahony_rate L q gyro accel)
      ((1 / 2) / (tracker.so.imu_freq : FLT))) := by
    unfold norm3d_sq
    nlinarith [mul_self_nonneg (scale3d (mahony_rate L q gyro accel)
        ((1 / 2) / (tracker.so.imu_freq : FLT))).x,
      mul_self_nonneg (scale3d (mahony_rate L q gyro accel)
        ((1 / 2) / (tracker.so.imu_freq : FLT))).y,
      mul_self_nonneg (scale3d (mahony_rate L q gyro accel)
        ((1 / 2) / (tracker.so.imu_freq : FLT))).z]
  rw [← hc]
  refine ⟨mahony_ahrs_snd L tracker q gyro accel, mahony_correction_orthogonal q _, hsum,
    by rw [hsum]; linarith, ?_, ?_⟩
  · cases hz : quatiszero (quatadd q (mahony_correction q
        (scale3d (mahony_rate L q gyro accel) ((1 / 2) / (tracker.so.imu_freq : FLT))))) with
    | false => rfl
    | true =>
      exfalso
      have h0 : quat_norm_sq (quatadd q (mahony_correction q
          (scale3d (mahony_rate L q gyro accel)
            ((1 / 2) / (tracker.so.imu_freq : FLT))))) = 0 := by
        unfold quatiszero at hz
        simp only [Bool.and_eq_true, decide_eq_true_eq] at hz
        obtain ⟨⟨⟨h1, h2⟩, h3⟩, h4⟩ := hz
        simp only [quat_norm_sq, quat_dot, h1, h2, h3, h4]
        ring
      rw [hsum] at h0
      linarith
  · intro hnorm
    rw [mahony_ahrs_snd]
    apply hnorm
    rw [hsum]
    intro h0
    linarith

theorem unit_linmath_normalize (p : LinmathQuat) :
    quat_norm_sq (unit_linmath.quatnormalize p) = 1 := by
  show quat_norm_sq (if quat_norm_sq p = 1 then p else ⟨1, 0, 0, 0⟩) = 1
  split
  · assumption
  · norm_num [quat_norm_sq, quat_dot]

/-- An instance of C25: the identity at 1 kHz with `gyro = (0,0,1500)` and
`accel = (0,0,1)`; the corrected rate is the gyroscope reading, the
un-normalised sum has squared norm `1 + (3/4)^2 = 25/16`, and the result of
`mahony_ahrs` has norm one. -/
theorem mahony_keeps_unit_norm_witness :
    quat_norm_sq ⟨1, 0, 0, 0⟩ = 1 ∧
      1 + norm3d_sq (scale3d (mahony_rate unit_linmath ⟨1, 0, 0, 0⟩ ⟨0, 0, 1500⟩ ⟨0, 0, 1⟩)
        ((1 / 2) / (warm_tracker.so.imu_freq : FLT))) = 25 / 16 ∧
      quat_norm_sq (quatadd ⟨1, 0, 0, 0⟩ (quatscale_by
          (hamilton ⟨1, 0, 0, 0⟩ (pure_quat (scale3d
            (mahony_rate unit_linmath ⟨1, 0, 0, 0⟩ ⟨0, 0, 1500⟩ ⟨0, 0, 1⟩)
            (1 / (warm_tracker.so.imu_freq : FLT))))) (1 / 2))) =
        1 + norm3d_sq (scale3d (mahony_rate unit_linmath ⟨1, 0, 0, 0⟩ ⟨0, 0, 1500⟩ ⟨0, 0, 1⟩)
          ((1 / 2) / (warm_tracker.so.imu_freq : FLT))) ∧
      quat_norm_sq (mahony_ahrs unit_linmath warm_tracker ⟨1, 0, 0, 0⟩ ⟨0, 0, 1500⟩
        ⟨0, 0, 1⟩).2 = 1 := by
  have hq : quat_norm_sq ⟨1, 0, 0, 0⟩ = 1 := by norm_num [quat_norm_sq, quat_dot]
  have hT := mahony_keeps_unit_norm unit_linmath warm_tracker ⟨1, 0, 0, 0⟩ ⟨0, 0, 1500⟩
    ⟨0, 0, 1⟩ hq
  refine ⟨hq, ?_, hT.2.2.1, hT.2.2.2.2.2 (fun p _ => unit_linmath_normalize p)⟩
  norm_num [norm3d_sq, scale3d, mahony_rate, mahony_v, cross3d, add3d, unit_linmath,
    scenario_linmath, warm_tracker, first_observed, survive_imu_tracker_init, scenario_so]

/-! ## C27: the short options of the command line -/

/-- C27 (the code at the failing input): for every argument vector, a pair
`-p X`, `-l X` or `-c X` puts the key the usage text names into `vartoupdate`,
but the call of `survive_configs` receives `*av + 2`, the option from its third
character on: for `survive-cli -p PoserDummy` the key passed is the empty
string, not `defaultposer` (likewise `-l 1` and `-c my.json`), while
`--defaultposer PoserDummy` does pass `defaultposer`. -/
theorem short_option_passes_suffix :
    (∀ (tail value : CString) (rest : List CString) (r : ArgsOutcome),
        process_args (('-' :: 'p' :: tail) :: value :: rest) r =
          process_args rest { r with calls := r.calls ++ [⟨tail, value⟩] }) ∧
      (∀ (tail value : CString) (rest : List CString) (r : ArgsOutcome),
        process_args (('-' :: 'l' :: tail) :: value :: rest) r =
          process_args rest { r with calls := r.calls ++ [⟨tail, value⟩] }) ∧
      (∀ (tail value : CString) (rest : List CString) (r : ArgsOutcome),
        process_args (('-' :: 'c' :: tail) :: value :: rest) r =
          process_args rest { r with calls := r.calls ++ [⟨tail, value⟩] }) ∧
      (∀ (tail value : CString) (rest : List CString) (r : ArgsOutcome),
        process_args (('-' :: '-' :: tail) :: value :: rest) r =
          process_args rest { r with calls := r.calls ++ [⟨tail, value⟩] }) ∧
      (switch_vartoupdate "-p".toList ⟨false, [], 0⟩).1 = usage_key 'p' ∧
      usage_key 'p' = some "defaultposer".toList ∧
      survive_init_internal ["survive-cli".toList, "-p".toList, "PoserDummy".toList] =
        some [⟨"".toList, "PoserDummy".toList⟩] ∧
      survive_init_internal ["survive-cli".toList, "-l".toList, "1".toList] =
        some [⟨"".toList, "1".toList⟩] ∧
      survive_init_internal ["survive-cli".toList, "-c".toList, "my.json".toList] =
        some [⟨"".toList, "my.json".toList⟩] ∧
      survive_init_internal
          ["survive-cli".toList, "--defaultposer".toList, "PoserDummy".toList] =
        some [⟨"defaultposer".toList, "PoserDummy".toList⟩] := by
  refine ⟨?_, ?_, ?_, ?_, by decide, by decide, by decide, by decide, by decide, by decide⟩
  · intro tail value rest r
    simp [process_args, switch_vartoupdate]
  · intro tail value rest r
    simp [process_args, switch_vartoupdate]
  · intro tail value rest r
    simp [process_args, switch_vartoupdate]
  · intro tail value rest r
    simp [process_args, switch_vartoupdate]

end Survive
